import Mathlib

/-!
# Route processors of the Kubernetes provider

A shallow embedding of `internal/provider/kubernetes/routes.go`: the five
route processors `processTLSRoutes`, `processGRPCRoutes`, `processHTTPRoutes`,
`processTCPRoutes` and `processUDPRoutes`, which walk the routes attached to a
Gateway, record their backend references, consumed ReferenceGrants and
namespaces in the `resourceMappings` working set, resolve ExtensionRef filters
and append the routes (status cleared) to the `gatewayapi.Resources` tree.

Go maps are total functions into `Option` (sets are `Finset`s), Go slices are
lists, a pointer that may be nil is an `Option` holding what it points to, and
the mutable `resourceMap`/`resourceTree` arguments are passed and returned
explicitly. The backend-reference map, whose key type has pointer fields, is
kept twice: as the set of the contents of its keys in `resourceMappings`, and
with the addresses Go compares in `KeyedBackendRefs`.
Log output is not part of the state.
-/

namespace Kubernetes

/-! ## Data model -/

/-- A Go `error` value. -/
abbrev Error := String

/-- The key type `types.NamespacedName`. -/
structure types.NamespacedName where
  Namespace : String
  Name : String
deriving DecidableEq, Repr

/-- The struct `ObjectKindNamespacedName` handed to `findReferenceGrant`
(fields `kind`, `namespace`, `name`). -/
structure ObjectKindNamespacedName where
  kind : String
  namespace_ : String
  name : String
deriving DecidableEq, Repr

/-- The Gateway API type `BackendObjectReference`, declared outside
`routes.go`. Its optional fields are pointers; here each holds what the
pointer points to, so two values are equal when their contents are. As key of
the Go map `allAssociatedBackendRefs` the runtime compares the pointer fields
by address instead: that comparison is kept by `BackendRefKey`. -/
structure gwapiv1b1.BackendObjectReference where
  Group : Option String
  Kind : Option String
  Name : String
  Namespace : Option String
  Port : Option Nat
deriving DecidableEq, Repr

/-- The canonical (v1beta1) `BackendRef`: an embedded object reference and a weight. -/
structure gwapiv1b1.BackendRef extends gwapiv1b1.BackendObjectReference where
  Weight : Option Int
deriving DecidableEq, Repr

/-- The older (v1alpha2) `BackendRef` shape used by TLS, TCP and UDP routes. -/
structure gwapiv1a2.BackendRef extends gwapiv1b1.BackendObjectReference where
  Weight : Option Int
deriving DecidableEq, Repr

/-- One entry of a route's status. -/
structure gwapiv1b1.RouteParentStatus where
  ParentRef : String
  ControllerName : String
deriving DecidableEq, Repr

/-- The status sub-object shared by all route kinds; `{}` is the empty status. -/
structure gwapiv1b1.RouteStatus where
  Parents : List gwapiv1b1.RouteParentStatus := []
deriving DecidableEq, Repr

/-- The reference `LocalObjectReference` carried by an ExtensionRef filter. -/
structure gwapiv1b1.LocalObjectReference where
  Group : String
  Kind : String
  Name : String
deriving DecidableEq, Repr

/-- The configuration of a RequestMirror filter: its single backend target. -/
structure gwapiv1b1.HTTPRequestMirrorFilter where
  BackendRef : gwapiv1b1.BackendObjectReference
deriving DecidableEq, Repr

/-- An HTTPRoute filter: the `Type` string and the two optional configurations
the processor reads. -/
structure gwapiv1b1.HTTPRouteFilter where
  Type_ : String
  RequestMirror : Option gwapiv1b1.HTTPRequestMirrorFilter
  ExtensionRef : Option gwapiv1b1.LocalObjectReference
deriving DecidableEq, Repr

/-- A GRPCRoute filter. -/
structure gwapiv1a2.GRPCRouteFilter where
  Type_ : String
  RequestMirror : Option gwapiv1b1.HTTPRequestMirrorFilter
  ExtensionRef : Option gwapiv1b1.LocalObjectReference
deriving DecidableEq, Repr

/-- A backend reference of an HTTPRoute rule (embeds `BackendRef`). -/
structure gwapiv1b1.HTTPBackendRef extends gwapiv1b1.BackendRef where
  Filters : List gwapiv1b1.HTTPRouteFilter
deriving DecidableEq, Repr

/-- A backend reference of a GRPCRoute rule (embeds `BackendRef`). -/
structure gwapiv1a2.GRPCBackendRef extends gwapiv1b1.BackendRef where
  Filters : List gwapiv1a2.GRPCRouteFilter
deriving DecidableEq, Repr

structure gwapiv1b1.HTTPRouteRule where
  BackendRefs : List gwapiv1b1.HTTPBackendRef
  Filters : List gwapiv1b1.HTTPRouteFilter
deriving DecidableEq, Repr

structure gwapiv1a2.GRPCRouteRule where
  BackendRefs : List gwapiv1a2.GRPCBackendRef
  Filters : List gwapiv1a2.GRPCRouteFilter
deriving DecidableEq, Repr

structure gwapiv1a2.TLSRouteRule where
  BackendRefs : List gwapiv1a2.BackendRef
deriving DecidableEq, Repr

structure gwapiv1a2.TCPRouteRule where
  BackendRefs : List gwapiv1a2.BackendRef
deriving DecidableEq, Repr

structure gwapiv1a2.UDPRouteRule where
  BackendRefs : List gwapiv1a2.BackendRef
deriving DecidableEq, Repr

structure gwapiv1b1.HTTPRouteSpec where
  Hostnames : List String
  Rules : List gwapiv1b1.HTTPRouteRule
deriving DecidableEq, Repr

structure gwapiv1a2.GRPCRouteSpec where
  Hostnames : List String
  Rules : List gwapiv1a2.GRPCRouteRule
deriving DecidableEq, Repr

structure gwapiv1a2.TLSRouteSpec where
  Hostnames : List String
  Rules : List gwapiv1a2.TLSRouteRule
deriving DecidableEq, Repr

structure gwapiv1a2.TCPRouteSpec where
  Rules : List gwapiv1a2.TCPRouteRule
deriving DecidableEq, Repr

structure gwapiv1a2.UDPRouteSpec where
  Rules : List gwapiv1a2.UDPRouteRule
deriving DecidableEq, Repr

structure gwapiv1b1.HTTPRoute where
  Namespace : String
  Name : String
  Spec : gwapiv1b1.HTTPRouteSpec
  Status : gwapiv1b1.RouteStatus
deriving DecidableEq, Repr

structure gwapiv1a2.GRPCRoute where
  Namespace : String
  Name : String
  Spec : gwapiv1a2.GRPCRouteSpec
  Status : gwapiv1b1.RouteStatus
deriving DecidableEq, Repr

structure gwapiv1a2.TLSRoute where
  Namespace : String
  Name : String
  Spec : gwapiv1a2.TLSRouteSpec
  Status : gwapiv1b1.RouteStatus
deriving DecidableEq, Repr

structure gwapiv1a2.TCPRoute where
  Namespace : String
  Name : String
  Spec : gwapiv1a2.TCPRouteSpec
  Status : gwapiv1b1.RouteStatus
deriving DecidableEq, Repr

structure gwapiv1a2.UDPRoute where
  Namespace : String
  Name : String
  Spec : gwapiv1a2.UDPRouteSpec
  Status : gwapiv1b1.RouteStatus
deriving DecidableEq, Repr

/-- One `From` entry of a ReferenceGrant. -/
structure gwapiv1a2.ReferenceGrantFrom where
  Group : String
  Kind : String
  Namespace : String
deriving DecidableEq, Repr

/-- One `To` entry of a ReferenceGrant; an absent name means any name. -/
structure gwapiv1a2.ReferenceGrantTo where
  Group : String
  Kind : String
  Name : Option String
deriving DecidableEq, Repr

structure gwapiv1a2.ReferenceGrant where
  Namespace : String
  Name : String
  From : List gwapiv1a2.ReferenceGrantFrom
  To : List gwapiv1a2.ReferenceGrantTo
deriving DecidableEq, Repr

/-- An `AuthenticationFilter` object of the authentication catalog. -/
structure egv1a1.AuthenticationFilter where
  Namespace : String
  Name : String
  Spec : String
deriving DecidableEq, Repr

/-- A `RateLimitFilter` object of the rate-limit catalog. -/
structure egv1a1.RateLimitFilter where
  Namespace : String
  Name : String
  Spec : String
deriving DecidableEq, Repr

/-- An externally-managed filter object (`unstructured.Unstructured`). -/
structure unstructured.Unstructured where
  Kind : String
  Namespace : String
  Name : String
  Object : String
deriving DecidableEq, Repr

/-- Modelled from the spec: the working set `resourceMappings` is declared
outside `routes.go`; its fields are the six maps the processors use: the
namespace set, the backend-reference set, the consumed-grant map and the
three filter catalogs, which hold non-nil pointers (`authenFilters`,
`rateLimitFilters`) or values (`extensionRefFilters`).
`allAssociatedBackendRefs` is the set of the contents of the keys of the Go
map, which is what a reader of the map obtains by dereferencing its keys; how
many keys the Go map holds, its keys compared by address, is kept by
`KeyedBackendRefs`. -/
structure resourceMappings where
  allAssociatedNamespaces : Finset String
  allAssociatedBackendRefs : Finset gwapiv1b1.BackendObjectReference
  allAssociatedRefGrants : types.NamespacedName → Option gwapiv1a2.ReferenceGrant
  authenFilters : types.NamespacedName → Option egv1a1.AuthenticationFilter
  rateLimitFilters : types.NamespacedName → Option egv1a1.RateLimitFilter
  extensionRefFilters : types.NamespacedName → Option unstructured.Unstructured

/-- Modelled from the spec: the resource tree `gatewayapi.Resources` is
declared outside `routes.go`; its fields are the eight lists the processors
append to. `AuthenticationFilters` and `RateLimitFilters` are slices of
pointers, so an entry can be nil (`none`). -/
structure gatewayapi.Resources where
  TLSRoutes : List gwapiv1a2.TLSRoute
  GRPCRoutes : List gwapiv1a2.GRPCRoute
  HTTPRoutes : List gwapiv1b1.HTTPRoute
  TCPRoutes : List gwapiv1a2.TCPRoute
  UDPRoutes : List gwapiv1a2.UDPRoute
  AuthenticationFilters : List (Option egv1a1.AuthenticationFilter)
  RateLimitFilters : List (Option egv1a1.RateLimitFilter)
  ExtensionRefFilters : List unstructured.Unstructured
deriving DecidableEq, Repr

/-- What a processor leaves behind when it returns: the returned error (`none`
is Go's nil) and the two aggregates it mutated through its pointer arguments. -/
structure Returned where
  err : Option Error
  resourceMap : resourceMappings
  resourceTree : gatewayapi.Resources

/-- The reconciler `r` together with the collaborators the processors call and
whose code lives outside `routes.go`: the route listings of `r.client.List`
(by Gateway identity), the three filter listings, `findReferenceGrant`, and
the package functions `validateBackendRef`, `gatewayapi.UpgradeBackendRef`,
`gatewayapi.ValidateHTTPRouteFilter` and `gatewayapi.ValidateGRPCRouteFilter`
(applied to `r.extGVKs`). A validator returns `none` for Go's nil error. -/
structure gatewayAPIReconciler where
  listTLSRoutes : String → Except Error (List gwapiv1a2.TLSRoute)
  listGRPCRoutes : String → Except Error (List gwapiv1a2.GRPCRoute)
  listHTTPRoutes : String → Except Error (List gwapiv1b1.HTTPRoute)
  listTCPRoutes : String → Except Error (List gwapiv1a2.TCPRoute)
  listUDPRoutes : String → Except Error (List gwapiv1a2.UDPRoute)
  getAuthenticationFilters : Except Error (List egv1a1.AuthenticationFilter)
  getRateLimitFilters : Except Error (List egv1a1.RateLimitFilter)
  getExtensionRefFilters : Except Error (List unstructured.Unstructured)
  findReferenceGrant : ObjectKindNamespacedName → ObjectKindNamespacedName →
    Except Error (Option gwapiv1a2.ReferenceGrant)
  validateBackendRef : gwapiv1b1.BackendRef → Option Error
  UpgradeBackendRef : gwapiv1a2.BackendRef → gwapiv1b1.BackendRef
  ValidateHTTPRouteFilter : gwapiv1b1.HTTPRouteFilter → Option Error
  ValidateGRPCRouteFilter : gwapiv1a2.GRPCRouteFilter → Option Error

/-! ## Constants and helpers of the `gatewayapi`, `egv1a1` and `utils` packages -/

/-- Modelled from the spec: the kind a backend reference defaults to. -/
def gatewayapi.KindService : String := "Service"
/-- The route kind handed to `findReferenceGrant` by `processTLSRoutes`. -/
def gatewayapi.KindTLSRoute : String := "TLSRoute"
/-- The route kind handed to `findReferenceGrant` by `processGRPCRoutes`. -/
def gatewayapi.KindGRPCRoute : String := "GRPCRoute"
/-- Modelled from the spec: the source kind of an HTTPRoute (Scenario B). -/
def gatewayapi.KindHTTPRoute : String := "HTTPRoute"
/-- The route kind handed to `findReferenceGrant` by `processTCPRoutes`. -/
def gatewayapi.KindTCPRoute : String := "TCPRoute"
/-- The route kind handed to `findReferenceGrant` by `processUDPRoutes`. -/
def gatewayapi.KindUDPRoute : String := "UDPRoute"
/-- Modelled from the spec: the first reserved kind-string. -/
def egv1a1.KindAuthenticationFilter : String := "AuthenticationFilter"
/-- Modelled from the spec: the second reserved kind-string. -/
def egv1a1.KindRateLimitFilter : String := "RateLimitFilter"
/-- The filter type of a RequestMirror filter. -/
def gwapiv1b1.HTTPRouteFilterRequestMirror : String := "RequestMirror"
/-- The filter type of an ExtensionRef filter of an HTTPRoute. -/
def gwapiv1b1.HTTPRouteFilterExtensionRef : String := "ExtensionRef"
/-- The filter type of an ExtensionRef filter of a GRPCRoute. -/
def gwapiv1a2.GRPCRouteFilterExtensionRef : String := "ExtensionRef"

/-- Modelled from the spec: `gatewayapi.NamespaceDerefOr` is not part of
`routes.go`; a reference's namespace, when absent, defaults to the owning
route's namespace. -/
def gatewayapi.NamespaceDerefOr (namespace_ : Option String) (defaultNamespace : String) : String :=
  match namespace_ with
  | some n => n
  | none => defaultNamespace

/-- Modelled from the spec: `gatewayapi.NamespaceDerefOrAlpha` is not part of
`routes.go`; the same defaulting for the older reference shape. -/
def gatewayapi.NamespaceDerefOrAlpha (namespace_ : Option String) (defaultNamespace : String) :
    String :=
  match namespace_ with
  | some n => n
  | none => defaultNamespace

/-- Modelled from the spec: `gatewayapi.KindDerefOr` is not part of `routes.go`;
a reference's kind, when absent, defaults to the given kind. -/
def gatewayapi.KindDerefOr (kind : Option String) (defaultKind : String) : String :=
  match kind with
  | some k => k
  | none => defaultKind

/-- Modelled from the spec: `gatewayapi.NamespacePtrV1Alpha2` is not part of
`routes.go`; it returns a pointer to the resolved namespace, the
namespace-resolved part of a reference's identity. This is what the pointer
points to; the address it has is kept by `recordBackendRefKey`. -/
def gatewayapi.NamespacePtrV1Alpha2 (namespace_ : String) : Option String :=
  some namespace_

/-- The namespaced identity `utils.NamespacedName` of a ReferenceGrant. -/
def utils.NamespacedName (obj : gwapiv1a2.ReferenceGrant) : types.NamespacedName :=
  { Namespace := obj.Namespace, Name := obj.Name }

/-- The identity `utils.NamespacedName` of an AuthenticationFilter. -/
def utils.NamespacedNameAuthn (obj : egv1a1.AuthenticationFilter) : types.NamespacedName :=
  { Namespace := obj.Namespace, Name := obj.Name }

/-- The identity `utils.NamespacedName` of a RateLimitFilter. -/
def utils.NamespacedNameRateLimit (obj : egv1a1.RateLimitFilter) : types.NamespacedName :=
  { Namespace := obj.Namespace, Name := obj.Name }

/-- The identity `utils.NamespacedName` of an externally-managed filter. -/
def utils.NamespacedNameExt (obj : unstructured.Unstructured) : types.NamespacedName :=
  { Namespace := obj.Namespace, Name := obj.Name }

/-! ## The shared backend-reference block -/

/-- The block that follows a successful `validateBackendRef`, written out six
times in `routes.go` (lines 50-72, 131-161, 282-312, 349-379, 462-484, 524-546):
the reference is stored in `allAssociatedBackendRefs` under the key built from
its group, kind, resolved namespace and name; when the resolved namespace
differs from the route's, `findReferenceGrant` is asked, and only a returned
grant is stored in `allAssociatedRefGrants` (an error or a nil grant is logged). -/
def gatewayAPIReconciler.recordBackendRef (r : gatewayAPIReconciler) (routeKind : String)
    (routeNamespace routeName : String) (backendRef : gwapiv1b1.BackendObjectReference)
    (backendNamespace : String) (resourceMap : resourceMappings) : resourceMappings :=
  let resourceMap1 : resourceMappings :=
    { resourceMap with
      allAssociatedBackendRefs :=
        insert
          ({ Group := backendRef.Group
             Kind := backendRef.Kind
             Namespace := gatewayapi.NamespacePtrV1Alpha2 backendNamespace
             Name := backendRef.Name
             Port := none } : gwapiv1b1.BackendObjectReference)
          resourceMap.allAssociatedBackendRefs }
  if backendNamespace ≠ routeNamespace then
    let from_ : ObjectKindNamespacedName :=
      { kind := routeKind, namespace_ := routeNamespace, name := routeName }
    let to_ : ObjectKindNamespacedName :=
      { kind := gatewayapi.KindDerefOr backendRef.Kind gatewayapi.KindService
        namespace_ := backendNamespace
        name := backendRef.Name }
    match r.findReferenceGrant from_ to_ with
    | .error _ => resourceMap1
    | .ok none => resourceMap1
    | .ok (some refGrant) =>
      { resourceMap1 with
        allAssociatedRefGrants :=
          Function.update resourceMap1.allAssociatedRefGrants (utils.NamespacedName refGrant)
            (some refGrant) }
  else resourceMap1

/-! ## processTLSRoutes, processTCPRoutes, processUDPRoutes -/

/-- Body of the loop over `rule.BackendRefs` in `processTLSRoutes` (lines 41-73). -/
def gatewayAPIReconciler.tlsBackendRefStep (r : gatewayAPIReconciler) (tlsRoute : gwapiv1a2.TLSRoute)
    (resourceMap : resourceMappings) (backendRef : gwapiv1a2.BackendRef) : resourceMappings :=
  let ref := r.UpgradeBackendRef backendRef
  match r.validateBackendRef ref with
  | some _ => resourceMap
  | none =>
    let backendNamespace := gatewayapi.NamespaceDerefOrAlpha backendRef.Namespace tlsRoute.Namespace
    r.recordBackendRef gatewayapi.KindTLSRoute tlsRoute.Namespace tlsRoute.Name
      backendRef.toBackendObjectReference backendNamespace resourceMap

/-- Body of the loop over `tlsRouteList.Items` (lines 36-81). -/
def gatewayAPIReconciler.tlsRouteStep (r : gatewayAPIReconciler)
    (s : resourceMappings × gatewayapi.Resources) (tlsRoute : gwapiv1a2.TLSRoute) :
    resourceMappings × gatewayapi.Resources :=
  let resourceMap := tlsRoute.Spec.Rules.foldl
    (fun rm rule => rule.BackendRefs.foldl (r.tlsBackendRefStep tlsRoute) rm) s.1
  ({ resourceMap with
      allAssociatedNamespaces := insert tlsRoute.Namespace resourceMap.allAssociatedNamespaces },
   { s.2 with TLSRoutes := s.2.TLSRoutes ++ [{ tlsRoute with Status := {} }] })

/-- The processor `processTLSRoutes` (lines 26-84). -/
def gatewayAPIReconciler.processTLSRoutes (r : gatewayAPIReconciler)
    (gatewayNamespaceName : String) (resourceMap : resourceMappings)
    (resourceTree : gatewayapi.Resources) : Returned :=
  match r.listTLSRoutes gatewayNamespaceName with
  | .error err => { err := some err, resourceMap := resourceMap, resourceTree := resourceTree }
  | .ok tlsRouteList =>
    let s := tlsRouteList.foldl r.tlsRouteStep (resourceMap, resourceTree)
    { err := none, resourceMap := s.1, resourceTree := s.2 }

/-- Body of the loop over `rule.BackendRefs` in `processTCPRoutes` (lines 453-485). -/
def gatewayAPIReconciler.tcpBackendRefStep (r : gatewayAPIReconciler) (tcpRoute : gwapiv1a2.TCPRoute)
    (resourceMap : resourceMappings) (backendRef : gwapiv1a2.BackendRef) : resourceMappings :=
  let ref := r.UpgradeBackendRef backendRef
  match r.validateBackendRef ref with
  | some _ => resourceMap
  | none =>
    let backendNamespace := gatewayapi.NamespaceDerefOrAlpha backendRef.Namespace tcpRoute.Namespace
    r.recordBackendRef gatewayapi.KindTCPRoute tcpRoute.Namespace tcpRoute.Name
      backendRef.toBackendObjectReference backendNamespace resourceMap

/-- Body of the loop over `tcpRouteList.Items` (lines 448-493). -/
def gatewayAPIReconciler.tcpRouteStep (r : gatewayAPIReconciler)
    (s : resourceMappings × gatewayapi.Resources) (tcpRoute : gwapiv1a2.TCPRoute) :
    resourceMappings × gatewayapi.Resources :=
  let resourceMap := tcpRoute.Spec.Rules.foldl
    (fun rm rule => rule.BackendRefs.foldl (r.tcpBackendRefStep tcpRoute) rm) s.1
  ({ resourceMap with
      allAssociatedNamespaces := insert tcpRoute.Namespace resourceMap.allAssociatedNamespaces },
   { s.2 with TCPRoutes := s.2.TCPRoutes ++ [{ tcpRoute with Status := {} }] })

/-- The processor `processTCPRoutes` (lines 438-496). -/
def gatewayAPIReconciler.processTCPRoutes (r : gatewayAPIReconciler)
    (gatewayNamespaceName : String) (resourceMap : resourceMappings)
    (resourceTree : gatewayapi.Resources) : Returned :=
  match r.listTCPRoutes gatewayNamespaceName with
  | .error err => { err := some err, resourceMap := resourceMap, resourceTree := resourceTree }
  | .ok tcpRouteList =>
    let s := tcpRouteList.foldl r.tcpRouteStep (resourceMap, resourceTree)
    { err := none, resourceMap := s.1, resourceTree := s.2 }

/-- Body of the loop over `rule.BackendRefs` in `processUDPRoutes` (lines 515-547). -/
def gatewayAPIReconciler.udpBackendRefStep (r : gatewayAPIReconciler) (udpRoute : gwapiv1a2.UDPRoute)
    (resourceMap : resourceMappings) (backendRef : gwapiv1a2.BackendRef) : resourceMappings :=
  let ref := r.UpgradeBackendRef backendRef
  match r.validateBackendRef ref with
  | some _ => resourceMap
  | none =>
    let backendNamespace := gatewayapi.NamespaceDerefOrAlpha backendRef.Namespace udpRoute.Namespace
    r.recordBackendRef gatewayapi.KindUDPRoute udpRoute.Namespace udpRoute.Name
      backendRef.toBackendObjectReference backendNamespace resourceMap

/-- Body of the loop over `udpRouteList.Items` (lines 510-555). -/
def gatewayAPIReconciler.udpRouteStep (r : gatewayAPIReconciler)
    (s : resourceMappings × gatewayapi.Resources) (udpRoute : gwapiv1a2.UDPRoute) :
    resourceMappings × gatewayapi.Resources :=
  let resourceMap := udpRoute.Spec.Rules.foldl
    (fun rm rule => rule.BackendRefs.foldl (r.udpBackendRefStep udpRoute) rm) s.1
  ({ resourceMap with
      allAssociatedNamespaces := insert udpRoute.Namespace resourceMap.allAssociatedNamespaces },
   { s.2 with UDPRoutes := s.2.UDPRoutes ++ [{ udpRoute with Status := {} }] })

/-- The processor `processUDPRoutes` (lines 500-558). -/
def gatewayAPIReconciler.processUDPRoutes (r : gatewayAPIReconciler)
    (gatewayNamespaceName : String) (resourceMap : resourceMappings)
    (resourceTree : gatewayapi.Resources) : Returned :=
  match r.listUDPRoutes gatewayNamespaceName with
  | .error err => { err := some err, resourceMap := resourceMap, resourceTree := resourceTree }
  | .ok udpRouteList =>
    let s := udpRouteList.foldl r.udpRouteStep (resourceMap, resourceTree)
    { err := none, resourceMap := s.1, resourceTree := s.2 }

/-! ## processGRPCRoutes -/

/-- The catalog loop of lines 98-101 and 240-243: every listed
AuthenticationFilter is stored under its namespaced name. -/
def loadAuthenFilters (authenFilters : List egv1a1.AuthenticationFilter)
    (catalog : types.NamespacedName → Option egv1a1.AuthenticationFilter) :
    types.NamespacedName → Option egv1a1.AuthenticationFilter :=
  authenFilters.foldl
    (fun m filter => Function.update m (utils.NamespacedNameAuthn filter) (some filter)) catalog

/-- The catalog loop of lines 107-110 and 249-252 for RateLimitFilters. -/
def loadRateLimitFilters (rateLimitFilters : List egv1a1.RateLimitFilter)
    (catalog : types.NamespacedName → Option egv1a1.RateLimitFilter) :
    types.NamespacedName → Option egv1a1.RateLimitFilter :=
  rateLimitFilters.foldl
    (fun m filter => Function.update m (utils.NamespacedNameRateLimit filter) (some filter)) catalog

/-- The catalog loop of lines 258-261 for externally-managed filters. -/
def loadExtensionRefFilters (extensionRefFilters : List unstructured.Unstructured)
    (catalog : types.NamespacedName → Option unstructured.Unstructured) :
    types.NamespacedName → Option unstructured.Unstructured :=
  extensionRefFilters.foldl
    (fun m filter => Function.update m (utils.NamespacedNameExt filter) (some filter)) catalog

/-- Body of the loop over `rule.BackendRefs` in `processGRPCRoutes` (lines 123-162). -/
def gatewayAPIReconciler.grpcBackendRefStep (r : gatewayAPIReconciler)
    (grpcRoute : gwapiv1a2.GRPCRoute) (resourceMap : resourceMappings)
    (backendRef : gwapiv1a2.GRPCBackendRef) : resourceMappings :=
  match r.validateBackendRef backendRef.toBackendRef with
  | some _ => resourceMap
  | none =>
    let backendNamespace := gatewayapi.NamespaceDerefOr backendRef.Namespace grpcRoute.Namespace
    r.recordBackendRef gatewayapi.KindGRPCRoute grpcRoute.Namespace grpcRoute.Name
      backendRef.toBackendObjectReference backendNamespace resourceMap

/-- Body of the loop over `rule.Filters` in `processGRPCRoutes` (lines 164-215).
The result `none` is the nil-pointer panic of `filter.ExtensionRef.Kind` on a
filter of type ExtensionRef without an `ExtensionRef`. For the two reserved
kinds the value read from the catalog is appended whether or not the key was
found (lines 182-187 and 193-198 have no `continue`). -/
def gatewayAPIReconciler.grpcFilterStep (r : gatewayAPIReconciler)
    (grpcRoute : gwapiv1a2.GRPCRoute) (s : resourceMappings × gatewayapi.Resources)
    (filter : gwapiv1a2.GRPCRouteFilter) : Option (resourceMappings × gatewayapi.Resources) :=
  match r.ValidateGRPCRouteFilter filter with
  | some _ => some s
  | none =>
    if filter.Type_ = gwapiv1a2.GRPCRouteFilterExtensionRef then
      match filter.ExtensionRef with
      | none => none
      | some extensionRef =>
        let key : types.NamespacedName :=
          { Namespace := grpcRoute.Namespace, Name := extensionRef.Name }
        if extensionRef.Kind = egv1a1.KindAuthenticationFilter then
          let authFilter := s.1.authenFilters key
          some (s.1, { s.2 with
            AuthenticationFilters := s.2.AuthenticationFilters ++ [authFilter] })
        else if extensionRef.Kind = egv1a1.KindRateLimitFilter then
          let rateLimitFilter := s.1.rateLimitFilters key
          some (s.1, { s.2 with RateLimitFilters := s.2.RateLimitFilters ++ [rateLimitFilter] })
        else
          match s.1.extensionRefFilters key with
          | none => some s
          | some extRefFilter =>
            some (s.1, { s.2 with
              ExtensionRefFilters := s.2.ExtensionRefFilters ++ [extRefFilter] })
    else some s

/-- Body of the loop over `grpcRoute.Spec.Rules` (lines 122-216). -/
def gatewayAPIReconciler.grpcRuleStep (r : gatewayAPIReconciler)
    (grpcRoute : gwapiv1a2.GRPCRoute) (s : resourceMappings × gatewayapi.Resources)
    (rule : gwapiv1a2.GRPCRouteRule) : Option (resourceMappings × gatewayapi.Resources) :=
  let resourceMap := rule.BackendRefs.foldl (r.grpcBackendRefStep grpcRoute) s.1
  rule.Filters.foldlM (r.grpcFilterStep grpcRoute) (resourceMap, s.2)

/-- Body of the loop over `grpcRouteList.Items` (lines 118-223). -/
def gatewayAPIReconciler.grpcRouteStep (r : gatewayAPIReconciler)
    (s : resourceMappings × gatewayapi.Resources) (grpcRoute : gwapiv1a2.GRPCRoute) :
    Option (resourceMappings × gatewayapi.Resources) :=
  match grpcRoute.Spec.Rules.foldlM (r.grpcRuleStep grpcRoute) s with
  | none => none
  | some s1 =>
    some ({ s1.1 with
            allAssociatedNamespaces := insert grpcRoute.Namespace s1.1.allAssociatedNamespaces },
          { s1.2 with GRPCRoutes := s1.2.GRPCRoutes ++ [{ grpcRoute with Status := {} }] })

/-- The processor `processGRPCRoutes` (lines 88-226). It loads the
authentication and rate-limit catalogs only; `none` is a panic. -/
def gatewayAPIReconciler.processGRPCRoutes (r : gatewayAPIReconciler)
    (gatewayNamespaceName : String) (resourceMap : resourceMappings)
    (resourceTree : gatewayapi.Resources) : Option Returned :=
  match r.getAuthenticationFilters with
  | .error err =>
    some { err := some err, resourceMap := resourceMap, resourceTree := resourceTree }
  | .ok authenFilters =>
    let resourceMap1 : resourceMappings :=
      { resourceMap with
        authenFilters := loadAuthenFilters authenFilters resourceMap.authenFilters }
    match r.getRateLimitFilters with
    | .error err =>
      some { err := some err, resourceMap := resourceMap1, resourceTree := resourceTree }
    | .ok rateLimitFilters =>
      let resourceMap2 : resourceMappings :=
        { resourceMap1 with
          rateLimitFilters := loadRateLimitFilters rateLimitFilters resourceMap1.rateLimitFilters }
      match r.listGRPCRoutes gatewayNamespaceName with
      | .error err =>
        some { err := some err, resourceMap := resourceMap2, resourceTree := resourceTree }
      | .ok grpcRouteList =>
        match grpcRouteList.foldlM r.grpcRouteStep (resourceMap2, resourceTree) with
        | none => none
        | some s => some { err := none, resourceMap := s.1, resourceTree := s.2 }

/-! ## processHTTPRoutes -/

/-- Body of the loop over `rule.BackendRefs` in `processHTTPRoutes` (lines 274-313). -/
def gatewayAPIReconciler.httpBackendRefStep (r : gatewayAPIReconciler)
    (httpRoute : gwapiv1b1.HTTPRoute) (resourceMap : resourceMappings)
    (backendRef : gwapiv1b1.HTTPBackendRef) : resourceMappings :=
  match r.validateBackendRef backendRef.toBackendRef with
  | some _ => resourceMap
  | none =>
    let backendNamespace := gatewayapi.NamespaceDerefOr backendRef.Namespace httpRoute.Namespace
    r.recordBackendRef gatewayapi.KindHTTPRoute httpRoute.Namespace httpRoute.Name
      backendRef.toBackendObjectReference backendNamespace resourceMap

/-- Body of the loop over `rule.Filters` in `processHTTPRoutes` (lines 315-423).
The result `none` is the nil-pointer panic of `filter.ExtensionRef.Kind`. -/
def gatewayAPIReconciler.httpFilterStep (r : gatewayAPIReconciler)
    (httpRoute : gwapiv1b1.HTTPRoute) (s : resourceMappings × gatewayapi.Resources)
    (filter : gwapiv1b1.HTTPRouteFilter) : Option (resourceMappings × gatewayapi.Resources) :=
  match r.ValidateHTTPRouteFilter filter with
  | some _ => some s
  | none =>
    if filter.Type_ = gwapiv1b1.HTTPRouteFilterRequestMirror then
      match filter.RequestMirror with
      | none => some s
      | some mirrorFilter =>
        let mirrorBackendObj := mirrorFilter.BackendRef
        let mirrorBackendRef : gwapiv1b1.BackendRef :=
          { toBackendObjectReference := mirrorBackendObj, Weight := some 1 }
        match r.validateBackendRef mirrorBackendRef with
        | some _ => some s
        | none =>
          let backendNamespace :=
            gatewayapi.NamespaceDerefOr mirrorBackendRef.Namespace httpRoute.Namespace
          some (r.recordBackendRef gatewayapi.KindHTTPRoute httpRoute.Namespace httpRoute.Name
                  mirrorBackendRef.toBackendObjectReference backendNamespace s.1, s.2)
    else if filter.Type_ = gwapiv1b1.HTTPRouteFilterExtensionRef then
      match filter.ExtensionRef with
      | none => none
      | some extensionRef =>
        let key : types.NamespacedName :=
          { Namespace := httpRoute.Namespace, Name := extensionRef.Name }
        if extensionRef.Kind = egv1a1.KindAuthenticationFilter then
          match s.1.authenFilters key with
          | none => some s
          | some authFilter =>
            some (s.1, { s.2 with
              AuthenticationFilters := s.2.AuthenticationFilters ++ [some authFilter] })
        else if extensionRef.Kind = egv1a1.KindRateLimitFilter then
          match s.1.rateLimitFilters key with
          | none => some s
          | some rateLimitFilter =>
            some (s.1, { s.2 with
              RateLimitFilters := s.2.RateLimitFilters ++ [some rateLimitFilter] })
        else
          match s.1.extensionRefFilters key with
          | none => some s
          | some extRefFilter =>
            some (s.1, { s.2 with
              ExtensionRefFilters := s.2.ExtensionRefFilters ++ [extRefFilter] })
    else some s

/-- Body of the loop over `httpRoute.Spec.Rules` (lines 273-424). -/
def gatewayAPIReconciler.httpRuleStep (r : gatewayAPIReconciler)
    (httpRoute : gwapiv1b1.HTTPRoute) (s : resourceMappings × gatewayapi.Resources)
    (rule : gwapiv1b1.HTTPRouteRule) : Option (resourceMappings × gatewayapi.Resources) :=
  let resourceMap := rule.BackendRefs.foldl (r.httpBackendRefStep httpRoute) s.1
  rule.Filters.foldlM (r.httpFilterStep httpRoute) (resourceMap, s.2)

/-- Body of the loop over `httpRouteList.Items` (lines 269-431). -/
def gatewayAPIReconciler.httpRouteStep (r : gatewayAPIReconciler)
    (s : resourceMappings × gatewayapi.Resources) (httpRoute : gwapiv1b1.HTTPRoute) :
    Option (resourceMappings × gatewayapi.Resources) :=
  match httpRoute.Spec.Rules.foldlM (r.httpRuleStep httpRoute) s with
  | none => none
  | some s1 =>
    some ({ s1.1 with
            allAssociatedNamespaces := insert httpRoute.Namespace s1.1.allAssociatedNamespaces },
          { s1.2 with HTTPRoutes := s1.2.HTTPRoutes ++ [{ httpRoute with Status := {} }] })

/-- The processor `processHTTPRoutes` (lines 230-434); `none` is a panic. -/
def gatewayAPIReconciler.processHTTPRoutes (r : gatewayAPIReconciler)
    (gatewayNamespaceName : String) (resourceMap : resourceMappings)
    (resourceTree : gatewayapi.Resources) : Option Returned :=
  match r.getAuthenticationFilters with
  | .error err =>
    some { err := some err, resourceMap := resourceMap, resourceTree := resourceTree }
  | .ok authenFilters =>
    let resourceMap1 : resourceMappings :=
      { resourceMap with
        authenFilters := loadAuthenFilters authenFilters resourceMap.authenFilters }
    match r.getRateLimitFilters with
    | .error err =>
      some { err := some err, resourceMap := resourceMap1, resourceTree := resourceTree }
    | .ok rateLimitFilters =>
      let resourceMap2 : resourceMappings :=
        { resourceMap1 with
          rateLimitFilters := loadRateLimitFilters rateLimitFilters resourceMap1.rateLimitFilters }
      match r.getExtensionRefFilters with
      | .error err =>
        some { err := some err, resourceMap := resourceMap2, resourceTree := resourceTree }
      | .ok extensionRefFilters =>
        let resourceMap3 : resourceMappings :=
          { resourceMap2 with
            extensionRefFilters :=
              loadExtensionRefFilters extensionRefFilters resourceMap2.extensionRefFilters }
        match r.listHTTPRoutes gatewayNamespaceName with
        | .error err =>
          some { err := some err, resourceMap := resourceMap3, resourceTree := resourceTree }
        | .ok httpRouteList =>
          match httpRouteList.foldlM r.httpRouteStep (resourceMap3, resourceTree) with
          | none => none
          | some s => some { err := none, resourceMap := s.1, resourceTree := s.2 }

/-! ## What a run records, route by route -/

/-- The contents of the key under which the block `recordBackendRef` stores a
reference of a route in namespace `routeNamespace`: group, kind, resolved
namespace and name (the port is left out, the weight is not part of an object
reference). -/
def backendRefIdentity (routeNamespace : String) (b : gwapiv1b1.BackendObjectReference) :
    gwapiv1b1.BackendObjectReference :=
  { Group := b.Group
    Kind := b.Kind
    Namespace := some (gatewayapi.NamespaceDerefOr b.Namespace routeNamespace)
    Name := b.Name
    Port := none }

/-- What the working set sees of one route: its kind, namespace and name, and
the object references that passed `validateBackendRef`, in processing order. -/
structure RouteRefs where
  kind : String
  namespace_ : String
  name : String
  refs : List gwapiv1b1.BackendObjectReference
deriving DecidableEq, Repr

/-- The grant consumed by one validated reference `b` of the route `v`: the
grant `findReferenceGrant` returns for it when its resolved namespace differs
from the route's; nothing in every other case. -/
def gatewayAPIReconciler.grantFor (r : gatewayAPIReconciler) (v : RouteRefs)
    (b : gwapiv1b1.BackendObjectReference) : Option gwapiv1a2.ReferenceGrant :=
  if gatewayapi.NamespaceDerefOr b.Namespace v.namespace_ ≠ v.namespace_ then
    match r.findReferenceGrant
        { kind := v.kind, namespace_ := v.namespace_, name := v.name }
        { kind := gatewayapi.KindDerefOr b.Kind gatewayapi.KindService
          namespace_ := gatewayapi.NamespaceDerefOr b.Namespace v.namespace_
          name := b.Name } with
    | .ok (some refGrant) => some refGrant
    | _ => none
  else none

/-- The identities recorded for a listing, in processing order. -/
def recordedIdentities (vs : List RouteRefs) : List gwapiv1b1.BackendObjectReference :=
  vs.flatMap fun v => v.refs.map (backendRefIdentity v.namespace_)

/-- The grants consumed by a listing, in processing order. -/
def gatewayAPIReconciler.consumedGrants (r : gatewayAPIReconciler) (vs : List RouteRefs) :
    List gwapiv1a2.ReferenceGrant :=
  vs.flatMap fun v => v.refs.filterMap (r.grantFor v)

/-- A consumed-grant map extended, in order, with an entry
(grant's namespace/name -> grant) for each grant of the list. -/
def recordGrants (gs : List gwapiv1a2.ReferenceGrant)
    (m : types.NamespacedName → Option gwapiv1a2.ReferenceGrant) :
    types.NamespacedName → Option gwapiv1a2.ReferenceGrant :=
  gs.foldl (fun m g => Function.update m (utils.NamespacedName g) (some g)) m

/-- The working set after a listing has been processed: every validated
reference recorded, every returned grant stored, every route namespace added. -/
def gatewayAPIReconciler.recordAll (r : gatewayAPIReconciler) (vs : List RouteRefs)
    (rm : resourceMappings) : resourceMappings :=
  { rm with
    allAssociatedNamespaces := rm.allAssociatedNamespaces ∪ (vs.map (·.namespace_)).toFinset
    allAssociatedBackendRefs := rm.allAssociatedBackendRefs ∪ (recordedIdentities vs).toFinset
    allAssociatedRefGrants := recordGrants (r.consumedGrants vs) rm.allAssociatedRefGrants }

/-- The references of a list of older-shape backend references that pass
`validateBackendRef` after `UpgradeBackendRef`. -/
def gatewayAPIReconciler.validAlphaRefs (r : gatewayAPIReconciler)
    (bs : List gwapiv1a2.BackendRef) : List gwapiv1b1.BackendObjectReference :=
  (bs.filter fun b => (r.validateBackendRef (r.UpgradeBackendRef b)).isNone).map
    (·.toBackendObjectReference)

/-- The view of a TLSRoute. -/
def gatewayAPIReconciler.tlsRefs (r : gatewayAPIReconciler) (route : gwapiv1a2.TLSRoute) :
    RouteRefs :=
  { kind := gatewayapi.KindTLSRoute, namespace_ := route.Namespace, name := route.Name
    refs := route.Spec.Rules.flatMap fun rule => r.validAlphaRefs rule.BackendRefs }

/-- The view of a TCPRoute. -/
def gatewayAPIReconciler.tcpRefs (r : gatewayAPIReconciler) (route : gwapiv1a2.TCPRoute) :
    RouteRefs :=
  { kind := gatewayapi.KindTCPRoute, namespace_ := route.Namespace, name := route.Name
    refs := route.Spec.Rules.flatMap fun rule => r.validAlphaRefs rule.BackendRefs }

/-- The view of a UDPRoute. -/
def gatewayAPIReconciler.udpRefs (r : gatewayAPIReconciler) (route : gwapiv1a2.UDPRoute) :
    RouteRefs :=
  { kind := gatewayapi.KindUDPRoute, namespace_ := route.Namespace, name := route.Name
    refs := route.Spec.Rules.flatMap fun rule => r.validAlphaRefs rule.BackendRefs }

/-- The references of a list of canonical backend references that pass
`validateBackendRef`. -/
def gatewayAPIReconciler.validRefs (r : gatewayAPIReconciler)
    (bs : List gwapiv1b1.BackendRef) : List gwapiv1b1.BackendObjectReference :=
  (bs.filter fun b => (r.validateBackendRef b).isNone).map (·.toBackendObjectReference)

/-- The mirror targets a filter list contributes: the target of each filter that
passes `ValidateHTTPRouteFilter`, has type RequestMirror and a non-nil
configuration, and whose synthesised reference (weight 1) passes
`validateBackendRef`. -/
def gatewayAPIReconciler.mirrorRefs (r : gatewayAPIReconciler)
    (filters : List gwapiv1b1.HTTPRouteFilter) : List gwapiv1b1.BackendObjectReference :=
  filters.filterMap fun f =>
    if r.ValidateHTTPRouteFilter f = none ∧ f.Type_ = gwapiv1b1.HTTPRouteFilterRequestMirror then
      match f.RequestMirror with
      | some m =>
        if r.validateBackendRef { toBackendObjectReference := m.BackendRef, Weight := some 1 }
            = none then some m.BackendRef
        else none
      | none => none
    else none

/-- The view of a GRPCRoute: the valid rule-level references. -/
def gatewayAPIReconciler.grpcRefs (r : gatewayAPIReconciler) (route : gwapiv1a2.GRPCRoute) :
    RouteRefs :=
  { kind := gatewayapi.KindGRPCRoute, namespace_ := route.Namespace, name := route.Name
    refs := route.Spec.Rules.flatMap fun rule =>
      r.validRefs (rule.BackendRefs.map (·.toBackendRef)) }

/-- The view of an HTTPRoute: per rule, the valid rule-level references
followed by the valid mirror targets of its filters. -/
def gatewayAPIReconciler.httpRefs (r : gatewayAPIReconciler) (route : gwapiv1b1.HTTPRoute) :
    RouteRefs :=
  { kind := gatewayapi.KindHTTPRoute, namespace_ := route.Namespace, name := route.Name
    refs := route.Spec.Rules.flatMap fun rule =>
      r.validRefs (rule.BackendRefs.map (·.toBackendRef)) ++ r.mirrorRefs rule.Filters }

/-- An entry appended to one of the three filter lists of the tree. -/
inductive FilterEntry where
  | authentication (p : Option egv1a1.AuthenticationFilter)
  | rateLimit (p : Option egv1a1.RateLimitFilter)
  | extensionRef (f : unstructured.Unstructured)
deriving DecidableEq, Repr

def FilterEntry.authentication? : FilterEntry → Option (Option egv1a1.AuthenticationFilter)
  | .authentication p => some p
  | _ => none

def FilterEntry.rateLimit? : FilterEntry → Option (Option egv1a1.RateLimitFilter)
  | .rateLimit p => some p
  | _ => none

def FilterEntry.extensionRef? : FilterEntry → Option unstructured.Unstructured
  | .extensionRef f => some f
  | _ => none

/-- The tree with a sequence of entries appended, each to its own list. -/
def gatewayapi.Resources.appendEntries (rt : gatewayapi.Resources) (es : List FilterEntry) :
    gatewayapi.Resources :=
  { rt with
    AuthenticationFilters := rt.AuthenticationFilters ++ es.filterMap FilterEntry.authentication?
    RateLimitFilters := rt.RateLimitFilters ++ es.filterMap FilterEntry.rateLimit?
    ExtensionRefFilters := rt.ExtensionRefFilters ++ es.filterMap FilterEntry.extensionRef? }

/-- A concrete filter object, tagged with the catalog it was found in. -/
inductive ResolvedFilter where
  | authentication (f : egv1a1.AuthenticationFilter)
  | rateLimit (f : egv1a1.RateLimitFilter)
  | externallyManaged (f : unstructured.Unstructured)
deriving DecidableEq, Repr

/-- The tree entry a resolved filter becomes. -/
def ResolvedFilter.toEntry : ResolvedFilter → FilterEntry
  | .authentication f => .authentication (some f)
  | .rateLimit f => .rateLimit (some f)
  | .externallyManaged f => .extensionRef f

/-- The Filter Resolver as the specification words it: the catalog is chosen by
kind-string equality against the two reserved kinds, anything else goes to the
externally-managed catalog, and the object is looked up under
(route namespace, reference name); an absent key resolves to nothing. -/
def FilterResolver (rm : resourceMappings) (routeNamespace : String)
    (ref : gwapiv1b1.LocalObjectReference) : Option ResolvedFilter :=
  if ref.Kind = "AuthenticationFilter" then
    (rm.authenFilters { Namespace := routeNamespace, Name := ref.Name }).map
      ResolvedFilter.authentication
  else if ref.Kind = "RateLimitFilter" then
    (rm.rateLimitFilters { Namespace := routeNamespace, Name := ref.Name }).map
      ResolvedFilter.rateLimit
  else
    (rm.extensionRefFilters { Namespace := routeNamespace, Name := ref.Name }).map
      ResolvedFilter.externallyManaged

/-- The ExtensionRef of a filter that `processHTTPRoutes` resolves: the filter
passes `ValidateHTTPRouteFilter` and has type ExtensionRef. -/
def gatewayAPIReconciler.httpExtensionRef (r : gatewayAPIReconciler)
    (f : gwapiv1b1.HTTPRouteFilter) : Option gwapiv1b1.LocalObjectReference :=
  if r.ValidateHTTPRouteFilter f = none ∧ f.Type_ = gwapiv1b1.HTTPRouteFilterExtensionRef then
    f.ExtensionRef
  else none

/-- The filters of one rule that resolve, in order, each through the Filter
Resolver with the route's namespace. -/
def gatewayAPIReconciler.httpResolvedOf (r : gatewayAPIReconciler) (rm : resourceMappings)
    (routeNamespace : String) (filters : List gwapiv1b1.HTTPRouteFilter) : List ResolvedFilter :=
  filters.filterMap fun f => (r.httpExtensionRef f).bind (FilterResolver rm routeNamespace)

/-- The filters `processHTTPRoutes` resolves for a listing, in route, rule and
filter order. -/
def gatewayAPIReconciler.httpResolved (r : gatewayAPIReconciler) (rm : resourceMappings)
    (routes : List gwapiv1b1.HTTPRoute) : List ResolvedFilter :=
  routes.flatMap fun route => route.Spec.Rules.flatMap fun rule =>
    r.httpResolvedOf rm route.Namespace rule.Filters

/-- What lines 174-214 of `processGRPCRoutes` append for one filter that passes
`ValidateGRPCRouteFilter` and has type ExtensionRef: for a reserved kind the
value read from the catalog, found or not; for any other kind the object
found in `extensionRefFilters`, if any. -/
def gatewayAPIReconciler.grpcEntry (r : gatewayAPIReconciler) (rm : resourceMappings)
    (routeNamespace : String) (f : gwapiv1a2.GRPCRouteFilter) : Option FilterEntry :=
  if r.ValidateGRPCRouteFilter f = none ∧ f.Type_ = gwapiv1a2.GRPCRouteFilterExtensionRef then
    match f.ExtensionRef with
    | none => none
    | some ref =>
      if ref.Kind = egv1a1.KindAuthenticationFilter then
        some (.authentication (rm.authenFilters { Namespace := routeNamespace, Name := ref.Name }))
      else if ref.Kind = egv1a1.KindRateLimitFilter then
        some (.rateLimit (rm.rateLimitFilters { Namespace := routeNamespace, Name := ref.Name }))
      else
        (rm.extensionRefFilters { Namespace := routeNamespace, Name := ref.Name }).map
          FilterEntry.extensionRef
  else none

/-- The entries `processGRPCRoutes` appends for a listing, in order. -/
def gatewayAPIReconciler.grpcEntries (r : gatewayAPIReconciler) (rm : resourceMappings)
    (routes : List gwapiv1a2.GRPCRoute) : List FilterEntry :=
  routes.flatMap fun route => route.Spec.Rules.flatMap fun rule =>
    rule.Filters.filterMap (r.grpcEntry rm route.Namespace)

/-- The contract of `gatewayapi.ValidateHTTPRouteFilter` the processor relies on
when it dereferences `filter.ExtensionRef`: a filter of type ExtensionRef that
passes validation carries an ExtensionRef. -/
def gatewayAPIReconciler.HTTPFiltersChecked (r : gatewayAPIReconciler) : Prop :=
  ∀ f : gwapiv1b1.HTTPRouteFilter, r.ValidateHTTPRouteFilter f = none →
    f.Type_ = gwapiv1b1.HTTPRouteFilterExtensionRef → f.ExtensionRef ≠ none

/-- The same contract of `gatewayapi.ValidateGRPCRouteFilter`. -/
def gatewayAPIReconciler.GRPCFiltersChecked (r : gatewayAPIReconciler) : Prop :=
  ∀ f : gwapiv1a2.GRPCRouteFilter, r.ValidateGRPCRouteFilter f = none →
    f.Type_ = gwapiv1a2.GRPCRouteFilterExtensionRef → f.ExtensionRef ≠ none

/-- The working set once `processGRPCRoutes` has loaded its two catalogs. -/
def resourceMappings.loadGRPC (rm : resourceMappings)
    (authenFilters : List egv1a1.AuthenticationFilter)
    (rateLimitFilters : List egv1a1.RateLimitFilter) : resourceMappings :=
  { rm with
    authenFilters := loadAuthenFilters authenFilters rm.authenFilters
    rateLimitFilters := loadRateLimitFilters rateLimitFilters rm.rateLimitFilters }

/-- The working set once `processHTTPRoutes` has loaded its three catalogs. -/
def resourceMappings.loadHTTP (rm : resourceMappings)
    (authenFilters : List egv1a1.AuthenticationFilter)
    (rateLimitFilters : List egv1a1.RateLimitFilter)
    (extensionRefFilters : List unstructured.Unstructured) : resourceMappings :=
  { rm with
    authenFilters := loadAuthenFilters authenFilters rm.authenFilters
    rateLimitFilters := loadRateLimitFilters rateLimitFilters rm.rateLimitFilters
    extensionRefFilters := loadExtensionRefFilters extensionRefFilters rm.extensionRefFilters }

/-- Two working sets with the same three filter catalogs. -/
def SameCatalogs (rm rm' : resourceMappings) : Prop :=
  rm.authenFilters = rm'.authenFilters ∧ rm.rateLimitFilters = rm'.rateLimitFilters ∧
    rm.extensionRefFilters = rm'.extensionRefFilters

/-! ## A concrete snapshot

The scenarios of the specification: routes in namespace `ns1`, a Service
`svc1` in namespace `ns2`, a ReferenceGrant in `ns2` that admits HTTPRoutes of
`ns1`, and a namespace `ns3` whose grants cannot be listed. -/

/-- The empty working set. -/
def emptyMappings : resourceMappings :=
  { allAssociatedNamespaces := ∅
    allAssociatedBackendRefs := ∅
    allAssociatedRefGrants := fun _ => none
    authenFilters := fun _ => none
    rateLimitFilters := fun _ => none
    extensionRefFilters := fun _ => none }

/-- The empty resource tree. -/
def emptyResources : gatewayapi.Resources :=
  { TLSRoutes := [], GRPCRoutes := [], HTTPRoutes := [], TCPRoutes := [], UDPRoutes := []
    AuthenticationFilters := [], RateLimitFilters := [], ExtensionRefFilters := [] }

/-- The grant of Scenario B. -/
def scenarioGrant : gwapiv1a2.ReferenceGrant :=
  { Namespace := "ns2", Name := "allow-ns1"
    From := [{ Group := "gateway.networking.k8s.io", Kind := "HTTPRoute", Namespace := "ns1" }]
    To := [{ Group := "", Kind := "Service", Name := none }] }

/-- A reference to the Service `name` in namespace `ns` (or the route's own). -/
def serviceRef (ns : Option String) (name : String) (port : Option Nat) :
    gwapiv1b1.BackendObjectReference :=
  { Group := none, Kind := none, Name := name, Namespace := ns, Port := port }

/-- An HTTPRoute of `ns1` with one rule: a reference to `svc1` in `ns2`, one to
`svc3` in `ns3`, one to the local `svc0`, a RateLimitFilter ExtensionRef that
exists only in `ns2`, and an AuthenticationFilter ExtensionRef of `ns1`. -/
def scenarioHTTPRoute : gwapiv1b1.HTTPRoute :=
  { Namespace := "ns1", Name := "web"
    Spec :=
      { Hostnames := ["example.com"]
        Rules :=
          [{ BackendRefs :=
               [{ toBackendObjectReference := serviceRef (some "ns2") "svc1" (some 80)
                  Weight := some 1, Filters := [] },
                { toBackendObjectReference := serviceRef (some "ns3") "svc3" (some 80)
                  Weight := some 1, Filters := [] },
                { toBackendObjectReference := serviceRef none "svc0" (some 8080)
                  Weight := none, Filters := [] }]
             Filters :=
               [{ Type_ := "ExtensionRef", RequestMirror := none
                  ExtensionRef := some { Group := "gateway.envoyproxy.io", Kind := "RateLimitFilter"
                                         Name := "limit" } },
                { Type_ := "ExtensionRef", RequestMirror := none
                  ExtensionRef := some { Group := "gateway.envoyproxy.io"
                                         Kind := "AuthenticationFilter", Name := "jwt" } }] }] }
    Status := { Parents := [{ ParentRef := "gw", ControllerName := "envoy-gateway" }] } }

/-- A GRPCRoute of `ns1` whose only filter names an AuthenticationFilter that is
in no catalog. -/
def scenarioGRPCRoute : gwapiv1a2.GRPCRoute :=
  { Namespace := "ns1", Name := "rpc"
    Spec :=
      { Hostnames := []
        Rules :=
          [{ BackendRefs :=
               [{ toBackendObjectReference := serviceRef none "svc0" (some 9000)
                  Weight := none, Filters := [] }]
             Filters :=
               [{ Type_ := "ExtensionRef", RequestMirror := none
                  ExtensionRef := some { Group := "gateway.envoyproxy.io"
                                         Kind := "AuthenticationFilter", Name := "missing" } }] }] }
    Status := { Parents := [{ ParentRef := "gw", ControllerName := "envoy-gateway" }] } }

/-- A TLSRoute of `ns1` with one rule: a reference into `ns3`, whose grants
cannot be listed, followed by a reference to the local `svc0`. -/
def scenarioTLSRoute : gwapiv1a2.TLSRoute :=
  { Namespace := "ns1", Name := "tls"
    Spec :=
      { Hostnames := []
        Rules :=
          [{ BackendRefs :=
               [{ toBackendObjectReference := serviceRef (some "ns3") "svc3" (some 443)
                  Weight := some 1 },
                { toBackendObjectReference := serviceRef none "svc0" (some 443)
                  Weight := some 1 }] }] }
    Status := { Parents := [{ ParentRef := "gw", ControllerName := "envoy-gateway" }] } }

def scenarioTCPRoute : gwapiv1a2.TCPRoute :=
  { Namespace := "ns1", Name := "tcp"
    Spec := { Rules := [{ BackendRefs :=
      [{ toBackendObjectReference := serviceRef none "svc0" (some 5432), Weight := none }] }] }
    Status := { Parents := [{ ParentRef := "gw", ControllerName := "envoy-gateway" }] } }

def scenarioUDPRoute : gwapiv1a2.UDPRoute :=
  { Namespace := "ns1", Name := "udp"
    Spec := { Rules := [{ BackendRefs :=
      [{ toBackendObjectReference := serviceRef none "svc0" (some 53), Weight := none }] }] }
    Status := { Parents := [{ ParentRef := "gw", ControllerName := "envoy-gateway" }] } }

/-- A reconciler over the snapshot. Backend references must have the empty
group and kind Service; a filter of type ExtensionRef must carry its reference;
grants of `ns3` cannot be listed; `scenarioGrant` admits HTTPRoutes of `ns1`
to Services of `ns2`. -/
def scenarioReconciler : gatewayAPIReconciler :=
  { listTLSRoutes := fun _ => .ok [scenarioTLSRoute]
    listGRPCRoutes := fun _ => .ok [scenarioGRPCRoute]
    listHTTPRoutes := fun _ => .ok [scenarioHTTPRoute]
    listTCPRoutes := fun _ => .ok [scenarioTCPRoute]
    listUDPRoutes := fun _ => .ok [scenarioUDPRoute]
    getAuthenticationFilters := .ok [{ Namespace := "ns1", Name := "jwt", Spec := "jwt-spec" }]
    getRateLimitFilters := .ok [{ Namespace := "ns2", Name := "limit", Spec := "10rps" }]
    getExtensionRefFilters := .ok []
    findReferenceGrant := fun from_ to_ =>
      if to_.namespace_ = "ns3" then .error "unable to list ReferenceGrants"
      else if from_.kind = "HTTPRoute" ∧ from_.namespace_ = "ns1" ∧ to_.kind = "Service" ∧
          to_.namespace_ = "ns2" then .ok (some scenarioGrant)
      else .ok none
    validateBackendRef := fun ref =>
      if ref.Group.getD "" ≠ "" then some "invalid group"
      else if gatewayapi.KindDerefOr ref.Kind gatewayapi.KindService ≠ gatewayapi.KindService then
        some "invalid kind"
      else none
    UpgradeBackendRef := fun old =>
      { toBackendObjectReference := old.toBackendObjectReference, Weight := old.Weight }
    ValidateHTTPRouteFilter := fun f =>
      if f.Type_ = "ExtensionRef" ∧ f.ExtensionRef = none then
        some "extensionRef field must be specified for an extended filter"
      else none
    ValidateGRPCRouteFilter := fun f =>
      if f.Type_ = "ExtensionRef" ∧ f.ExtensionRef = none then
        some "extensionRef field must be specified for an extended filter"
      else none }

/-- The snapshot with every route listing failing. -/
def failingReconciler : gatewayAPIReconciler :=
  { scenarioReconciler with
    listTLSRoutes := fun _ => .error "list TLSRoutes"
    listGRPCRoutes := fun _ => .error "list GRPCRoutes"
    listHTTPRoutes := fun _ => .error "list HTTPRoutes"
    listTCPRoutes := fun _ => .error "list TCPRoutes"
    listUDPRoutes := fun _ => .error "list UDPRoutes" }

/-- An HTTPRoute of `ns1` all of whose references stay in `ns1`: one without a
namespace, one naming `ns1`, and a RequestMirror filter whose target is local. -/
def localHTTPRoute : gwapiv1b1.HTTPRoute :=
  { Namespace := "ns1", Name := "local"
    Spec :=
      { Hostnames := []
        Rules :=
          [{ BackendRefs :=
               [{ toBackendObjectReference := serviceRef none "svc0" (some 8080)
                  Weight := some 3, Filters := [] },
                { toBackendObjectReference := serviceRef (some "ns1") "svc0" (some 9090)
                  Weight := some 1, Filters := [] }]
             Filters :=
               [{ Type_ := "RequestMirror"
                  RequestMirror := some { BackendRef := serviceRef none "mirror" (some 80) }
                  ExtensionRef := none }] }] }
    Status := {} }

/-- A TLSRoute of `ns1` whose references stay in `ns1`. -/
def localTLSRoute : gwapiv1a2.TLSRoute :=
  { Namespace := "ns1", Name := "local"
    Spec :=
      { Hostnames := []
        Rules :=
          [{ BackendRefs :=
               [{ toBackendObjectReference := serviceRef none "svc0" (some 443)
                  Weight := some 1 },
                { toBackendObjectReference := serviceRef (some "ns1") "svc0" (some 8443)
                  Weight := some 2 }] }] }
    Status := {} }

/-- The snapshot restricted to routes without cross-namespace references. -/
def localReconciler : gatewayAPIReconciler :=
  { scenarioReconciler with
    listTLSRoutes := fun _ => .ok [localTLSRoute]
    listHTTPRoutes := fun _ => .ok [localHTTPRoute] }

/-- The reconciler whose grant resolver answers "no grant" wherever the
resolver of `r` returns an error, and agrees with it everywhere else. -/
def gatewayAPIReconciler.lookupFaultsAsNoGrant (r : gatewayAPIReconciler) : gatewayAPIReconciler :=
  { r with
    findReferenceGrant := fun from_ to_ =>
      match r.findReferenceGrant from_ to_ with
      | .error _ => .ok none
      | .ok refGrant => .ok refGrant }

def ResolvedFilter.authentication? : ResolvedFilter → Option egv1a1.AuthenticationFilter
  | .authentication f => some f
  | _ => none

def ResolvedFilter.rateLimit? : ResolvedFilter → Option egv1a1.RateLimitFilter
  | .rateLimit f => some f
  | _ => none

def ResolvedFilter.externallyManaged? : ResolvedFilter → Option unstructured.Unstructured
  | .externallyManaged f => some f
  | _ => none

/-- A rule whose only content is a RequestMirror filter with target `T`. -/
def mirrorRule (T : gwapiv1b1.BackendObjectReference)
    (ext : Option gwapiv1b1.LocalObjectReference) : gwapiv1b1.HTTPRouteRule :=
  { BackendRefs := []
    Filters := [{ Type_ := gwapiv1b1.HTTPRouteFilterRequestMirror
                  RequestMirror := some { BackendRef := T }, ExtensionRef := ext }] }

/-- A rule whose only content is the rule-level backend reference `T` with weight 1. -/
def backendRule (T : gwapiv1b1.BackendObjectReference)
    (backendFilters : List gwapiv1b1.HTTPRouteFilter) : gwapiv1b1.HTTPRouteRule :=
  { BackendRefs := [{ toBackendObjectReference := T, Weight := some 1, Filters := backendFilters }]
    Filters := [] }

/-- The route `route` with its rules replaced. -/
def gwapiv1b1.HTTPRoute.withRules (route : gwapiv1b1.HTTPRoute)
    (rules : List gwapiv1b1.HTTPRouteRule) : gwapiv1b1.HTTPRoute :=
  { route with Spec := { route.Spec with Rules := rules } }

/-- A reference to `svc0` without namespace, port 443, weight 1. -/
def sameServiceA : gwapiv1a2.BackendRef :=
  { toBackendObjectReference := serviceRef none "svc0" (some 443), Weight := some 1 }

/-- A reference to `svc0` naming `ns1`, port 8443, weight 2. -/
def sameServiceB : gwapiv1a2.BackendRef :=
  { toBackendObjectReference := serviceRef (some "ns1") "svc0" (some 8443), Weight := some 2 }

/-! ## Running several processors in a row -/

/-- The five route categories. -/
inductive RouteCategory where
  | TLS
  | GRPC
  | HTTP
  | TCP
  | UDP
deriving DecidableEq, Repr

/-- The processor of a category, with the common result type (`none` is a panic). -/
def gatewayAPIReconciler.processCategory (r : gatewayAPIReconciler)
    (gatewayNamespaceName : String) (category : RouteCategory) (resourceMap : resourceMappings)
    (resourceTree : gatewayapi.Resources) : Option Returned :=
  match category with
  | .TLS => some (r.processTLSRoutes gatewayNamespaceName resourceMap resourceTree)
  | .GRPC => r.processGRPCRoutes gatewayNamespaceName resourceMap resourceTree
  | .HTTP => r.processHTTPRoutes gatewayNamespaceName resourceMap resourceTree
  | .TCP => some (r.processTCPRoutes gatewayNamespaceName resourceMap resourceTree)
  | .UDP => some (r.processUDPRoutes gatewayNamespaceName resourceMap resourceTree)

/-- Modelled from the spec: the caller of the processors is not part of
`routes.go`. One reconciliation pass invokes the processors one after another
against a single working set and a single resource tree; an error of a
processor aborts the pass and is handed to the caller. -/
def gatewayAPIReconciler.runProcessors (r : gatewayAPIReconciler)
    (gatewayNamespaceName : String) :
    List RouteCategory → resourceMappings → gatewayapi.Resources → Option Returned
  | [], resourceMap, resourceTree =>
    some { err := none, resourceMap := resourceMap, resourceTree := resourceTree }
  | category :: rest, resourceMap, resourceTree =>
    match r.processCategory gatewayNamespaceName category resourceMap resourceTree with
    | none => none
    | some res =>
      match res.err with
      | some _ => some res
      | none => r.runProcessors gatewayNamespaceName rest res.resourceMap res.resourceTree

/-- An externally-managed filter of `ns1`. -/
def scenarioExtensionFilter : unstructured.Unstructured :=
  { Kind := "WasmFilter", Namespace := "ns1", Name := "wasm", Object := "wasm-config" }

/-- A GRPCRoute of `ns1` whose only filter is an ExtensionRef of the
non-reserved kind `WasmFilter` naming `scenarioExtensionFilter`. -/
def extensionGRPCRoute : gwapiv1a2.GRPCRoute :=
  { Namespace := "ns1", Name := "rpc-ext"
    Spec :=
      { Hostnames := []
        Rules :=
          [{ BackendRefs :=
               [{ toBackendObjectReference := serviceRef none "svc0" (some 9000)
                  Weight := none, Filters := [] }]
             Filters :=
               [{ Type_ := "ExtensionRef", RequestMirror := none
                  ExtensionRef := some { Group := "example.io", Kind := "WasmFilter"
                                         Name := "wasm" } }] }] }
    Status := {} }

/-- The snapshot with `scenarioExtensionFilter` in the externally-managed
listing and `extensionGRPCRoute` as the one GRPCRoute. -/
def extensionReconciler : gatewayAPIReconciler :=
  { scenarioReconciler with
    listGRPCRoutes := fun _ => .ok [extensionGRPCRoute]
    getExtensionRefFilters := .ok [scenarioExtensionFilter] }

/-- Two reconcilers see the same snapshot for the Gateway
`gatewayNamespaceName`: the same five route listings for it, the same three
filter listings, and validators, upgrade and grant resolver with the same
results on every input. -/
def SameSnapshot (gatewayNamespaceName : String) (r r' : gatewayAPIReconciler) : Prop :=
  r.listTLSRoutes gatewayNamespaceName = r'.listTLSRoutes gatewayNamespaceName ∧
  r.listGRPCRoutes gatewayNamespaceName = r'.listGRPCRoutes gatewayNamespaceName ∧
  r.listHTTPRoutes gatewayNamespaceName = r'.listHTTPRoutes gatewayNamespaceName ∧
  r.listTCPRoutes gatewayNamespaceName = r'.listTCPRoutes gatewayNamespaceName ∧
  r.listUDPRoutes gatewayNamespaceName = r'.listUDPRoutes gatewayNamespaceName ∧
  r.getAuthenticationFilters = r'.getAuthenticationFilters ∧
  r.getRateLimitFilters = r'.getRateLimitFilters ∧
  r.getExtensionRefFilters = r'.getExtensionRefFilters ∧
  (∀ from_ to_, r.findReferenceGrant from_ to_ = r'.findReferenceGrant from_ to_) ∧
  (∀ ref, r.validateBackendRef ref = r'.validateBackendRef ref) ∧
  (∀ old, r.UpgradeBackendRef old = r'.UpgradeBackendRef old) ∧
  (∀ f, r.ValidateHTTPRouteFilter f = r'.ValidateHTTPRouteFilter f) ∧
  (∀ f, r.ValidateGRPCRouteFilter f = r'.ValidateGRPCRouteFilter f)

/-- The snapshot seen through a client that serves only the Gateway `gw`. -/
def scopedReconciler : gatewayAPIReconciler :=
  { scenarioReconciler with
    listTLSRoutes := fun g =>
      if g = "gw" then .ok [scenarioTLSRoute] else .error "unknown gateway"
    listHTTPRoutes := fun g =>
      if g = "gw" then .ok [scenarioHTTPRoute] else .error "unknown gateway" }

/-! ## The backend-reference map as Go compares its keys -/

/-- A key of the Go map `allAssociatedBackendRefs` as the runtime compares it.
The key struct has pointer fields and Go compares pointers by address. The
`Namespace` field holds the pointer `gatewayapi.NamespacePtrV1Alpha2` returns,
of which `namespacePtr` is the address; `contents` is what the fields of the
key point to. The addresses of the `Group` and `Kind` pointers, copied from the
listed object, are left out: the namespace address alone tells any two keys
the processors store apart. -/
structure BackendRefKey where
  namespacePtr : Nat
  contents : gwapiv1b1.BackendObjectReference
deriving DecidableEq, Repr

/-- The Go map `allAssociatedBackendRefs` with the allocator beside it:
`nextAddr` is the address the next allocation returns. -/
structure KeyedBackendRefs where
  nextAddr : Nat
  keys : Finset BackendRefKey

/-- The empty map of a fresh working set. -/
def emptyKeys : KeyedBackendRefs :=
  { nextAddr := 0, keys := ∅ }

/-- Lines 50-55 (and their five copies) on the map as Go compares its keys.
`gatewayapi.NamespacePtrV1Alpha2` is not part of `routes.go`; it returns a
pointer to a new copy of the namespace, an address that no key stored before
holds, and the struct built around it is stored as a key. -/
def recordBackendRefKey (backendRef : gwapiv1b1.BackendObjectReference)
    (backendNamespace : String) (m : KeyedBackendRefs) : KeyedBackendRefs :=
  { nextAddr := m.nextAddr + 1
    keys :=
      insert
        { namespacePtr := m.nextAddr
          contents :=
            { Group := backendRef.Group
              Kind := backendRef.Kind
              Namespace := gatewayapi.NamespacePtrV1Alpha2 backendNamespace
              Name := backendRef.Name
              Port := none } }
        m.keys }

/-- Body of the loop over `rule.BackendRefs` in `processTLSRoutes` (lines 41-55)
on the map as Go compares its keys. -/
def gatewayAPIReconciler.tlsBackendRefKeyStep (r : gatewayAPIReconciler)
    (tlsRoute : gwapiv1a2.TLSRoute) (m : KeyedBackendRefs) (backendRef : gwapiv1a2.BackendRef) :
    KeyedBackendRefs :=
  let ref := r.UpgradeBackendRef backendRef
  match r.validateBackendRef ref with
  | some _ => m
  | none =>
    let backendNamespace := gatewayapi.NamespaceDerefOrAlpha backendRef.Namespace tlsRoute.Namespace
    recordBackendRefKey backendRef.toBackendObjectReference backendNamespace m

/-- What `processTLSRoutes` (lines 26-84) does to the Go map
`allAssociatedBackendRefs`, keys compared as Go compares them. -/
def gatewayAPIReconciler.processTLSRoutesKeys (r : gatewayAPIReconciler)
    (gatewayNamespaceName : String) (m : KeyedBackendRefs) : KeyedBackendRefs :=
  match r.listTLSRoutes gatewayNamespaceName with
  | .error _ => m
  | .ok tlsRouteList =>
    tlsRouteList.foldl
      (fun m tlsRoute =>
        tlsRoute.Spec.Rules.foldl
          (fun m rule => rule.BackendRefs.foldl (r.tlsBackendRefKeyStep tlsRoute) m) m) m

/-- The map after a listing, keys compared as Go compares them: one allocation
and one stored key per validated reference. -/
def recordAllKeys (vs : List RouteRefs) (m : KeyedBackendRefs) : KeyedBackendRefs :=
  vs.foldl
    (fun m v => v.refs.foldl
      (fun m b =>
        recordBackendRefKey b (gatewayapi.NamespaceDerefOr b.Namespace v.namespace_) m) m) m

/-- Every address held by a key has been allocated. -/
def KeyedBackendRefs.Fresh (m : KeyedBackendRefs) : Prop :=
  ∀ k ∈ m.keys, k.namespacePtr < m.nextAddr

/-- A TLSRoute of `ns1` whose one rule refers to `svc0` twice: without
namespace (port 443, weight 1) and naming `ns1` (port 8443, weight 2). -/
def duplicateTLSRoute : gwapiv1a2.TLSRoute :=
  { Namespace := "ns1", Name := "twice"
    Spec := { Hostnames := [], Rules := [{ BackendRefs := [sameServiceA, sameServiceB] }] }
    Status := {} }

/-- The same TLSRoute with only the first of the two references. -/
def singleTLSRoute : gwapiv1a2.TLSRoute :=
  { Namespace := "ns1", Name := "twice"
    Spec := { Hostnames := [], Rules := [{ BackendRefs := [sameServiceA] }] }
    Status := {} }

/-- The snapshot whose one TLSRoute is `duplicateTLSRoute`. -/
def duplicateReconciler : gatewayAPIReconciler :=
  { scenarioReconciler with listTLSRoutes := fun _ => .ok [duplicateTLSRoute] }

/-- The snapshot whose one TLSRoute is `singleTLSRoute`. -/
def singleReconciler : gatewayAPIReconciler :=
  { scenarioReconciler with listTLSRoutes := fun _ => .ok [singleTLSRoute] }

/-! ## Lemmas on the shared block -/

theorem recordGrants_append (gs hs : List gwapiv1a2.ReferenceGrant)
    (m : types.NamespacedName → Option gwapiv1a2.ReferenceGrant) :
    recordGrants (gs ++ hs) m = recordGrants hs (recordGrants gs m) := by
  simp [recordGrants, List.foldl_append]

theorem recordBackendRef_eq (r : gatewayAPIReconciler) (v : RouteRefs)
    (b : gwapiv1b1.BackendObjectReference) (rm : resourceMappings) :
    r.recordBackendRef v.kind v.namespace_ v.name b
        (gatewayapi.NamespaceDerefOr b.Namespace v.namespace_) rm =
      { rm with
        allAssociatedBackendRefs :=
          insert (backendRefIdentity v.namespace_ b) rm.allAssociatedBackendRefs
        allAssociatedRefGrants :=
          recordGrants (r.grantFor v b).toList rm.allAssociatedRefGrants } := by
  unfold gatewayAPIReconciler.recordBackendRef gatewayAPIReconciler.grantFor
  by_cases h : gatewayapi.NamespaceDerefOr b.Namespace v.namespace_ = v.namespace_
  · simp [h, recordGrants, backendRefIdentity, gatewayapi.NamespacePtrV1Alpha2]
  · cases hg : r.findReferenceGrant
        { kind := v.kind, namespace_ := v.namespace_, name := v.name }
        { kind := gatewayapi.KindDerefOr b.Kind gatewayapi.KindService
          namespace_ := gatewayapi.NamespaceDerefOr b.Namespace v.namespace_
          name := b.Name } with
    | error e => simp [h, hg, recordGrants, backendRefIdentity, gatewayapi.NamespacePtrV1Alpha2]
    | ok g =>
      cases g with
      | none => simp [h, hg, recordGrants, backendRefIdentity, gatewayapi.NamespacePtrV1Alpha2]
      | some g => simp [h, hg, recordGrants, backendRefIdentity, gatewayapi.NamespacePtrV1Alpha2]

/-- Recording a list of validated references of one route. -/
theorem foldl_recordBackendRef (r : gatewayAPIReconciler) (v : RouteRefs) :
    ∀ (bs : List gwapiv1b1.BackendObjectReference) (rm : resourceMappings),
      bs.foldl (fun rm b => r.recordBackendRef v.kind v.namespace_ v.name b
        (gatewayapi.NamespaceDerefOr b.Namespace v.namespace_) rm) rm =
      { rm with
        allAssociatedBackendRefs :=
          rm.allAssociatedBackendRefs ∪ (bs.map (backendRefIdentity v.namespace_)).toFinset
        allAssociatedRefGrants :=
          recordGrants (bs.filterMap (r.grantFor v)) rm.allAssociatedRefGrants } := by
  intro bs
  induction bs with
  | nil => intro rm; simp [recordGrants]
  | cons b bs ih =>
    intro rm
    rw [List.foldl_cons, recordBackendRef_eq, ih]
    have hg : bs.filterMap (r.grantFor v) |> fun l =>
        recordGrants l (recordGrants (r.grantFor v b).toList rm.allAssociatedRefGrants) =
        recordGrants ((b :: bs).filterMap (r.grantFor v)) rm.allAssociatedRefGrants := by
      cases hb : r.grantFor v b <;> simp [List.filterMap_cons, hb, recordGrants]
    simp only [] at hg
    simp only [hg, List.map_cons, List.toFinset_cons]
    congr 1
    ext x
    simp only [Finset.mem_union, Finset.mem_insert]
    tauto

theorem recordAll_nil (r : gatewayAPIReconciler) (rm : resourceMappings) :
    r.recordAll [] rm = rm := by
  simp [gatewayAPIReconciler.recordAll, recordedIdentities, gatewayAPIReconciler.consumedGrants,
    recordGrants]

/-- One route recorded after the references of its rules: the step of every
route loop on the working set. -/
theorem recordAll_cons (r : gatewayAPIReconciler) (v : RouteRefs) (vs : List RouteRefs)
    (rm : resourceMappings) :
    r.recordAll (v :: vs) rm =
      r.recordAll vs
        { (v.refs.foldl (fun rm b => r.recordBackendRef v.kind v.namespace_ v.name b
            (gatewayapi.NamespaceDerefOr b.Namespace v.namespace_) rm) rm) with
          allAssociatedNamespaces := insert v.namespace_
            (v.refs.foldl (fun rm b => r.recordBackendRef v.kind v.namespace_ v.name b
              (gatewayapi.NamespaceDerefOr b.Namespace v.namespace_) rm)
              rm).allAssociatedNamespaces } := by
  rw [foldl_recordBackendRef]
  simp only [gatewayAPIReconciler.recordAll, recordedIdentities,
    gatewayAPIReconciler.consumedGrants, List.flatMap_cons, List.map_cons, List.toFinset_cons,
    List.toFinset_append, recordGrants_append]
  congr 1
  · ext x
    simp only [Finset.mem_union, Finset.mem_insert]
    tauto
  · ext x
    simp only [Finset.mem_union]
    tauto

/-- The loop over older-shape backend references records exactly the valid ones. -/
theorem foldl_alphaBackendRefs (r : gatewayAPIReconciler) (v : RouteRefs)
    (step : resourceMappings → gwapiv1a2.BackendRef → resourceMappings)
    (hstep : ∀ rm b, step rm b =
      match r.validateBackendRef (r.UpgradeBackendRef b) with
      | some _ => rm
      | none => r.recordBackendRef v.kind v.namespace_ v.name b.toBackendObjectReference
          (gatewayapi.NamespaceDerefOr b.Namespace v.namespace_) rm) :
    ∀ (bs : List gwapiv1a2.BackendRef) (rm : resourceMappings),
      bs.foldl step rm =
        (r.validAlphaRefs bs).foldl (fun rm b => r.recordBackendRef v.kind v.namespace_ v.name b
          (gatewayapi.NamespaceDerefOr b.Namespace v.namespace_) rm) rm := by
  intro bs
  induction bs with
  | nil => intro rm; rfl
  | cons b bs ih =>
    intro rm
    rw [List.foldl_cons, ih, hstep]
    cases hb : r.validateBackendRef (r.UpgradeBackendRef b) <;>
      simp [gatewayAPIReconciler.validAlphaRefs, List.filter_cons, hb]

/-- The loop over the rules of a route without filters. -/
theorem foldl_alphaRules (r : gatewayAPIReconciler) (v : RouteRefs) {ρ : Type}
    (refsOf : ρ → List gwapiv1a2.BackendRef)
    (step : resourceMappings → gwapiv1a2.BackendRef → resourceMappings)
    (hstep : ∀ rm b, step rm b =
      match r.validateBackendRef (r.UpgradeBackendRef b) with
      | some _ => rm
      | none => r.recordBackendRef v.kind v.namespace_ v.name b.toBackendObjectReference
          (gatewayapi.NamespaceDerefOr b.Namespace v.namespace_) rm) :
    ∀ (rules : List ρ) (rm : resourceMappings),
      rules.foldl (fun rm rule => (refsOf rule).foldl step rm) rm =
        (rules.flatMap fun rule => r.validAlphaRefs (refsOf rule)).foldl
          (fun rm b => r.recordBackendRef v.kind v.namespace_ v.name b
            (gatewayapi.NamespaceDerefOr b.Namespace v.namespace_) rm) rm := by
  intro rules
  induction rules with
  | nil => intro rm; rfl
  | cons rule rules ih =>
    intro rm
    rw [List.foldl_cons, ih, foldl_alphaBackendRefs r v step hstep, List.flatMap_cons,
      List.foldl_append]

theorem recordAll_step (r : gatewayAPIReconciler) (v : RouteRefs) (vs : List RouteRefs)
    (rm : resourceMappings) :
    r.recordAll (v :: vs) rm = r.recordAll vs (r.recordAll [v] rm) := by
  rw [recordAll_cons, recordAll_cons r v [], recordAll_nil]

theorem tlsRouteStep_eq (r : gatewayAPIReconciler) (s : resourceMappings × gatewayapi.Resources)
    (route : gwapiv1a2.TLSRoute) :
    r.tlsRouteStep s route =
      (r.recordAll [r.tlsRefs route] s.1,
       { s.2 with TLSRoutes := s.2.TLSRoutes ++ [{ route with Status := {} }] }) := by
  have h := foldl_alphaRules r (r.tlsRefs route) (fun rule : gwapiv1a2.TLSRouteRule =>
    rule.BackendRefs) (r.tlsBackendRefStep route) (fun rm b => rfl) route.Spec.Rules s.1
  rw [recordAll_cons, recordAll_nil]
  unfold gatewayAPIReconciler.tlsRouteStep
  simp only [h]
  rfl

theorem foldl_tlsRouteStep (r : gatewayAPIReconciler) :
    ∀ (routes : List gwapiv1a2.TLSRoute) (s : resourceMappings × gatewayapi.Resources),
      routes.foldl r.tlsRouteStep s =
        (r.recordAll (routes.map r.tlsRefs) s.1,
         { s.2 with
           TLSRoutes := s.2.TLSRoutes ++ routes.map fun route => { route with Status := {} } }) := by
  intro routes
  induction routes with
  | nil => intro s; simp [recordAll_nil]
  | cons route routes ih =>
    intro s
    rw [List.foldl_cons, ih, tlsRouteStep_eq, List.map_cons,
      recordAll_step r (r.tlsRefs route) (routes.map r.tlsRefs)]
    simp

theorem processTLSRoutes_ok (r : gatewayAPIReconciler) (gatewayNamespaceName : String)
    (rm : resourceMappings) (rt : gatewayapi.Resources) (routes : List gwapiv1a2.TLSRoute)
    (hlist : r.listTLSRoutes gatewayNamespaceName = .ok routes) :
    r.processTLSRoutes gatewayNamespaceName rm rt =
      { err := none
        resourceMap := r.recordAll (routes.map r.tlsRefs) rm
        resourceTree :=
          { rt with
            TLSRoutes := rt.TLSRoutes ++ routes.map fun route => { route with Status := {} } } } := by
  simp only [gatewayAPIReconciler.processTLSRoutes, hlist, foldl_tlsRouteStep]

theorem tcpRouteStep_eq (r : gatewayAPIReconciler) (s : resourceMappings × gatewayapi.Resources)
    (route : gwapiv1a2.TCPRoute) :
    r.tcpRouteStep s route =
      (r.recordAll [r.tcpRefs route] s.1,
       { s.2 with TCPRoutes := s.2.TCPRoutes ++ [{ route with Status := {} }] }) := by
  have h := foldl_alphaRules r (r.tcpRefs route) (fun rule : gwapiv1a2.TCPRouteRule =>
    rule.BackendRefs) (r.tcpBackendRefStep route) (fun rm b => rfl) route.Spec.Rules s.1
  rw [recordAll_cons, recordAll_nil]
  unfold gatewayAPIReconciler.tcpRouteStep
  simp only [h]
  rfl

theorem foldl_tcpRouteStep (r : gatewayAPIReconciler) :
    ∀ (routes : List gwapiv1a2.TCPRoute) (s : resourceMappings × gatewayapi.Resources),
      routes.foldl r.tcpRouteStep s =
        (r.recordAll (routes.map r.tcpRefs) s.1,
         { s.2 with
           TCPRoutes := s.2.TCPRoutes ++ routes.map fun route => { route with Status := {} } }) := by
  intro routes
  induction routes with
  | nil => intro s; simp [recordAll_nil]
  | cons route routes ih =>
    intro s
    rw [List.foldl_cons, ih, tcpRouteStep_eq, List.map_cons,
      recordAll_step r (r.tcpRefs route) (routes.map r.tcpRefs)]
    simp

theorem processTCPRoutes_ok (r : gatewayAPIReconciler) (gatewayNamespaceName : String)
    (rm : resourceMappings) (rt : gatewayapi.Resources) (routes : List gwapiv1a2.TCPRoute)
    (hlist : r.listTCPRoutes gatewayNamespaceName = .ok routes) :
    r.processTCPRoutes gatewayNamespaceName rm rt =
      { err := none
        resourceMap := r.recordAll (routes.map r.tcpRefs) rm
        resourceTree :=
          { rt with
            TCPRoutes := rt.TCPRoutes ++ routes.map fun route => { route with Status := {} } } } := by
  simp only [gatewayAPIReconciler.processTCPRoutes, hlist, foldl_tcpRouteStep]

theorem udpRouteStep_eq (r : gatewayAPIReconciler) (s : resourceMappings × gatewayapi.Resources)
    (route : gwapiv1a2.UDPRoute) :
    r.udpRouteStep s route =
      (r.recordAll [r.udpRefs route] s.1,
       { s.2 with UDPRoutes := s.2.UDPRoutes ++ [{ route with Status := {} }] }) := by
  have h := foldl_alphaRules r (r.udpRefs route) (fun rule : gwapiv1a2.UDPRouteRule =>
    rule.BackendRefs) (r.udpBackendRefStep route) (fun rm b => rfl) route.Spec.Rules s.1
  rw [recordAll_cons, recordAll_nil]
  unfold gatewayAPIReconciler.udpRouteStep
  simp only [h]
  rfl

theorem foldl_udpRouteStep (r : gatewayAPIReconciler) :
    ∀ (routes : List gwapiv1a2.UDPRoute) (s : resourceMappings × gatewayapi.Resources),
      routes.foldl r.udpRouteStep s =
        (r.recordAll (routes.map r.udpRefs) s.1,
         { s.2 with
           UDPRoutes := s.2.UDPRoutes ++ routes.map fun route => { route with Status := {} } }) := by
  intro routes
  induction routes with
  | nil => intro s; simp [recordAll_nil]
  | cons route routes ih =>
    intro s
    rw [List.foldl_cons, ih, udpRouteStep_eq, List.map_cons,
      recordAll_step r (r.udpRefs route) (routes.map r.udpRefs)]
    simp

theorem processUDPRoutes_ok (r : gatewayAPIReconciler) (gatewayNamespaceName : String)
    (rm : resourceMappings) (rt : gatewayapi.Resources) (routes : List gwapiv1a2.UDPRoute)
    (hlist : r.listUDPRoutes gatewayNamespaceName = .ok routes) :
    r.processUDPRoutes gatewayNamespaceName rm rt =
      { err := none
        resourceMap := r.recordAll (routes.map r.udpRefs) rm
        resourceTree :=
          { rt with
            UDPRoutes := rt.UDPRoutes ++ routes.map fun route => { route with Status := {} } } } := by
  simp only [gatewayAPIReconciler.processUDPRoutes, hlist, foldl_udpRouteStep]

/-! ## Lemmas on the filter loops -/

theorem sameCatalogs_foldl_record (r : gatewayAPIReconciler) (kind ns name : String)
    (bs : List gwapiv1b1.BackendObjectReference) (rm : resourceMappings) :
    SameCatalogs (bs.foldl (fun rm b => r.recordBackendRef kind ns name b
      (gatewayapi.NamespaceDerefOr b.Namespace ns) rm) rm) rm := by
  have h := foldl_recordBackendRef r { kind := kind, namespace_ := ns, name := name, refs := [] }
    bs rm
  dsimp only at h
  rw [h]
  exact ⟨rfl, rfl, rfl⟩

theorem sameCatalogs_recordAll (r : gatewayAPIReconciler) (vs : List RouteRefs)
    (rm : resourceMappings) : SameCatalogs (r.recordAll vs rm) rm :=
  ⟨rfl, rfl, rfl⟩

theorem FilterResolver_congr {rm rm' : resourceMappings} (h : SameCatalogs rm rm') (ns : String)
    (ref : gwapiv1b1.LocalObjectReference) :
    FilterResolver rm ns ref = FilterResolver rm' ns ref := by
  obtain ⟨h1, h2, h3⟩ := h
  simp only [FilterResolver, h1, h2, h3]

theorem grpcEntry_congr (r : gatewayAPIReconciler) {rm rm' : resourceMappings}
    (h : SameCatalogs rm rm') (ns : String) (f : gwapiv1a2.GRPCRouteFilter) :
    r.grpcEntry rm ns f = r.grpcEntry rm' ns f := by
  obtain ⟨h1, h2, h3⟩ := h
  simp only [gatewayAPIReconciler.grpcEntry, h1, h2, h3]

theorem appendEntries_nil (rt : gatewayapi.Resources) : rt.appendEntries [] = rt := by
  simp [gatewayapi.Resources.appendEntries]

theorem appendEntries_append (rt : gatewayapi.Resources) (es es' : List FilterEntry) :
    (rt.appendEntries es).appendEntries es' = rt.appendEntries (es ++ es') := by
  simp [gatewayapi.Resources.appendEntries, List.filterMap_append, List.append_assoc]

/-- The loop over canonical backend references records exactly the valid ones. -/
theorem foldl_betaBackendRefs (r : gatewayAPIReconciler) (kind ns name : String) {β : Type}
    (proj : β → gwapiv1b1.BackendRef) (step : resourceMappings → β → resourceMappings)
    (hstep : ∀ rm b, step rm b =
      match r.validateBackendRef (proj b) with
      | some _ => rm
      | none => r.recordBackendRef kind ns name (proj b).toBackendObjectReference
          (gatewayapi.NamespaceDerefOr (proj b).Namespace ns) rm) :
    ∀ (bs : List β) (rm : resourceMappings),
      bs.foldl step rm =
        (r.validRefs (bs.map proj)).foldl (fun rm b => r.recordBackendRef kind ns name b
          (gatewayapi.NamespaceDerefOr b.Namespace ns) rm) rm := by
  intro bs
  induction bs with
  | nil => intro rm; rfl
  | cons b bs ih =>
    intro rm
    rw [List.foldl_cons, ih, hstep]
    cases hb : r.validateBackendRef (proj b) <;>
      simp [gatewayAPIReconciler.validRefs, List.filter_cons, hb]

theorem grpcFilterStep_eq (r : gatewayAPIReconciler) (hv : r.GRPCFiltersChecked)
    (route : gwapiv1a2.GRPCRoute) (rm : resourceMappings) (rt : gatewayapi.Resources)
    (f : gwapiv1a2.GRPCRouteFilter) :
    r.grpcFilterStep route (rm, rt) f =
      some (rm, rt.appendEntries (r.grpcEntry rm route.Namespace f).toList) := by
  unfold gatewayAPIReconciler.grpcFilterStep gatewayAPIReconciler.grpcEntry
  cases hval : r.ValidateGRPCRouteFilter f with
  | some e => simp [appendEntries_nil]
  | none =>
    by_cases hty : f.Type_ = gwapiv1a2.GRPCRouteFilterExtensionRef
    · cases hext : f.ExtensionRef with
      | none => exact absurd hext (hv f hval hty)
      | some ref =>
        by_cases hk1 : ref.Kind = egv1a1.KindAuthenticationFilter
        · simp [hty, hk1, gatewayapi.Resources.appendEntries, FilterEntry.authentication?,
            FilterEntry.rateLimit?, FilterEntry.extensionRef?]
        · by_cases hk2 : ref.Kind = egv1a1.KindRateLimitFilter
          · have hne : ¬ egv1a1.KindRateLimitFilter = egv1a1.KindAuthenticationFilter := by decide
            simp [hty, hne, hk2, gatewayapi.Resources.appendEntries,
              FilterEntry.authentication?, FilterEntry.rateLimit?, FilterEntry.extensionRef?]
          · cases hx : rm.extensionRefFilters
                { Namespace := route.Namespace, Name := ref.Name } <;>
              simp [hty, hk1, hk2, hx, gatewayapi.Resources.appendEntries,
                FilterEntry.authentication?, FilterEntry.rateLimit?, FilterEntry.extensionRef?]
    · simp [hty, appendEntries_nil]

theorem foldlM_grpcFilterStep (r : gatewayAPIReconciler) (hv : r.GRPCFiltersChecked)
    (route : gwapiv1a2.GRPCRoute) (rm : resourceMappings) :
    ∀ (filters : List gwapiv1a2.GRPCRouteFilter) (rt : gatewayapi.Resources),
      filters.foldlM (r.grpcFilterStep route) (rm, rt) =
        some (rm, rt.appendEntries (filters.filterMap (r.grpcEntry rm route.Namespace))) := by
  intro filters
  induction filters with
  | nil => intro rt; simp [appendEntries_nil]
  | cons f filters ih =>
    intro rt
    rw [List.foldlM_cons, grpcFilterStep_eq r hv]
    simp only [Option.some_bind, Option.bind_eq_bind, ih, appendEntries_append]
    cases hf : r.grpcEntry rm route.Namespace f <;> simp [List.filterMap_cons, hf]

theorem grpcRuleStep_eq (r : gatewayAPIReconciler) (hv : r.GRPCFiltersChecked)
    (route : gwapiv1a2.GRPCRoute) (rm : resourceMappings) (rt : gatewayapi.Resources)
    (rule : gwapiv1a2.GRPCRouteRule) :
    r.grpcRuleStep route (rm, rt) rule =
      some ((r.validRefs (rule.BackendRefs.map (·.toBackendRef))).foldl
              (fun rm b => r.recordBackendRef gatewayapi.KindGRPCRoute route.Namespace route.Name b
                (gatewayapi.NamespaceDerefOr b.Namespace route.Namespace) rm) rm,
            rt.appendEntries (rule.Filters.filterMap (r.grpcEntry rm route.Namespace))) := by
  have h := foldl_betaBackendRefs r gatewayapi.KindGRPCRoute route.Namespace route.Name
    (fun b : gwapiv1a2.GRPCBackendRef => b.toBackendRef) (r.grpcBackendRefStep route)
    (fun rm b => rfl) rule.BackendRefs rm
  unfold gatewayAPIReconciler.grpcRuleStep
  simp only [h, foldlM_grpcFilterStep r hv]
  have hc := sameCatalogs_foldl_record r gatewayapi.KindGRPCRoute route.Namespace route.Name
    (r.validRefs (rule.BackendRefs.map (·.toBackendRef))) rm
  simp only [funext (grpcEntry_congr r hc route.Namespace)]

theorem foldlM_grpcRuleStep (r : gatewayAPIReconciler) (hv : r.GRPCFiltersChecked)
    (route : gwapiv1a2.GRPCRoute) :
    ∀ (rules : List gwapiv1a2.GRPCRouteRule) (rm : resourceMappings) (rt : gatewayapi.Resources),
      rules.foldlM (r.grpcRuleStep route) (rm, rt) =
        some ((rules.flatMap fun rule => r.validRefs (rule.BackendRefs.map (·.toBackendRef))).foldl
                (fun rm b => r.recordBackendRef gatewayapi.KindGRPCRoute route.Namespace
                  route.Name b (gatewayapi.NamespaceDerefOr b.Namespace route.Namespace) rm) rm,
              rt.appendEntries (rules.flatMap fun rule =>
                rule.Filters.filterMap (r.grpcEntry rm route.Namespace))) := by
  intro rules
  induction rules with
  | nil => intro rm rt; simp [appendEntries_nil]
  | cons rule rules ih =>
    intro rm rt
    rw [List.foldlM_cons, grpcRuleStep_eq r hv]
    simp only [Option.some_bind, Option.bind_eq_bind, ih, appendEntries_append,
      List.flatMap_cons, List.foldl_append]
    have hc := sameCatalogs_foldl_record r gatewayapi.KindGRPCRoute route.Namespace route.Name
      (r.validRefs (rule.BackendRefs.map (·.toBackendRef))) rm
    simp only [funext (grpcEntry_congr r hc route.Namespace)]

theorem grpcRouteStep_eq (r : gatewayAPIReconciler) (hv : r.GRPCFiltersChecked)
    (rm : resourceMappings) (rt : gatewayapi.Resources) (route : gwapiv1a2.GRPCRoute) :
    r.grpcRouteStep (rm, rt) route =
      some (r.recordAll [r.grpcRefs route] rm,
        { rt.appendEntries (r.grpcEntries rm [route]) with
          GRPCRoutes := rt.GRPCRoutes ++ [{ route with Status := {} }] }) := by
  rw [recordAll_cons, recordAll_nil]
  unfold gatewayAPIReconciler.grpcRouteStep
  rw [foldlM_grpcRuleStep r hv]
  simp [gatewayAPIReconciler.grpcEntries, gatewayAPIReconciler.grpcRefs,
    gatewayapi.Resources.appendEntries]

theorem grpcEntries_congr (r : gatewayAPIReconciler) {rm rm' : resourceMappings}
    (h : SameCatalogs rm rm') (routes : List gwapiv1a2.GRPCRoute) :
    r.grpcEntries rm routes = r.grpcEntries rm' routes := by
  unfold gatewayAPIReconciler.grpcEntries
  simp only [fun ns => funext (grpcEntry_congr r h ns)]

theorem grpcEntries_cons (r : gatewayAPIReconciler) (rm : resourceMappings)
    (route : gwapiv1a2.GRPCRoute) (routes : List gwapiv1a2.GRPCRoute) :
    r.grpcEntries rm (route :: routes) = r.grpcEntries rm [route] ++ r.grpcEntries rm routes := by
  simp [gatewayAPIReconciler.grpcEntries]

theorem foldlM_grpcRouteStep (r : gatewayAPIReconciler) (hv : r.GRPCFiltersChecked) :
    ∀ (routes : List gwapiv1a2.GRPCRoute) (rm : resourceMappings) (rt : gatewayapi.Resources),
      routes.foldlM r.grpcRouteStep (rm, rt) =
        some (r.recordAll (routes.map r.grpcRefs) rm,
          { rt.appendEntries (r.grpcEntries rm routes) with
            GRPCRoutes := rt.GRPCRoutes ++ routes.map fun route => { route with Status := {} } }) := by
  intro routes
  induction routes with
  | nil =>
    intro rm rt
    simp [recordAll_nil, gatewayAPIReconciler.grpcEntries, appendEntries_nil]
  | cons route routes ih =>
    intro rm rt
    rw [List.foldlM_cons, grpcRouteStep_eq r hv]
    simp only [Option.some_bind, Option.bind_eq_bind, ih, List.map_cons]
    rw [recordAll_step r (r.grpcRefs route) (routes.map r.grpcRefs),
      grpcEntries_congr r (sameCatalogs_recordAll r [r.grpcRefs route] rm) routes,
      grpcEntries_cons r rm route routes]
    simp [gatewayapi.Resources.appendEntries, List.filterMap_append]

theorem processGRPCRoutes_ok (r : gatewayAPIReconciler) (hv : r.GRPCFiltersChecked)
    (gatewayNamespaceName : String) (rm : resourceMappings) (rt : gatewayapi.Resources)
    (authenFilters : List egv1a1.AuthenticationFilter)
    (rateLimitFilters : List egv1a1.RateLimitFilter) (routes : List gwapiv1a2.GRPCRoute)
    (hauth : r.getAuthenticationFilters = .ok authenFilters)
    (hrate : r.getRateLimitFilters = .ok rateLimitFilters)
    (hlist : r.listGRPCRoutes gatewayNamespaceName = .ok routes) :
    r.processGRPCRoutes gatewayNamespaceName rm rt =
      some
        { err := none
          resourceMap := r.recordAll (routes.map r.grpcRefs) (rm.loadGRPC authenFilters rateLimitFilters)
          resourceTree :=
            { rt.appendEntries (r.grpcEntries (rm.loadGRPC authenFilters rateLimitFilters) routes) with
              GRPCRoutes := rt.GRPCRoutes ++ routes.map fun route => { route with Status := {} } } } := by
  simp only [gatewayAPIReconciler.processGRPCRoutes, hauth, hrate, hlist,
    foldlM_grpcRouteStep r hv, resourceMappings.loadGRPC]

theorem httpResolvedOf_congr (r : gatewayAPIReconciler) {rm rm' : resourceMappings}
    (h : SameCatalogs rm rm') (ns : String) (filters : List gwapiv1b1.HTTPRouteFilter) :
    r.httpResolvedOf rm ns filters = r.httpResolvedOf rm' ns filters := by
  unfold gatewayAPIReconciler.httpResolvedOf
  simp only [funext (FilterResolver_congr h ns)]

theorem httpResolved_congr (r : gatewayAPIReconciler) {rm rm' : resourceMappings}
    (h : SameCatalogs rm rm') (routes : List gwapiv1b1.HTTPRoute) :
    r.httpResolved rm routes = r.httpResolved rm' routes := by
  unfold gatewayAPIReconciler.httpResolved
  simp only [fun ns => funext (httpResolvedOf_congr r h ns)]

theorem httpFilterStep_eq (r : gatewayAPIReconciler) (hv : r.HTTPFiltersChecked)
    (route : gwapiv1b1.HTTPRoute) (rm : resourceMappings) (rt : gatewayapi.Resources)
    (f : gwapiv1b1.HTTPRouteFilter) :
    r.httpFilterStep route (rm, rt) f =
      some ((r.mirrorRefs [f]).foldl
              (fun rm b => r.recordBackendRef gatewayapi.KindHTTPRoute route.Namespace route.Name b
                (gatewayapi.NamespaceDerefOr b.Namespace route.Namespace) rm) rm,
            rt.appendEntries ((r.httpResolvedOf rm route.Namespace [f]).map
              ResolvedFilter.toEntry)) := by
  have hne : ¬ gwapiv1b1.HTTPRouteFilterRequestMirror = gwapiv1b1.HTTPRouteFilterExtensionRef := by
    decide
  have hne' : ¬ gwapiv1b1.HTTPRouteFilterExtensionRef = gwapiv1b1.HTTPRouteFilterRequestMirror := by
    decide
  have hk : ¬ egv1a1.KindRateLimitFilter = egv1a1.KindAuthenticationFilter := by decide
  have hA : egv1a1.KindAuthenticationFilter = "AuthenticationFilter" := rfl
  have hR : egv1a1.KindRateLimitFilter = "RateLimitFilter" := rfl
  unfold gatewayAPIReconciler.httpFilterStep gatewayAPIReconciler.mirrorRefs
    gatewayAPIReconciler.httpResolvedOf gatewayAPIReconciler.httpExtensionRef
  cases hval : r.ValidateHTTPRouteFilter f with
  | some e => simp [List.filterMap_cons, hval, appendEntries_nil]
  | none =>
    by_cases hm : f.Type_ = gwapiv1b1.HTTPRouteFilterRequestMirror
    · cases hrm : f.RequestMirror with
      | none => simp [List.filterMap_cons, hval, hrm, hm, hne, appendEntries_nil]
      | some m =>
        cases hvb : r.validateBackendRef
            { toBackendObjectReference := m.BackendRef, Weight := some 1 } <;>
          simp [List.filterMap_cons, hval, hrm, hm, hne, hvb, appendEntries_nil]
    · by_cases hty : f.Type_ = gwapiv1b1.HTTPRouteFilterExtensionRef
      · cases hext : f.ExtensionRef with
        | none => exact absurd hext (hv f hval hty)
        | some ref =>
          by_cases hk1 : ref.Kind = egv1a1.KindAuthenticationFilter
          · cases hx : rm.authenFilters { Namespace := route.Namespace, Name := ref.Name } <;>
              simp [List.filterMap_cons, hval, hext, hty, hne', hk1, hx, FilterResolver, ← hA, ResolvedFilter.toEntry,
                gatewayapi.Resources.appendEntries, FilterEntry.authentication?,
                FilterEntry.rateLimit?, FilterEntry.extensionRef?]
          · by_cases hk2 : ref.Kind = egv1a1.KindRateLimitFilter
            · cases hx : rm.rateLimitFilters { Namespace := route.Namespace, Name := ref.Name } <;>
                simp [List.filterMap_cons, hval, hext, hty, hne', hk, hk2, hx, FilterResolver, ← hA, ← hR, ResolvedFilter.toEntry,
                  gatewayapi.Resources.appendEntries, FilterEntry.authentication?,
                  FilterEntry.rateLimit?, FilterEntry.extensionRef?]
            · cases hx : rm.extensionRefFilters
                  { Namespace := route.Namespace, Name := ref.Name } <;>
                simp [List.filterMap_cons, hval, hext, hty, hne', hk1, hk2, hx, FilterResolver, ← hA, ← hR, ResolvedFilter.toEntry,
                  gatewayapi.Resources.appendEntries, FilterEntry.authentication?,
                  FilterEntry.rateLimit?, FilterEntry.extensionRef?]
      · simp [List.filterMap_cons, hval, hm, hty, appendEntries_nil]

theorem mirrorRefs_append (r : gatewayAPIReconciler) (fs gs : List gwapiv1b1.HTTPRouteFilter) :
    r.mirrorRefs (fs ++ gs) = r.mirrorRefs fs ++ r.mirrorRefs gs := by
  simp [gatewayAPIReconciler.mirrorRefs, List.filterMap_append]

theorem httpResolvedOf_append (r : gatewayAPIReconciler) (rm : resourceMappings) (ns : String)
    (fs gs : List gwapiv1b1.HTTPRouteFilter) :
    r.httpResolvedOf rm ns (fs ++ gs) = r.httpResolvedOf rm ns fs ++ r.httpResolvedOf rm ns gs := by
  simp [gatewayAPIReconciler.httpResolvedOf, List.filterMap_append]

theorem foldlM_httpFilterStep (r : gatewayAPIReconciler) (hv : r.HTTPFiltersChecked)
    (route : gwapiv1b1.HTTPRoute) :
    ∀ (filters : List gwapiv1b1.HTTPRouteFilter) (rm : resourceMappings)
      (rt : gatewayapi.Resources),
      filters.foldlM (r.httpFilterStep route) (rm, rt) =
        some ((r.mirrorRefs filters).foldl
                (fun rm b => r.recordBackendRef gatewayapi.KindHTTPRoute route.Namespace
                  route.Name b (gatewayapi.NamespaceDerefOr b.Namespace route.Namespace) rm) rm,
              rt.appendEntries ((r.httpResolvedOf rm route.Namespace filters).map
                ResolvedFilter.toEntry)) := by
  intro filters
  induction filters with
  | nil =>
    intro rm rt
    simp [gatewayAPIReconciler.mirrorRefs, gatewayAPIReconciler.httpResolvedOf, appendEntries_nil]
  | cons f filters ih =>
    intro rm rt
    rw [List.foldlM_cons, httpFilterStep_eq r hv]
    simp only [Option.some_bind, Option.bind_eq_bind, ih, appendEntries_append]
    have hc := sameCatalogs_foldl_record r gatewayapi.KindHTTPRoute route.Namespace route.Name
      (r.mirrorRefs [f]) rm
    rw [httpResolvedOf_congr r hc, ← List.map_append, ← httpResolvedOf_append, ← List.foldl_append,
      ← mirrorRefs_append]
    rfl

theorem httpRuleStep_eq (r : gatewayAPIReconciler) (hv : r.HTTPFiltersChecked)
    (route : gwapiv1b1.HTTPRoute) (rm : resourceMappings) (rt : gatewayapi.Resources)
    (rule : gwapiv1b1.HTTPRouteRule) :
    r.httpRuleStep route (rm, rt) rule =
      some ((r.validRefs (rule.BackendRefs.map (·.toBackendRef)) ++ r.mirrorRefs rule.Filters).foldl
              (fun rm b => r.recordBackendRef gatewayapi.KindHTTPRoute route.Namespace route.Name b
                (gatewayapi.NamespaceDerefOr b.Namespace route.Namespace) rm) rm,
            rt.appendEntries ((r.httpResolvedOf rm route.Namespace rule.Filters).map
              ResolvedFilter.toEntry)) := by
  have h := foldl_betaBackendRefs r gatewayapi.KindHTTPRoute route.Namespace route.Name
    (fun b : gwapiv1b1.HTTPBackendRef => b.toBackendRef) (r.httpBackendRefStep route)
    (fun rm b => rfl) rule.BackendRefs rm
  unfold gatewayAPIReconciler.httpRuleStep
  simp only [h, foldlM_httpFilterStep r hv, List.foldl_append]
  have hc := sameCatalogs_foldl_record r gatewayapi.KindHTTPRoute route.Namespace route.Name
    (r.validRefs (rule.BackendRefs.map (·.toBackendRef))) rm
  rw [httpResolvedOf_congr r hc]

theorem foldlM_httpRuleStep (r : gatewayAPIReconciler) (hv : r.HTTPFiltersChecked)
    (route : gwapiv1b1.HTTPRoute) :
    ∀ (rules : List gwapiv1b1.HTTPRouteRule) (rm : resourceMappings) (rt : gatewayapi.Resources),
      rules.foldlM (r.httpRuleStep route) (rm, rt) =
        some ((rules.flatMap fun rule =>
                r.validRefs (rule.BackendRefs.map (·.toBackendRef)) ++
                  r.mirrorRefs rule.Filters).foldl
                (fun rm b => r.recordBackendRef gatewayapi.KindHTTPRoute route.Namespace
                  route.Name b (gatewayapi.NamespaceDerefOr b.Namespace route.Namespace) rm) rm,
              rt.appendEntries ((rules.flatMap fun rule =>
                r.httpResolvedOf rm route.Namespace rule.Filters).map ResolvedFilter.toEntry)) := by
  intro rules
  induction rules with
  | nil => intro rm rt; simp [appendEntries_nil]
  | cons rule rules ih =>
    intro rm rt
    rw [List.foldlM_cons, httpRuleStep_eq r hv]
    simp only [Option.some_bind, Option.bind_eq_bind, ih, appendEntries_append,
      List.flatMap_cons, List.foldl_append, List.map_append]
    have hc := sameCatalogs_foldl_record r gatewayapi.KindHTTPRoute route.Namespace route.Name
      (r.validRefs (rule.BackendRefs.map (·.toBackendRef)) ++ r.mirrorRefs rule.Filters) rm
    rw [List.foldl_append] at hc
    simp only [fun fs => httpResolvedOf_congr r hc route.Namespace fs]

theorem httpRouteStep_eq (r : gatewayAPIReconciler) (hv : r.HTTPFiltersChecked)
    (rm : resourceMappings) (rt : gatewayapi.Resources) (route : gwapiv1b1.HTTPRoute) :
    r.httpRouteStep (rm, rt) route =
      some (r.recordAll [r.httpRefs route] rm,
        { rt.appendEntries ((r.httpResolved rm [route]).map ResolvedFilter.toEntry) with
          HTTPRoutes := rt.HTTPRoutes ++ [{ route with Status := {} }] }) := by
  rw [recordAll_cons, recordAll_nil]
  unfold gatewayAPIReconciler.httpRouteStep
  rw [foldlM_httpRuleStep r hv]
  simp [gatewayAPIReconciler.httpResolved, gatewayAPIReconciler.httpRefs,
    gatewayapi.Resources.appendEntries]

theorem httpResolved_cons (r : gatewayAPIReconciler) (rm : resourceMappings)
    (route : gwapiv1b1.HTTPRoute) (routes : List gwapiv1b1.HTTPRoute) :
    r.httpResolved rm (route :: routes) = r.httpResolved rm [route] ++ r.httpResolved rm routes := by
  simp [gatewayAPIReconciler.httpResolved]

theorem foldlM_httpRouteStep (r : gatewayAPIReconciler) (hv : r.HTTPFiltersChecked) :
    ∀ (routes : List gwapiv1b1.HTTPRoute) (rm : resourceMappings) (rt : gatewayapi.Resources),
      routes.foldlM r.httpRouteStep (rm, rt) =
        some (r.recordAll (routes.map r.httpRefs) rm,
          { rt.appendEntries ((r.httpResolved rm routes).map ResolvedFilter.toEntry) with
            HTTPRoutes := rt.HTTPRoutes ++ routes.map fun route => { route with Status := {} } }) := by
  intro routes
  induction routes with
  | nil =>
    intro rm rt
    simp [recordAll_nil, gatewayAPIReconciler.httpResolved, appendEntries_nil]
  | cons route routes ih =>
    intro rm rt
    rw [List.foldlM_cons, httpRouteStep_eq r hv]
    simp only [Option.some_bind, Option.bind_eq_bind, ih, List.map_cons]
    rw [recordAll_step r (r.httpRefs route) (routes.map r.httpRefs),
      httpResolved_congr r (sameCatalogs_recordAll r [r.httpRefs route] rm) routes,
      httpResolved_cons r rm route routes]
    simp [gatewayapi.Resources.appendEntries, List.filterMap_append]

theorem processHTTPRoutes_ok (r : gatewayAPIReconciler) (hv : r.HTTPFiltersChecked)
    (gatewayNamespaceName : String) (rm : resourceMappings) (rt : gatewayapi.Resources)
    (authenFilters : List egv1a1.AuthenticationFilter)
    (rateLimitFilters : List egv1a1.RateLimitFilter)
    (extensionRefFilters : List unstructured.Unstructured) (routes : List gwapiv1b1.HTTPRoute)
    (hauth : r.getAuthenticationFilters = .ok authenFilters)
    (hrate : r.getRateLimitFilters = .ok rateLimitFilters)
    (hext : r.getExtensionRefFilters = .ok extensionRefFilters)
    (hlist : r.listHTTPRoutes gatewayNamespaceName = .ok routes) :
    r.processHTTPRoutes gatewayNamespaceName rm rt =
      some
        { err := none
          resourceMap := r.recordAll (routes.map r.httpRefs)
            (rm.loadHTTP authenFilters rateLimitFilters extensionRefFilters)
          resourceTree :=
            { rt.appendEntries
                ((r.httpResolved (rm.loadHTTP authenFilters rateLimitFilters extensionRefFilters)
                  routes).map ResolvedFilter.toEntry) with
              HTTPRoutes := rt.HTTPRoutes ++ routes.map fun route => { route with Status := {} } } } := by
  simp only [gatewayAPIReconciler.processHTTPRoutes, hauth, hrate, hext, hlist,
    foldlM_httpRouteStep r hv, resourceMappings.loadHTTP]

theorem scenario_httpChecked : scenarioReconciler.HTTPFiltersChecked := by
  intro f hval hty hnone
  simp [scenarioReconciler, gwapiv1b1.HTTPRouteFilterExtensionRef, hnone] at hval hty
  exact hval hty

theorem scenario_grpcChecked : scenarioReconciler.GRPCFiltersChecked := by
  intro f hval hty hnone
  simp [scenarioReconciler, gwapiv1a2.GRPCRouteFilterExtensionRef, hnone] at hval hty
  exact hval hty

/-! ## The claims -/

/-- C1: for each of the five processors, whenever the route listing (and, for
HTTP and gRPC, the catalog fetches) succeeds, the processor returns nil and the
tree's list for its category is its previous contents followed by one entry
per listed route, in listing order, each the listed route with its Status
replaced by the empty status - whatever the validators, the grant resolver and
the catalogs answer. -/
theorem C1_routes_appended_with_status_cleared (r : gatewayAPIReconciler)
    (gatewayNamespaceName : String) (rm : resourceMappings) (rt : gatewayapi.Resources) :
    (∀ routes, r.listTLSRoutes gatewayNamespaceName = .ok routes →
      (r.processTLSRoutes gatewayNamespaceName rm rt).err = none ∧
      (r.processTLSRoutes gatewayNamespaceName rm rt).resourceTree.TLSRoutes =
        rt.TLSRoutes ++ routes.map fun route => { route with Status := {} }) ∧
    (∀ authenFilters rateLimitFilters routes, r.GRPCFiltersChecked →
      r.getAuthenticationFilters = .ok authenFilters →
      r.getRateLimitFilters = .ok rateLimitFilters →
      r.listGRPCRoutes gatewayNamespaceName = .ok routes →
      ∃ res, r.processGRPCRoutes gatewayNamespaceName rm rt = some res ∧ res.err = none ∧
        res.resourceTree.GRPCRoutes =
          rt.GRPCRoutes ++ routes.map fun route => { route with Status := {} }) ∧
    (∀ authenFilters rateLimitFilters extensionRefFilters routes, r.HTTPFiltersChecked →
      r.getAuthenticationFilters = .ok authenFilters →
      r.getRateLimitFilters = .ok rateLimitFilters →
      r.getExtensionRefFilters = .ok extensionRefFilters →
      r.listHTTPRoutes gatewayNamespaceName = .ok routes →
      ∃ res, r.processHTTPRoutes gatewayNamespaceName rm rt = some res ∧ res.err = none ∧
        res.resourceTree.HTTPRoutes =
          rt.HTTPRoutes ++ routes.map fun route => { route with Status := {} }) ∧
    (∀ routes, r.listTCPRoutes gatewayNamespaceName = .ok routes →
      (r.processTCPRoutes gatewayNamespaceName rm rt).err = none ∧
      (r.processTCPRoutes gatewayNamespaceName rm rt).resourceTree.TCPRoutes =
        rt.TCPRoutes ++ routes.map fun route => { route with Status := {} }) ∧
    (∀ routes, r.listUDPRoutes gatewayNamespaceName = .ok routes →
      (r.processUDPRoutes gatewayNamespaceName rm rt).err = none ∧
      (r.processUDPRoutes gatewayNamespaceName rm rt).resourceTree.UDPRoutes =
        rt.UDPRoutes ++ routes.map fun route => { route with Status := {} }) := by
  refine ⟨?_, ?_, ?_, ?_, ?_⟩
  · intro routes hlist
    rw [processTLSRoutes_ok r gatewayNamespaceName rm rt routes hlist]
    exact ⟨rfl, rfl⟩
  · intro authenFilters rateLimitFilters routes hv hauth hrate hlist
    exact ⟨_, processGRPCRoutes_ok r hv gatewayNamespaceName rm rt authenFilters rateLimitFilters
      routes hauth hrate hlist, rfl, rfl⟩
  · intro authenFilters rateLimitFilters extensionRefFilters routes hv hauth hrate hext hlist
    exact ⟨_, processHTTPRoutes_ok r hv gatewayNamespaceName rm rt authenFilters rateLimitFilters
      extensionRefFilters routes hauth hrate hext hlist, rfl, rfl⟩
  · intro routes hlist
    rw [processTCPRoutes_ok r gatewayNamespaceName rm rt routes hlist]
    exact ⟨rfl, rfl⟩
  · intro routes hlist
    rw [processUDPRoutes_ok r gatewayNamespaceName rm rt routes hlist]
    exact ⟨rfl, rfl⟩

/-- C1 on the concrete snapshot: all five listings succeed and each tree list
gains the listed route with its status cleared. -/
theorem C1_witness :
    ((scenarioReconciler.processTLSRoutes "gw" emptyMappings emptyResources).err = none ∧
      (scenarioReconciler.processTLSRoutes "gw" emptyMappings emptyResources).resourceTree.TLSRoutes
        = [{ scenarioTLSRoute with Status := {} }]) ∧
    (∃ res, scenarioReconciler.processGRPCRoutes "gw" emptyMappings emptyResources = some res ∧
      res.err = none ∧
      res.resourceTree.GRPCRoutes = [{ scenarioGRPCRoute with Status := {} }]) ∧
    (∃ res, scenarioReconciler.processHTTPRoutes "gw" emptyMappings emptyResources = some res ∧
      res.err = none ∧
      res.resourceTree.HTTPRoutes = [{ scenarioHTTPRoute with Status := {} }]) ∧
    ((scenarioReconciler.processTCPRoutes "gw" emptyMappings emptyResources).err = none ∧
      (scenarioReconciler.processTCPRoutes "gw" emptyMappings emptyResources).resourceTree.TCPRoutes
        = [{ scenarioTCPRoute with Status := {} }]) ∧
    ((scenarioReconciler.processUDPRoutes "gw" emptyMappings emptyResources).err = none ∧
      (scenarioReconciler.processUDPRoutes "gw" emptyMappings emptyResources).resourceTree.UDPRoutes
        = [{ scenarioUDPRoute with Status := {} }]) :=
  have h := C1_routes_appended_with_status_cleared scenarioReconciler "gw" emptyMappings
    emptyResources
  ⟨h.1 [scenarioTLSRoute] rfl,
   h.2.1 _ _ [scenarioGRPCRoute] scenario_grpcChecked rfl rfl rfl,
   h.2.2.1 _ _ _ [scenarioHTTPRoute] scenario_httpChecked rfl rfl rfl rfl,
   h.2.2.2.1 [scenarioTCPRoute] rfl,
   h.2.2.2.2 [scenarioUDPRoute] rfl⟩

/-- C2: for each of the five processors, if the route listing call returns an
error `e` (for HTTP and gRPC the catalog fetches before it having succeeded, so
that the call is made), the processor returns `e`, the resource tree is left
as it was (no route is appended to any list), and the backend-reference set,
the consumed-grant map and the namespace set of the working set are exactly
those on entry. -/
theorem C2_listing_error_aborts (r : gatewayAPIReconciler) (gatewayNamespaceName : String)
    (rm : resourceMappings) (rt : gatewayapi.Resources) (e : Error) :
    (r.listTLSRoutes gatewayNamespaceName = .error e →
      (r.processTLSRoutes gatewayNamespaceName rm rt).err = some e ∧
      (r.processTLSRoutes gatewayNamespaceName rm rt).resourceTree = rt ∧
      (r.processTLSRoutes gatewayNamespaceName rm rt).resourceMap.allAssociatedBackendRefs =
        rm.allAssociatedBackendRefs ∧
      (r.processTLSRoutes gatewayNamespaceName rm rt).resourceMap.allAssociatedRefGrants =
        rm.allAssociatedRefGrants ∧
      (r.processTLSRoutes gatewayNamespaceName rm rt).resourceMap.allAssociatedNamespaces =
        rm.allAssociatedNamespaces) ∧
    (∀ authenFilters rateLimitFilters,
      r.getAuthenticationFilters = .ok authenFilters →
      r.getRateLimitFilters = .ok rateLimitFilters →
      r.listGRPCRoutes gatewayNamespaceName = .error e →
      ∃ res, r.processGRPCRoutes gatewayNamespaceName rm rt = some res ∧ res.err = some e ∧
        res.resourceTree = rt ∧
        res.resourceMap.allAssociatedBackendRefs = rm.allAssociatedBackendRefs ∧
        res.resourceMap.allAssociatedRefGrants = rm.allAssociatedRefGrants ∧
        res.resourceMap.allAssociatedNamespaces = rm.allAssociatedNamespaces) ∧
    (∀ authenFilters rateLimitFilters extensionRefFilters,
      r.getAuthenticationFilters = .ok authenFilters →
      r.getRateLimitFilters = .ok rateLimitFilters →
      r.getExtensionRefFilters = .ok extensionRefFilters →
      r.listHTTPRoutes gatewayNamespaceName = .error e →
      ∃ res, r.processHTTPRoutes gatewayNamespaceName rm rt = some res ∧ res.err = some e ∧
        res.resourceTree = rt ∧
        res.resourceMap.allAssociatedBackendRefs = rm.allAssociatedBackendRefs ∧
        res.resourceMap.allAssociatedRefGrants = rm.allAssociatedRefGrants ∧
        res.resourceMap.allAssociatedNamespaces = rm.allAssociatedNamespaces) ∧
    (r.listTCPRoutes gatewayNamespaceName = .error e →
      (r.processTCPRoutes gatewayNamespaceName rm rt).err = some e ∧
      (r.processTCPRoutes gatewayNamespaceName rm rt).resourceTree = rt ∧
      (r.processTCPRoutes gatewayNamespaceName rm rt).resourceMap.allAssociatedBackendRefs =
        rm.allAssociatedBackendRefs ∧
      (r.processTCPRoutes gatewayNamespaceName rm rt).resourceMap.allAssociatedRefGrants =
        rm.allAssociatedRefGrants ∧
      (r.processTCPRoutes gatewayNamespaceName rm rt).resourceMap.allAssociatedNamespaces =
        rm.allAssociatedNamespaces) ∧
    (r.listUDPRoutes gatewayNamespaceName = .error e →
      (r.processUDPRoutes gatewayNamespaceName rm rt).err = some e ∧
      (r.processUDPRoutes gatewayNamespaceName rm rt).resourceTree = rt ∧
      (r.processUDPRoutes gatewayNamespaceName rm rt).resourceMap.allAssociatedBackendRefs =
        rm.allAssociatedBackendRefs ∧
      (r.processUDPRoutes gatewayNamespaceName rm rt).resourceMap.allAssociatedRefGrants =
        rm.allAssociatedRefGrants ∧
      (r.processUDPRoutes gatewayNamespaceName rm rt).resourceMap.allAssociatedNamespaces =
        rm.allAssociatedNamespaces) := by
  refine ⟨?_, ?_, ?_, ?_, ?_⟩
  · intro hlist
    simp only [gatewayAPIReconciler.processTLSRoutes, hlist, and_self]
  · intro authenFilters rateLimitFilters hauth hrate hlist
    simp only [gatewayAPIReconciler.processGRPCRoutes, hauth, hrate, hlist]
    exact ⟨_, rfl, rfl, rfl, rfl, rfl, rfl⟩
  · intro authenFilters rateLimitFilters extensionRefFilters hauth hrate hext hlist
    simp only [gatewayAPIReconciler.processHTTPRoutes, hauth, hrate, hext, hlist]
    exact ⟨_, rfl, rfl, rfl, rfl, rfl, rfl⟩
  · intro hlist
    simp only [gatewayAPIReconciler.processTCPRoutes, hlist, and_self]
  · intro hlist
    simp only [gatewayAPIReconciler.processUDPRoutes, hlist, and_self]

/-- C2 on the snapshot whose five listings fail: each processor hands back the
listing's own error. -/
theorem C2_witness :
    (failingReconciler.processTLSRoutes "gw" emptyMappings emptyResources).err
      = some "list TLSRoutes" ∧
    (∃ res, failingReconciler.processGRPCRoutes "gw" emptyMappings emptyResources = some res ∧
      res.err = some "list GRPCRoutes" ∧ res.resourceTree = emptyResources) ∧
    (∃ res, failingReconciler.processHTTPRoutes "gw" emptyMappings emptyResources = some res ∧
      res.err = some "list HTTPRoutes" ∧ res.resourceTree = emptyResources) ∧
    (failingReconciler.processTCPRoutes "gw" emptyMappings emptyResources).err
      = some "list TCPRoutes" ∧
    (failingReconciler.processUDPRoutes "gw" emptyMappings emptyResources).err
      = some "list UDPRoutes" :=
  ⟨((C2_listing_error_aborts failingReconciler "gw" emptyMappings emptyResources
      "list TLSRoutes").1 rfl).1,
   (let ⟨res, h1, h2, h3, _⟩ :=
      (C2_listing_error_aborts failingReconciler "gw" emptyMappings emptyResources
        "list GRPCRoutes").2.1 _ _ rfl rfl rfl
    ⟨res, h1, h2, h3⟩),
   (let ⟨res, h1, h2, h3, _⟩ :=
      (C2_listing_error_aborts failingReconciler "gw" emptyMappings emptyResources
        "list HTTPRoutes").2.2.1 _ _ _ rfl rfl rfl rfl
    ⟨res, h1, h2, h3⟩),
   ((C2_listing_error_aborts failingReconciler "gw" emptyMappings emptyResources
      "list TCPRoutes").2.2.2.1 rfl).1,
   ((C2_listing_error_aborts failingReconciler "gw" emptyMappings emptyResources
      "list UDPRoutes").2.2.2.2 rfl).1⟩

theorem mem_validAlphaRefs (r : gatewayAPIReconciler) (bs : List gwapiv1a2.BackendRef)
    (a : gwapiv1b1.BackendObjectReference) :
    a ∈ r.validAlphaRefs bs ↔
      ∃ b ∈ bs, r.validateBackendRef (r.UpgradeBackendRef b) = none ∧
        a = b.toBackendObjectReference := by
  simp only [gatewayAPIReconciler.validAlphaRefs, List.mem_map, List.mem_filter,
    Option.isNone_iff_eq_none]
  constructor
  · rintro ⟨b, ⟨hb, hv⟩, rfl⟩
    exact ⟨b, hb, hv, rfl⟩
  · rintro ⟨b, hb, hv, rfl⟩
    exact ⟨b, ⟨hb, hv⟩, rfl⟩

theorem mem_validRefs (r : gatewayAPIReconciler) (bs : List gwapiv1b1.BackendRef)
    (a : gwapiv1b1.BackendObjectReference) :
    a ∈ r.validRefs bs ↔
      ∃ b ∈ bs, r.validateBackendRef b = none ∧ a = b.toBackendObjectReference := by
  simp only [gatewayAPIReconciler.validRefs, List.mem_map, List.mem_filter,
    Option.isNone_iff_eq_none]
  constructor
  · rintro ⟨b, ⟨hb, hv⟩, rfl⟩
    exact ⟨b, hb, hv, rfl⟩
  · rintro ⟨b, hb, hv, rfl⟩
    exact ⟨b, ⟨hb, hv⟩, rfl⟩

theorem mem_recordedIdentities_tls (r : gatewayAPIReconciler) (routes : List gwapiv1a2.TLSRoute)
    (k : gwapiv1b1.BackendObjectReference) :
    k ∈ recordedIdentities (routes.map r.tlsRefs) ↔
      ∃ route ∈ routes, ∃ rule ∈ route.Spec.Rules, ∃ b ∈ rule.BackendRefs,
        r.validateBackendRef (r.UpgradeBackendRef b) = none ∧
          k = backendRefIdentity route.Namespace b.toBackendObjectReference := by
  simp only [recordedIdentities, gatewayAPIReconciler.tlsRefs, List.mem_flatMap, List.mem_map,
    exists_exists_and_eq_and, mem_validAlphaRefs]
  constructor
  · rintro ⟨route, hroute, _, ⟨rule, hrule, b, hb, hv, rfl⟩, rfl⟩
    exact ⟨route, hroute, rule, hrule, b, hb, hv, rfl⟩
  · rintro ⟨route, hroute, rule, hrule, b, hb, hv, rfl⟩
    exact ⟨route, hroute, _, ⟨rule, hrule, b, hb, hv, rfl⟩, rfl⟩

theorem mem_recordedIdentities_tcp (r : gatewayAPIReconciler) (routes : List gwapiv1a2.TCPRoute)
    (k : gwapiv1b1.BackendObjectReference) :
    k ∈ recordedIdentities (routes.map r.tcpRefs) ↔
      ∃ route ∈ routes, ∃ rule ∈ route.Spec.Rules, ∃ b ∈ rule.BackendRefs,
        r.validateBackendRef (r.UpgradeBackendRef b) = none ∧
          k = backendRefIdentity route.Namespace b.toBackendObjectReference := by
  simp only [recordedIdentities, gatewayAPIReconciler.tcpRefs, List.mem_flatMap, List.mem_map,
    exists_exists_and_eq_and, mem_validAlphaRefs]
  constructor
  · rintro ⟨route, hroute, _, ⟨rule, hrule, b, hb, hv, rfl⟩, rfl⟩
    exact ⟨route, hroute, rule, hrule, b, hb, hv, rfl⟩
  · rintro ⟨route, hroute, rule, hrule, b, hb, hv, rfl⟩
    exact ⟨route, hroute, _, ⟨rule, hrule, b, hb, hv, rfl⟩, rfl⟩

theorem mem_recordedIdentities_udp (r : gatewayAPIReconciler) (routes : List gwapiv1a2.UDPRoute)
    (k : gwapiv1b1.BackendObjectReference) :
    k ∈ recordedIdentities (routes.map r.udpRefs) ↔
      ∃ route ∈ routes, ∃ rule ∈ route.Spec.Rules, ∃ b ∈ rule.BackendRefs,
        r.validateBackendRef (r.UpgradeBackendRef b) = none ∧
          k = backendRefIdentity route.Namespace b.toBackendObjectReference := by
  simp only [recordedIdentities, gatewayAPIReconciler.udpRefs, List.mem_flatMap, List.mem_map,
    exists_exists_and_eq_and, mem_validAlphaRefs]
  constructor
  · rintro ⟨route, hroute, _, ⟨rule, hrule, b, hb, hv, rfl⟩, rfl⟩
    exact ⟨route, hroute, rule, hrule, b, hb, hv, rfl⟩
  · rintro ⟨route, hroute, rule, hrule, b, hb, hv, rfl⟩
    exact ⟨route, hroute, _, ⟨rule, hrule, b, hb, hv, rfl⟩, rfl⟩

theorem mem_recordedIdentities_grpc (r : gatewayAPIReconciler)
    (routes : List gwapiv1a2.GRPCRoute) (k : gwapiv1b1.BackendObjectReference) :
    k ∈ recordedIdentities (routes.map r.grpcRefs) ↔
      ∃ route ∈ routes, ∃ rule ∈ route.Spec.Rules, ∃ b ∈ rule.BackendRefs,
        r.validateBackendRef b.toBackendRef = none ∧
          k = backendRefIdentity route.Namespace b.toBackendObjectReference := by
  simp only [recordedIdentities, gatewayAPIReconciler.grpcRefs, List.mem_flatMap, List.mem_map,
    exists_exists_and_eq_and, mem_validRefs]
  constructor
  · rintro ⟨route, hroute, _, ⟨rule, hrule, b, hb, hv, rfl⟩, rfl⟩
    exact ⟨route, hroute, rule, hrule, b, hb, hv, rfl⟩
  · rintro ⟨route, hroute, rule, hrule, b, hb, hv, rfl⟩
    exact ⟨route, hroute, _, ⟨rule, hrule, b, hb, hv, rfl⟩, rfl⟩

theorem mirrorRefs_eq_nil (r : gatewayAPIReconciler) (filters : List gwapiv1b1.HTTPRouteFilter)
    (h : ∀ f ∈ filters, f.Type_ ≠ gwapiv1b1.HTTPRouteFilterRequestMirror) :
    r.mirrorRefs filters = [] := by
  simp only [gatewayAPIReconciler.mirrorRefs, List.filterMap_eq_nil_iff]
  intro f hf
  simp [h f hf]

theorem mem_recordedIdentities_http (r : gatewayAPIReconciler)
    (routes : List gwapiv1b1.HTTPRoute) (k : gwapiv1b1.BackendObjectReference)
    (hmirror : ∀ route ∈ routes, ∀ rule ∈ route.Spec.Rules, ∀ f ∈ rule.Filters,
      f.Type_ ≠ gwapiv1b1.HTTPRouteFilterRequestMirror) :
    k ∈ recordedIdentities (routes.map r.httpRefs) ↔
      ∃ route ∈ routes, ∃ rule ∈ route.Spec.Rules, ∃ b ∈ rule.BackendRefs,
        r.validateBackendRef b.toBackendRef = none ∧
          k = backendRefIdentity route.Namespace b.toBackendObjectReference := by
  simp only [recordedIdentities, gatewayAPIReconciler.httpRefs, List.mem_flatMap, List.mem_map,
    exists_exists_and_eq_and, List.mem_append, mem_validRefs]
  constructor
  · rintro ⟨route, hroute, _, ⟨rule, hrule, h⟩, rfl⟩
    rcases h with ⟨b, hb, hv, rfl⟩ | h
    · exact ⟨route, hroute, rule, hrule, b, hb, hv, rfl⟩
    · rw [mirrorRefs_eq_nil r rule.Filters (hmirror route hroute rule hrule)] at h
      simp at h
  · rintro ⟨route, hroute, rule, hrule, b, hb, hv, rfl⟩
    exact ⟨route, hroute, _, ⟨rule, hrule, Or.inl ⟨b, hb, hv, rfl⟩⟩, rfl⟩

/-- C3: for each of the five processors, on a successful run over routes that
carry no RequestMirror filter, the backend-reference set afterwards is the set
on entry united with the identities (group, kind, resolved namespace, name) of
exactly those rule-level backend references for which `validateBackendRef`
succeeds: an invalid reference contributes nothing and stops nothing, a valid
one is recorded whatever its namespace and whatever `findReferenceGrant`
answers. -/
theorem C3_backend_reference_set (r : gatewayAPIReconciler) (gatewayNamespaceName : String)
    (rm : resourceMappings) (rt : gatewayapi.Resources) :
    (∀ routes, r.listTLSRoutes gatewayNamespaceName = .ok routes →
      (r.processTLSRoutes gatewayNamespaceName rm rt).err = none ∧
      ∀ k, k ∈ (r.processTLSRoutes gatewayNamespaceName rm rt).resourceMap.allAssociatedBackendRefs
        ↔ k ∈ rm.allAssociatedBackendRefs ∨
          ∃ route ∈ routes, ∃ rule ∈ route.Spec.Rules, ∃ b ∈ rule.BackendRefs,
            r.validateBackendRef (r.UpgradeBackendRef b) = none ∧
              k = backendRefIdentity route.Namespace b.toBackendObjectReference) ∧
    (∀ authenFilters rateLimitFilters routes, r.GRPCFiltersChecked →
      r.getAuthenticationFilters = .ok authenFilters →
      r.getRateLimitFilters = .ok rateLimitFilters →
      r.listGRPCRoutes gatewayNamespaceName = .ok routes →
      ∃ res, r.processGRPCRoutes gatewayNamespaceName rm rt = some res ∧ res.err = none ∧
        ∀ k, k ∈ res.resourceMap.allAssociatedBackendRefs
          ↔ k ∈ rm.allAssociatedBackendRefs ∨
            ∃ route ∈ routes, ∃ rule ∈ route.Spec.Rules, ∃ b ∈ rule.BackendRefs,
              r.validateBackendRef b.toBackendRef = none ∧
                k = backendRefIdentity route.Namespace b.toBackendObjectReference) ∧
    (∀ authenFilters rateLimitFilters extensionRefFilters routes, r.HTTPFiltersChecked →
      r.getAuthenticationFilters = .ok authenFilters →
      r.getRateLimitFilters = .ok rateLimitFilters →
      r.getExtensionRefFilters = .ok extensionRefFilters →
      r.listHTTPRoutes gatewayNamespaceName = .ok routes →
      (∀ route ∈ routes, ∀ rule ∈ route.Spec.Rules, ∀ f ∈ rule.Filters,
        f.Type_ ≠ gwapiv1b1.HTTPRouteFilterRequestMirror) →
      ∃ res, r.processHTTPRoutes gatewayNamespaceName rm rt = some res ∧ res.err = none ∧
        ∀ k, k ∈ res.resourceMap.allAssociatedBackendRefs
          ↔ k ∈ rm.allAssociatedBackendRefs ∨
            ∃ route ∈ routes, ∃ rule ∈ route.Spec.Rules, ∃ b ∈ rule.BackendRefs,
              r.validateBackendRef b.toBackendRef = none ∧
                k = backendRefIdentity route.Namespace b.toBackendObjectReference) ∧
    (∀ routes, r.listTCPRoutes gatewayNamespaceName = .ok routes →
      (r.processTCPRoutes gatewayNamespaceName rm rt).err = none ∧
      ∀ k, k ∈ (r.processTCPRoutes gatewayNamespaceName rm rt).resourceMap.allAssociatedBackendRefs
        ↔ k ∈ rm.allAssociatedBackendRefs ∨
          ∃ route ∈ routes, ∃ rule ∈ route.Spec.Rules, ∃ b ∈ rule.BackendRefs,
            r.validateBackendRef (r.UpgradeBackendRef b) = none ∧
              k = backendRefIdentity route.Namespace b.toBackendObjectReference) ∧
    (∀ routes, r.listUDPRoutes gatewayNamespaceName = .ok routes →
      (r.processUDPRoutes gatewayNamespaceName rm rt).err = none ∧
      ∀ k, k ∈ (r.processUDPRoutes gatewayNamespaceName rm rt).resourceMap.allAssociatedBackendRefs
        ↔ k ∈ rm.allAssociatedBackendRefs ∨
          ∃ route ∈ routes, ∃ rule ∈ route.Spec.Rules, ∃ b ∈ rule.BackendRefs,
            r.validateBackendRef (r.UpgradeBackendRef b) = none ∧
              k = backendRefIdentity route.Namespace b.toBackendObjectReference) := by
  refine ⟨?_, ?_, ?_, ?_, ?_⟩
  · intro routes hlist
    rw [processTLSRoutes_ok r gatewayNamespaceName rm rt routes hlist]
    refine ⟨rfl, fun k => ?_⟩
    simp only [gatewayAPIReconciler.recordAll, Finset.mem_union, List.mem_toFinset,
      mem_recordedIdentities_tls]
  · intro authenFilters rateLimitFilters routes hv hauth hrate hlist
    refine ⟨_, processGRPCRoutes_ok r hv gatewayNamespaceName rm rt authenFilters rateLimitFilters
      routes hauth hrate hlist, rfl, fun k => ?_⟩
    simp only [gatewayAPIReconciler.recordAll, resourceMappings.loadGRPC, Finset.mem_union,
      List.mem_toFinset, mem_recordedIdentities_grpc]
  · intro authenFilters rateLimitFilters extensionRefFilters routes hv hauth hrate hext hlist
      hmirror
    refine ⟨_, processHTTPRoutes_ok r hv gatewayNamespaceName rm rt authenFilters rateLimitFilters
      extensionRefFilters routes hauth hrate hext hlist, rfl, fun k => ?_⟩
    simp only [gatewayAPIReconciler.recordAll, resourceMappings.loadHTTP, Finset.mem_union,
      List.mem_toFinset, mem_recordedIdentities_http r routes k hmirror]
  · intro routes hlist
    rw [processTCPRoutes_ok r gatewayNamespaceName rm rt routes hlist]
    refine ⟨rfl, fun k => ?_⟩
    simp only [gatewayAPIReconciler.recordAll, Finset.mem_union, List.mem_toFinset,
      mem_recordedIdentities_tcp]
  · intro routes hlist
    rw [processUDPRoutes_ok r gatewayNamespaceName rm rt routes hlist]
    refine ⟨rfl, fun k => ?_⟩
    simp only [gatewayAPIReconciler.recordAll, Finset.mem_union, List.mem_toFinset,
      mem_recordedIdentities_udp]

theorem scenario_noMirror : ∀ route ∈ [scenarioHTTPRoute], ∀ rule ∈ route.Spec.Rules,
    ∀ f ∈ rule.Filters, f.Type_ ≠ gwapiv1b1.HTTPRouteFilterRequestMirror := by
  decide

/-- C3 on the snapshot: the run of each processor succeeds and its
backend-reference set is described by the valid references of the one listed
route. -/
theorem C3_witness :
    ((scenarioReconciler.processTLSRoutes "gw" emptyMappings emptyResources).err = none ∧
      ∀ k, k ∈ (scenarioReconciler.processTLSRoutes "gw" emptyMappings
          emptyResources).resourceMap.allAssociatedBackendRefs
        ↔ k ∈ emptyMappings.allAssociatedBackendRefs ∨
          ∃ route ∈ [scenarioTLSRoute], ∃ rule ∈ route.Spec.Rules, ∃ b ∈ rule.BackendRefs,
            scenarioReconciler.validateBackendRef (scenarioReconciler.UpgradeBackendRef b) = none ∧
              k = backendRefIdentity route.Namespace b.toBackendObjectReference) ∧
    (∃ res, scenarioReconciler.processGRPCRoutes "gw" emptyMappings emptyResources = some res ∧
      res.err = none ∧
      ∀ k, k ∈ res.resourceMap.allAssociatedBackendRefs
        ↔ k ∈ emptyMappings.allAssociatedBackendRefs ∨
          ∃ route ∈ [scenarioGRPCRoute], ∃ rule ∈ route.Spec.Rules, ∃ b ∈ rule.BackendRefs,
            scenarioReconciler.validateBackendRef b.toBackendRef = none ∧
              k = backendRefIdentity route.Namespace b.toBackendObjectReference) ∧
    (∃ res, scenarioReconciler.processHTTPRoutes "gw" emptyMappings emptyResources = some res ∧
      res.err = none ∧
      ∀ k, k ∈ res.resourceMap.allAssociatedBackendRefs
        ↔ k ∈ emptyMappings.allAssociatedBackendRefs ∨
          ∃ route ∈ [scenarioHTTPRoute], ∃ rule ∈ route.Spec.Rules, ∃ b ∈ rule.BackendRefs,
            scenarioReconciler.validateBackendRef b.toBackendRef = none ∧
              k = backendRefIdentity route.Namespace b.toBackendObjectReference) ∧
    (scenarioReconciler.processTCPRoutes "gw" emptyMappings emptyResources).err = none ∧
    (scenarioReconciler.processUDPRoutes "gw" emptyMappings emptyResources).err = none :=
  have h := C3_backend_reference_set scenarioReconciler "gw" emptyMappings emptyResources
  ⟨h.1 [scenarioTLSRoute] rfl,
   h.2.1 _ _ [scenarioGRPCRoute] scenario_grpcChecked rfl rfl rfl,
   h.2.2.1 _ _ _ [scenarioHTTPRoute] scenario_httpChecked rfl rfl rfl rfl scenario_noMirror,
   (h.2.2.2.1 [scenarioTCPRoute] rfl).1,
   (h.2.2.2.2 [scenarioUDPRoute] rfl).1⟩

theorem consumedGrants_eq_nil (r : gatewayAPIReconciler) (vs : List RouteRefs)
    (h : ∀ v ∈ vs, ∀ b ∈ v.refs,
      gatewayapi.NamespaceDerefOr b.Namespace v.namespace_ = v.namespace_) :
    r.consumedGrants vs = [] := by
  simp only [gatewayAPIReconciler.consumedGrants, List.flatMap_eq_nil_iff,
    List.filterMap_eq_nil_iff]
  intro v hv b hb
  simp [gatewayAPIReconciler.grantFor, h v hv b hb]

/-- When no reference leaves its route's namespace the recorded working set does
not depend on the grant resolver, and the consumed-grant map stays as it was. -/
theorem recordAll_local (r : gatewayAPIReconciler) (vs : List RouteRefs) (rm : resourceMappings)
    (h : ∀ v ∈ vs, ∀ b ∈ v.refs,
      gatewayapi.NamespaceDerefOr b.Namespace v.namespace_ = v.namespace_)
    (g : ObjectKindNamespacedName → ObjectKindNamespacedName →
      Except Error (Option gwapiv1a2.ReferenceGrant)) :
    gatewayAPIReconciler.recordAll { r with findReferenceGrant := g } vs rm = r.recordAll vs rm ∧
      (r.recordAll vs rm).allAssociatedRefGrants = rm.allAssociatedRefGrants := by
  simp only [gatewayAPIReconciler.recordAll, consumedGrants_eq_nil _ vs h, recordGrants,
    List.foldl_nil, and_self]

theorem local_tlsRefs (r : gatewayAPIReconciler) (routes : List gwapiv1a2.TLSRoute)
    (h : ∀ route ∈ routes, ∀ rule ∈ route.Spec.Rules, ∀ b ∈ rule.BackendRefs,
      gatewayapi.NamespaceDerefOrAlpha b.Namespace route.Namespace = route.Namespace) :
    ∀ v ∈ routes.map r.tlsRefs, ∀ b ∈ v.refs,
      gatewayapi.NamespaceDerefOr b.Namespace v.namespace_ = v.namespace_ := by
  intro v hv b hb
  obtain ⟨route, hroute, rfl⟩ := List.mem_map.1 hv
  simp only [gatewayAPIReconciler.tlsRefs, List.mem_flatMap, mem_validAlphaRefs] at hb
  obtain ⟨rule, hrule, b0, hb0, _, rfl⟩ := hb
  exact h route hroute rule hrule b0 hb0

theorem local_tcpRefs (r : gatewayAPIReconciler) (routes : List gwapiv1a2.TCPRoute)
    (h : ∀ route ∈ routes, ∀ rule ∈ route.Spec.Rules, ∀ b ∈ rule.BackendRefs,
      gatewayapi.NamespaceDerefOrAlpha b.Namespace route.Namespace = route.Namespace) :
    ∀ v ∈ routes.map r.tcpRefs, ∀ b ∈ v.refs,
      gatewayapi.NamespaceDerefOr b.Namespace v.namespace_ = v.namespace_ := by
  intro v hv b hb
  obtain ⟨route, hroute, rfl⟩ := List.mem_map.1 hv
  simp only [gatewayAPIReconciler.tcpRefs, List.mem_flatMap, mem_validAlphaRefs] at hb
  obtain ⟨rule, hrule, b0, hb0, _, rfl⟩ := hb
  exact h route hroute rule hrule b0 hb0

theorem local_udpRefs (r : gatewayAPIReconciler) (routes : List gwapiv1a2.UDPRoute)
    (h : ∀ route ∈ routes, ∀ rule ∈ route.Spec.Rules, ∀ b ∈ rule.BackendRefs,
      gatewayapi.NamespaceDerefOrAlpha b.Namespace route.Namespace = route.Namespace) :
    ∀ v ∈ routes.map r.udpRefs, ∀ b ∈ v.refs,
      gatewayapi.NamespaceDerefOr b.Namespace v.namespace_ = v.namespace_ := by
  intro v hv b hb
  obtain ⟨route, hroute, rfl⟩ := List.mem_map.1 hv
  simp only [gatewayAPIReconciler.udpRefs, List.mem_flatMap, mem_validAlphaRefs] at hb
  obtain ⟨rule, hrule, b0, hb0, _, rfl⟩ := hb
  exact h route hroute rule hrule b0 hb0

theorem local_grpcRefs (r : gatewayAPIReconciler) (routes : List gwapiv1a2.GRPCRoute)
    (h : ∀ route ∈ routes, ∀ rule ∈ route.Spec.Rules, ∀ b ∈ rule.BackendRefs,
      gatewayapi.NamespaceDerefOr b.Namespace route.Namespace = route.Namespace) :
    ∀ v ∈ routes.map r.grpcRefs, ∀ b ∈ v.refs,
      gatewayapi.NamespaceDerefOr b.Namespace v.namespace_ = v.namespace_ := by
  intro v hv b hb
  obtain ⟨route, hroute, rfl⟩ := List.mem_map.1 hv
  simp only [gatewayAPIReconciler.grpcRefs, List.mem_flatMap, mem_validRefs, List.mem_map] at hb
  obtain ⟨rule, hrule, _, ⟨b0, hb0, rfl⟩, _, rfl⟩ := hb
  exact h route hroute rule hrule b0 hb0

theorem mem_mirrorRefs (r : gatewayAPIReconciler) (filters : List gwapiv1b1.HTTPRouteFilter)
    (a : gwapiv1b1.BackendObjectReference) (h : a ∈ r.mirrorRefs filters) :
    ∃ f ∈ filters, ∃ m, f.RequestMirror = some m ∧ a = m.BackendRef := by
  simp only [gatewayAPIReconciler.mirrorRefs, List.mem_filterMap] at h
  obtain ⟨f, hf, h⟩ := h
  refine ⟨f, hf, ?_⟩
  cases hm : f.RequestMirror with
  | none => simp [hm] at h
  | some m =>
    refine ⟨m, rfl, ?_⟩
    simp only [hm] at h
    split_ifs at h
    · simpa using h.symm

theorem local_httpRefs (r : gatewayAPIReconciler) (routes : List gwapiv1b1.HTTPRoute)
    (h : ∀ route ∈ routes, ∀ rule ∈ route.Spec.Rules,
      (∀ b ∈ rule.BackendRefs,
        gatewayapi.NamespaceDerefOr b.Namespace route.Namespace = route.Namespace) ∧
      (∀ f ∈ rule.Filters, ∀ m, f.RequestMirror = some m →
        gatewayapi.NamespaceDerefOr m.BackendRef.Namespace route.Namespace = route.Namespace)) :
    ∀ v ∈ routes.map r.httpRefs, ∀ b ∈ v.refs,
      gatewayapi.NamespaceDerefOr b.Namespace v.namespace_ = v.namespace_ := by
  intro v hv b hb
  obtain ⟨route, hroute, rfl⟩ := List.mem_map.1 hv
  simp only [gatewayAPIReconciler.httpRefs, List.mem_flatMap, List.mem_append, mem_validRefs,
    List.mem_map] at hb
  obtain ⟨rule, hrule, hb⟩ := hb
  rcases hb with ⟨_, ⟨b0, hb0, rfl⟩, _, rfl⟩ | hb
  · exact (h route hroute rule hrule).1 b0 hb0
  · obtain ⟨f, hf, m, hm, rfl⟩ := mem_mirrorRefs r rule.Filters b hb
    exact (h route hroute rule hrule).2 f hf m hm

/-- C4: a backend reference whose resolved namespace is its route's own is
recorded without `findReferenceGrant` being consulted. For each of the five
processors: if every backend reference (and mirror target) of every listed
route resolves to the route's namespace, the run returns the same error value,
working set and resource tree under any other grant resolver `g`, and the
consumed-grant map is the one on entry. -/
theorem C4_same_namespace_needs_no_grant (r : gatewayAPIReconciler)
    (gatewayNamespaceName : String) (rm : resourceMappings) (rt : gatewayapi.Resources)
    (g : ObjectKindNamespacedName → ObjectKindNamespacedName →
      Except Error (Option gwapiv1a2.ReferenceGrant)) :
    (∀ kind ns name b, gatewayapi.NamespaceDerefOr b.Namespace ns = ns →
      gatewayAPIReconciler.recordBackendRef { r with findReferenceGrant := g } kind ns name b
          (gatewayapi.NamespaceDerefOr b.Namespace ns) rm =
        r.recordBackendRef kind ns name b (gatewayapi.NamespaceDerefOr b.Namespace ns) rm) ∧
    (∀ routes, r.listTLSRoutes gatewayNamespaceName = .ok routes →
      (∀ route ∈ routes, ∀ rule ∈ route.Spec.Rules, ∀ b ∈ rule.BackendRefs,
        gatewayapi.NamespaceDerefOrAlpha b.Namespace route.Namespace = route.Namespace) →
      gatewayAPIReconciler.processTLSRoutes { r with findReferenceGrant := g }
          gatewayNamespaceName rm rt = r.processTLSRoutes gatewayNamespaceName rm rt ∧
      (r.processTLSRoutes gatewayNamespaceName rm rt).err = none ∧
      (r.processTLSRoutes gatewayNamespaceName rm rt).resourceMap.allAssociatedRefGrants =
        rm.allAssociatedRefGrants) ∧
    (∀ authenFilters rateLimitFilters routes, r.GRPCFiltersChecked →
      r.getAuthenticationFilters = .ok authenFilters →
      r.getRateLimitFilters = .ok rateLimitFilters →
      r.listGRPCRoutes gatewayNamespaceName = .ok routes →
      (∀ route ∈ routes, ∀ rule ∈ route.Spec.Rules, ∀ b ∈ rule.BackendRefs,
        gatewayapi.NamespaceDerefOr b.Namespace route.Namespace = route.Namespace) →
      ∃ res, r.processGRPCRoutes gatewayNamespaceName rm rt = some res ∧
        gatewayAPIReconciler.processGRPCRoutes { r with findReferenceGrant := g }
          gatewayNamespaceName rm rt = some res ∧
        res.err = none ∧
        res.resourceMap.allAssociatedRefGrants = rm.allAssociatedRefGrants) ∧
    (∀ authenFilters rateLimitFilters extensionRefFilters routes, r.HTTPFiltersChecked →
      r.getAuthenticationFilters = .ok authenFilters →
      r.getRateLimitFilters = .ok rateLimitFilters →
      r.getExtensionRefFilters = .ok extensionRefFilters →
      r.listHTTPRoutes gatewayNamespaceName = .ok routes →
      (∀ route ∈ routes, ∀ rule ∈ route.Spec.Rules,
        (∀ b ∈ rule.BackendRefs,
          gatewayapi.NamespaceDerefOr b.Namespace route.Namespace = route.Namespace) ∧
        (∀ f ∈ rule.Filters, ∀ m, f.RequestMirror = some m →
          gatewayapi.NamespaceDerefOr m.BackendRef.Namespace route.Namespace =
            route.Namespace)) →
      ∃ res, r.processHTTPRoutes gatewayNamespaceName rm rt = some res ∧
        gatewayAPIReconciler.processHTTPRoutes { r with findReferenceGrant := g }
          gatewayNamespaceName rm rt = some res ∧
        res.err = none ∧
        res.resourceMap.allAssociatedRefGrants = rm.allAssociatedRefGrants) ∧
    (∀ routes, r.listTCPRoutes gatewayNamespaceName = .ok routes →
      (∀ route ∈ routes, ∀ rule ∈ route.Spec.Rules, ∀ b ∈ rule.BackendRefs,
        gatewayapi.NamespaceDerefOrAlpha b.Namespace route.Namespace = route.Namespace) →
      gatewayAPIReconciler.processTCPRoutes { r with findReferenceGrant := g }
          gatewayNamespaceName rm rt = r.processTCPRoutes gatewayNamespaceName rm rt ∧
      (r.processTCPRoutes gatewayNamespaceName rm rt).err = none ∧
      (r.processTCPRoutes gatewayNamespaceName rm rt).resourceMap.allAssociatedRefGrants =
        rm.allAssociatedRefGrants) ∧
    (∀ routes, r.listUDPRoutes gatewayNamespaceName = .ok routes →
      (∀ route ∈ routes, ∀ rule ∈ route.Spec.Rules, ∀ b ∈ rule.BackendRefs,
        gatewayapi.NamespaceDerefOrAlpha b.Namespace route.Namespace = route.Namespace) →
      gatewayAPIReconciler.processUDPRoutes { r with findReferenceGrant := g }
          gatewayNamespaceName rm rt = r.processUDPRoutes gatewayNamespaceName rm rt ∧
      (r.processUDPRoutes gatewayNamespaceName rm rt).err = none ∧
      (r.processUDPRoutes gatewayNamespaceName rm rt).resourceMap.allAssociatedRefGrants =
        rm.allAssociatedRefGrants) := by
  refine ⟨?_, ?_, ?_, ?_, ?_, ?_⟩
  · intro kind ns name b hb
    simp [gatewayAPIReconciler.recordBackendRef, hb]
  · intro routes hlist hlocal
    have h := recordAll_local r (routes.map r.tlsRefs) rm (local_tlsRefs r routes hlocal) g
    rw [processTLSRoutes_ok r gatewayNamespaceName rm rt routes hlist,
      processTLSRoutes_ok { r with findReferenceGrant := g } gatewayNamespaceName rm rt routes
        hlist]
    exact ⟨by rw [← h.1]; rfl, rfl, h.2⟩
  · intro authenFilters rateLimitFilters routes hv hauth hrate hlist hlocal
    have h := recordAll_local r (routes.map r.grpcRefs) (rm.loadGRPC authenFilters rateLimitFilters)
      (local_grpcRefs r routes hlocal) g
    refine ⟨_, processGRPCRoutes_ok r hv gatewayNamespaceName rm rt authenFilters
      rateLimitFilters routes hauth hrate hlist, ?_, rfl, h.2⟩
    rw [processGRPCRoutes_ok { r with findReferenceGrant := g } hv gatewayNamespaceName rm rt
      authenFilters rateLimitFilters routes hauth hrate hlist, ← h.1]
    rfl
  · intro authenFilters rateLimitFilters extensionRefFilters routes hv hauth hrate hext hlist
      hlocal
    have h := recordAll_local r (routes.map r.httpRefs)
      (rm.loadHTTP authenFilters rateLimitFilters extensionRefFilters)
      (local_httpRefs r routes hlocal) g
    refine ⟨_, processHTTPRoutes_ok r hv gatewayNamespaceName rm rt authenFilters
      rateLimitFilters extensionRefFilters routes hauth hrate hext hlist, ?_, rfl, h.2⟩
    rw [processHTTPRoutes_ok { r with findReferenceGrant := g } hv gatewayNamespaceName rm rt
      authenFilters rateLimitFilters extensionRefFilters routes hauth hrate hext hlist, ← h.1]
    rfl
  · intro routes hlist hlocal
    have h := recordAll_local r (routes.map r.tcpRefs) rm (local_tcpRefs r routes hlocal) g
    rw [processTCPRoutes_ok r gatewayNamespaceName rm rt routes hlist,
      processTCPRoutes_ok { r with findReferenceGrant := g } gatewayNamespaceName rm rt routes
        hlist]
    exact ⟨by rw [← h.1]; rfl, rfl, h.2⟩
  · intro routes hlist hlocal
    have h := recordAll_local r (routes.map r.udpRefs) rm (local_udpRefs r routes hlocal) g
    rw [processUDPRoutes_ok r gatewayNamespaceName rm rt routes hlist,
      processUDPRoutes_ok { r with findReferenceGrant := g } gatewayNamespaceName rm rt routes
        hlist]
    exact ⟨by rw [← h.1]; rfl, rfl, h.2⟩

theorem local_httpRoute_local : ∀ route ∈ [localHTTPRoute], ∀ rule ∈ route.Spec.Rules,
    (∀ b ∈ rule.BackendRefs,
      gatewayapi.NamespaceDerefOr b.Namespace route.Namespace = route.Namespace) ∧
    (∀ f ∈ rule.Filters, ∀ m, f.RequestMirror = some m →
      gatewayapi.NamespaceDerefOr m.BackendRef.Namespace route.Namespace = route.Namespace) := by
  intro route hroute rule hrule
  simp only [List.mem_singleton] at hroute
  subst hroute
  simp only [localHTTPRoute, List.mem_singleton] at hrule
  subst hrule
  refine ⟨by decide, ?_⟩
  intro f hf m hm
  simp only [List.mem_singleton] at hf
  subst hf
  simp only [Option.some.injEq] at hm
  subst hm
  rfl

/-- C4 on the local snapshot: a resolver that always fails gives the same runs
as the snapshot's own resolver. -/
theorem C4_witness :
    (gatewayAPIReconciler.processTLSRoutes
        { localReconciler with findReferenceGrant := fun _ _ => .error "unreachable" }
        "gw" emptyMappings emptyResources =
      localReconciler.processTLSRoutes "gw" emptyMappings emptyResources) ∧
    (∃ res, localReconciler.processGRPCRoutes "gw" emptyMappings emptyResources = some res ∧
      gatewayAPIReconciler.processGRPCRoutes
        { localReconciler with findReferenceGrant := fun _ _ => .error "unreachable" }
        "gw" emptyMappings emptyResources = some res ∧
      res.err = none ∧
      res.resourceMap.allAssociatedRefGrants = emptyMappings.allAssociatedRefGrants) ∧
    (∃ res, localReconciler.processHTTPRoutes "gw" emptyMappings emptyResources = some res ∧
      gatewayAPIReconciler.processHTTPRoutes
        { localReconciler with findReferenceGrant := fun _ _ => .error "unreachable" }
        "gw" emptyMappings emptyResources = some res ∧
      res.err = none ∧
      res.resourceMap.allAssociatedRefGrants = emptyMappings.allAssociatedRefGrants) ∧
    (gatewayAPIReconciler.processTCPRoutes
        { localReconciler with findReferenceGrant := fun _ _ => .error "unreachable" }
        "gw" emptyMappings emptyResources =
      localReconciler.processTCPRoutes "gw" emptyMappings emptyResources) ∧
    (gatewayAPIReconciler.processUDPRoutes
        { localReconciler with findReferenceGrant := fun _ _ => .error "unreachable" }
        "gw" emptyMappings emptyResources =
      localReconciler.processUDPRoutes "gw" emptyMappings emptyResources) :=
  have h := C4_same_namespace_needs_no_grant localReconciler "gw" emptyMappings emptyResources
    (fun _ _ => .error "unreachable")
  ⟨(h.2.1 [localTLSRoute] rfl (by decide)).1,
   h.2.2.1 _ _ [scenarioGRPCRoute] scenario_grpcChecked rfl rfl rfl (by decide),
   h.2.2.2.1 _ _ _ [localHTTPRoute] scenario_httpChecked rfl rfl rfl rfl local_httpRoute_local,
   (h.2.2.2.2.1 [scenarioTCPRoute] rfl (by decide)).1,
   (h.2.2.2.2.2 [scenarioUDPRoute] rfl (by decide)).1⟩

theorem grantFor_eq_some (r : gatewayAPIReconciler) (v : RouteRefs)
    (b : gwapiv1b1.BackendObjectReference) (G : gwapiv1a2.ReferenceGrant) :
    r.grantFor v b = some G ↔
      gatewayapi.NamespaceDerefOr b.Namespace v.namespace_ ≠ v.namespace_ ∧
      r.findReferenceGrant
          { kind := v.kind, namespace_ := v.namespace_, name := v.name }
          { kind := gatewayapi.KindDerefOr b.Kind gatewayapi.KindService
            namespace_ := gatewayapi.NamespaceDerefOr b.Namespace v.namespace_
            name := b.Name } = .ok (some G) := by
  unfold gatewayAPIReconciler.grantFor
  by_cases h : gatewayapi.NamespaceDerefOr b.Namespace v.namespace_ = v.namespace_
  · simp [h]
  · cases hg : r.findReferenceGrant
        { kind := v.kind, namespace_ := v.namespace_, name := v.name }
        { kind := gatewayapi.KindDerefOr b.Kind gatewayapi.KindService
          namespace_ := gatewayapi.NamespaceDerefOr b.Namespace v.namespace_
          name := b.Name } with
    | error e => simp [h, hg]
    | ok g => cases g <;> simp [h, hg]

theorem recordGrants_of_not_mem (gs : List gwapiv1a2.ReferenceGrant) :
    ∀ (m : types.NamespacedName → Option gwapiv1a2.ReferenceGrant) (key : types.NamespacedName),
      (∀ G ∈ gs, utils.NamespacedName G ≠ key) → recordGrants gs m key = m key := by
  induction gs with
  | nil => intro m key _; rfl
  | cons g gs ih =>
    intro m key h
    have h1 : recordGrants (g :: gs) m =
        recordGrants gs (Function.update m (utils.NamespacedName g) (some g)) := rfl
    rw [h1, ih _ key (fun G hG => h G (List.mem_cons_of_mem g hG)),
      Function.update_noteq (Ne.symm (h g (List.mem_cons_self g gs)))]

theorem recordGrants_of_mem (gs : List gwapiv1a2.ReferenceGrant) :
    ∀ (m : types.NamespacedName → Option gwapiv1a2.ReferenceGrant) (G : gwapiv1a2.ReferenceGrant),
      G ∈ gs → (∀ G' ∈ gs, utils.NamespacedName G' = utils.NamespacedName G → G' = G) →
      recordGrants gs m (utils.NamespacedName G) = some G := by
  induction gs with
  | nil => intro m G hG; simp at hG
  | cons g gs ih =>
    intro m G hG huniq
    have h1 : recordGrants (g :: gs) m =
        recordGrants gs (Function.update m (utils.NamespacedName g) (some g)) := rfl
    rw [h1]
    by_cases hmem : G ∈ gs
    · exact ih _ G hmem (fun G' hG' => huniq G' (List.mem_cons_of_mem g hG'))
    · have hg : G = g := by
        rcases List.mem_cons.1 hG with h | h
        · exact h
        · exact absurd h hmem
      subst hg
      rw [recordGrants_of_not_mem gs _ _ (fun G' hG' hkey =>
        hmem (huniq G' (List.mem_cons_of_mem G hG') hkey ▸ hG')), Function.update_same]


/-- C5: for each of the five processors, on a successful run the consumed-grant
map afterwards is the map on entry extended, in processing order, with an
entry (grant's own namespace/name -> grant) for exactly those validated
backend references (for HTTP also the validated mirror targets) whose resolved
namespace differs from the route's and for which `findReferenceGrant`, asked
with from = (route kind, namespace, name) and to = (kind defaulting to Service,
resolved namespace, name), returns a grant; the route is appended in any case.
A reference for which no grant comes back adds no entry; one for which `G`
comes back is in the backend-reference set and leaves `G` under its identity,
unless another consumed grant object of the same namespace/name replaced it. -/
theorem C5_consumed_grants (r : gatewayAPIReconciler) (gatewayNamespaceName : String)
    (rm : resourceMappings) (rt : gatewayapi.Resources) :
    (∀ v b G, r.grantFor v b = some G ↔
      gatewayapi.NamespaceDerefOr b.Namespace v.namespace_ ≠ v.namespace_ ∧
      r.findReferenceGrant
          { kind := v.kind, namespace_ := v.namespace_, name := v.name }
          { kind := gatewayapi.KindDerefOr b.Kind gatewayapi.KindService
            namespace_ := gatewayapi.NamespaceDerefOr b.Namespace v.namespace_
            name := b.Name } = .ok (some G)) ∧
    (∀ gs (m : types.NamespacedName → Option gwapiv1a2.ReferenceGrant) key,
      (∀ G ∈ gs, utils.NamespacedName G ≠ key) → recordGrants gs m key = m key) ∧
    (∀ gs (m : types.NamespacedName → Option gwapiv1a2.ReferenceGrant) G, G ∈ gs →
      (∀ G' ∈ gs, utils.NamespacedName G' = utils.NamespacedName G → G' = G) →
      recordGrants gs m (utils.NamespacedName G) = some G) ∧
    (∀ vs, ∀ v ∈ vs, ∀ b ∈ v.refs,
      backendRefIdentity v.namespace_ b ∈ (r.recordAll vs rm).allAssociatedBackendRefs) ∧
    (∀ routes, r.listTLSRoutes gatewayNamespaceName = .ok routes →
      (r.processTLSRoutes gatewayNamespaceName rm rt).err = none ∧
      (r.processTLSRoutes gatewayNamespaceName rm rt).resourceMap =
        r.recordAll (routes.map r.tlsRefs) rm ∧
      (r.processTLSRoutes gatewayNamespaceName rm rt).resourceMap.allAssociatedRefGrants =
        recordGrants (r.consumedGrants (routes.map r.tlsRefs)) rm.allAssociatedRefGrants ∧
      (r.processTLSRoutes gatewayNamespaceName rm rt).resourceTree.TLSRoutes =
        rt.TLSRoutes ++ routes.map fun route => { route with Status := {} }) ∧
    (∀ authenFilters rateLimitFilters routes, r.GRPCFiltersChecked →
      r.getAuthenticationFilters = .ok authenFilters →
      r.getRateLimitFilters = .ok rateLimitFilters →
      r.listGRPCRoutes gatewayNamespaceName = .ok routes →
      ∃ res, r.processGRPCRoutes gatewayNamespaceName rm rt = some res ∧ res.err = none ∧
        res.resourceMap =
          r.recordAll (routes.map r.grpcRefs) (rm.loadGRPC authenFilters rateLimitFilters) ∧
        res.resourceMap.allAssociatedRefGrants =
          recordGrants (r.consumedGrants (routes.map r.grpcRefs)) rm.allAssociatedRefGrants ∧
        res.resourceTree.GRPCRoutes =
          rt.GRPCRoutes ++ routes.map fun route => { route with Status := {} }) ∧
    (∀ authenFilters rateLimitFilters extensionRefFilters routes, r.HTTPFiltersChecked →
      r.getAuthenticationFilters = .ok authenFilters →
      r.getRateLimitFilters = .ok rateLimitFilters →
      r.getExtensionRefFilters = .ok extensionRefFilters →
      r.listHTTPRoutes gatewayNamespaceName = .ok routes →
      ∃ res, r.processHTTPRoutes gatewayNamespaceName rm rt = some res ∧ res.err = none ∧
        res.resourceMap = r.recordAll (routes.map r.httpRefs)
          (rm.loadHTTP authenFilters rateLimitFilters extensionRefFilters) ∧
        res.resourceMap.allAssociatedRefGrants =
          recordGrants (r.consumedGrants (routes.map r.httpRefs)) rm.allAssociatedRefGrants ∧
        res.resourceTree.HTTPRoutes =
          rt.HTTPRoutes ++ routes.map fun route => { route with Status := {} }) ∧
    (∀ routes, r.listTCPRoutes gatewayNamespaceName = .ok routes →
      (r.processTCPRoutes gatewayNamespaceName rm rt).err = none ∧
      (r.processTCPRoutes gatewayNamespaceName rm rt).resourceMap =
        r.recordAll (routes.map r.tcpRefs) rm ∧
      (r.processTCPRoutes gatewayNamespaceName rm rt).resourceMap.allAssociatedRefGrants =
        recordGrants (r.consumedGrants (routes.map r.tcpRefs)) rm.allAssociatedRefGrants ∧
      (r.processTCPRoutes gatewayNamespaceName rm rt).resourceTree.TCPRoutes =
        rt.TCPRoutes ++ routes.map fun route => { route with Status := {} }) ∧
    (∀ routes, r.listUDPRoutes gatewayNamespaceName = .ok routes →
      (r.processUDPRoutes gatewayNamespaceName rm rt).err = none ∧
      (r.processUDPRoutes gatewayNamespaceName rm rt).resourceMap =
        r.recordAll (routes.map r.udpRefs) rm ∧
      (r.processUDPRoutes gatewayNamespaceName rm rt).resourceMap.allAssociatedRefGrants =
        recordGrants (r.consumedGrants (routes.map r.udpRefs)) rm.allAssociatedRefGrants ∧
      (r.processUDPRoutes gatewayNamespaceName rm rt).resourceTree.UDPRoutes =
        rt.UDPRoutes ++ routes.map fun route => { route with Status := {} }) := by
  refine ⟨grantFor_eq_some r, recordGrants_of_not_mem, recordGrants_of_mem, ?_, ?_, ?_, ?_, ?_,
    ?_⟩
  · intro vs v hv b hb
    simp only [gatewayAPIReconciler.recordAll, Finset.mem_union, List.mem_toFinset,
      recordedIdentities, List.mem_flatMap, List.mem_map]
    exact Or.inr ⟨v, hv, b, hb, rfl⟩
  · intro routes hlist
    rw [processTLSRoutes_ok r gatewayNamespaceName rm rt routes hlist]
    exact ⟨rfl, rfl, rfl, rfl⟩
  · intro authenFilters rateLimitFilters routes hv hauth hrate hlist
    exact ⟨_, processGRPCRoutes_ok r hv gatewayNamespaceName rm rt authenFilters rateLimitFilters
      routes hauth hrate hlist, rfl, rfl, rfl, rfl⟩
  · intro authenFilters rateLimitFilters extensionRefFilters routes hv hauth hrate hext hlist
    exact ⟨_, processHTTPRoutes_ok r hv gatewayNamespaceName rm rt authenFilters rateLimitFilters
      extensionRefFilters routes hauth hrate hext hlist, rfl, rfl, rfl, rfl⟩
  · intro routes hlist
    rw [processTCPRoutes_ok r gatewayNamespaceName rm rt routes hlist]
    exact ⟨rfl, rfl, rfl, rfl⟩
  · intro routes hlist
    rw [processUDPRoutes_ok r gatewayNamespaceName rm rt routes hlist]
    exact ⟨rfl, rfl, rfl, rfl⟩

theorem scenario_http_consumed :
    scenarioReconciler.consumedGrants ([scenarioHTTPRoute].map scenarioReconciler.httpRefs) =
      [scenarioGrant] := by
  decide

theorem scenario_tls_consumed :
    scenarioReconciler.consumedGrants ([scenarioTLSRoute].map scenarioReconciler.tlsRefs) = [] := by
  decide

/-- C5 on the snapshot. Scenario B: the HTTPRoute of `ns1` refers to `svc1` of
`ns2`, the grant of `ns2` is returned, and the run leaves exactly that grant in
the consumed-grant map. Scenario A: the other processors find no grant, add no
entry and still append their route. -/
theorem C5_witness :
    (∃ res, scenarioReconciler.processHTTPRoutes "gw" emptyMappings emptyResources = some res ∧
      res.err = none ∧
      res.resourceMap.allAssociatedRefGrants =
        recordGrants [scenarioGrant] emptyMappings.allAssociatedRefGrants ∧
      res.resourceTree.HTTPRoutes = [{ scenarioHTTPRoute with Status := {} }]) ∧
    ((scenarioReconciler.processTLSRoutes "gw" emptyMappings emptyResources).err = none ∧
      (scenarioReconciler.processTLSRoutes "gw" emptyMappings
        emptyResources).resourceMap.allAssociatedRefGrants =
          emptyMappings.allAssociatedRefGrants ∧
      (scenarioReconciler.processTLSRoutes "gw" emptyMappings emptyResources).resourceTree.TLSRoutes
        = [{ scenarioTLSRoute with Status := {} }]) ∧
    (∃ res, scenarioReconciler.processGRPCRoutes "gw" emptyMappings emptyResources = some res ∧
      res.err = none) ∧
    (scenarioReconciler.processTCPRoutes "gw" emptyMappings emptyResources).err = none ∧
    (scenarioReconciler.processUDPRoutes "gw" emptyMappings emptyResources).err = none :=
  have h := (C5_consumed_grants scenarioReconciler "gw" emptyMappings emptyResources).2.2.2.2
  ⟨(let ⟨res, h1, h2, _, h4, h5⟩ :=
      h.2.2.1 _ _ _ [scenarioHTTPRoute] scenario_httpChecked rfl rfl rfl rfl
    ⟨res, h1, h2, scenario_http_consumed ▸ h4, h5⟩),
   (let ⟨h1, _, h3, h4⟩ := h.1 [scenarioTLSRoute] rfl
    ⟨h1, h3.trans (congrArg (fun gs => recordGrants gs emptyMappings.allAssociatedRefGrants)
      scenario_tls_consumed), h4⟩),
   (let ⟨res, h1, h2, _⟩ := h.2.1 _ _ [scenarioGRPCRoute] scenario_grpcChecked rfl rfl rfl
    ⟨res, h1, h2⟩),
   (h.2.2.2.1 [scenarioTCPRoute] rfl).1,
   (h.2.2.2.2 [scenarioUDPRoute] rfl).1⟩

theorem grantFor_lookupFaults (r : gatewayAPIReconciler) (v : RouteRefs)
    (b : gwapiv1b1.BackendObjectReference) :
    r.lookupFaultsAsNoGrant.grantFor v b = r.grantFor v b := by
  unfold gatewayAPIReconciler.grantFor gatewayAPIReconciler.lookupFaultsAsNoGrant
  by_cases h : gatewayapi.NamespaceDerefOr b.Namespace v.namespace_ = v.namespace_
  · simp [h]
  · cases hg : r.findReferenceGrant
        { kind := v.kind, namespace_ := v.namespace_, name := v.name }
        { kind := gatewayapi.KindDerefOr b.Kind gatewayapi.KindService
          namespace_ := gatewayapi.NamespaceDerefOr b.Namespace v.namespace_
          name := b.Name } with
    | error e => simp [h, hg]
    | ok g => cases g <;> simp [h, hg]

theorem recordAll_lookupFaults (r : gatewayAPIReconciler) (vs : List RouteRefs)
    (rm : resourceMappings) : r.lookupFaultsAsNoGrant.recordAll vs rm = r.recordAll vs rm := by
  simp only [gatewayAPIReconciler.recordAll, gatewayAPIReconciler.consumedGrants,
    funext (grantFor_lookupFaults r _)]

/-- C6, as the code has it: a fault of the grant lookup is soft. For each of the
five processors, a run in which `findReferenceGrant` returns errors gives the
same error value, working set and resource tree as the run in which those
lookups answer "no grant": no grant is recorded for the reference, the
remaining backend references of the rule are processed, and the processor
returns nil. -/
theorem C6_lookup_fault_is_soft (r : gatewayAPIReconciler) (gatewayNamespaceName : String)
    (rm : resourceMappings) (rt : gatewayapi.Resources) :
    (∀ routes, r.listTLSRoutes gatewayNamespaceName = .ok routes →
      r.processTLSRoutes gatewayNamespaceName rm rt =
        r.lookupFaultsAsNoGrant.processTLSRoutes gatewayNamespaceName rm rt ∧
      (r.processTLSRoutes gatewayNamespaceName rm rt).err = none) ∧
    (∀ authenFilters rateLimitFilters routes, r.GRPCFiltersChecked →
      r.getAuthenticationFilters = .ok authenFilters →
      r.getRateLimitFilters = .ok rateLimitFilters →
      r.listGRPCRoutes gatewayNamespaceName = .ok routes →
      ∃ res, r.processGRPCRoutes gatewayNamespaceName rm rt = some res ∧
        r.lookupFaultsAsNoGrant.processGRPCRoutes gatewayNamespaceName rm rt = some res ∧
        res.err = none) ∧
    (∀ authenFilters rateLimitFilters extensionRefFilters routes, r.HTTPFiltersChecked →
      r.getAuthenticationFilters = .ok authenFilters →
      r.getRateLimitFilters = .ok rateLimitFilters →
      r.getExtensionRefFilters = .ok extensionRefFilters →
      r.listHTTPRoutes gatewayNamespaceName = .ok routes →
      ∃ res, r.processHTTPRoutes gatewayNamespaceName rm rt = some res ∧
        r.lookupFaultsAsNoGrant.processHTTPRoutes gatewayNamespaceName rm rt = some res ∧
        res.err = none) ∧
    (∀ routes, r.listTCPRoutes gatewayNamespaceName = .ok routes →
      r.processTCPRoutes gatewayNamespaceName rm rt =
        r.lookupFaultsAsNoGrant.processTCPRoutes gatewayNamespaceName rm rt ∧
      (r.processTCPRoutes gatewayNamespaceName rm rt).err = none) ∧
    (∀ routes, r.listUDPRoutes gatewayNamespaceName = .ok routes →
      r.processUDPRoutes gatewayNamespaceName rm rt =
        r.lookupFaultsAsNoGrant.processUDPRoutes gatewayNamespaceName rm rt ∧
      (r.processUDPRoutes gatewayNamespaceName rm rt).err = none) := by
  refine ⟨?_, ?_, ?_, ?_, ?_⟩
  · intro routes hlist
    rw [processTLSRoutes_ok r gatewayNamespaceName rm rt routes hlist,
      processTLSRoutes_ok r.lookupFaultsAsNoGrant gatewayNamespaceName rm rt routes hlist]
    refine ⟨?_, rfl⟩
    rw [← recordAll_lookupFaults r (routes.map r.tlsRefs) rm]
    rfl
  · intro authenFilters rateLimitFilters routes hv hauth hrate hlist
    refine ⟨_, processGRPCRoutes_ok r hv gatewayNamespaceName rm rt authenFilters
      rateLimitFilters routes hauth hrate hlist, ?_, rfl⟩
    rw [processGRPCRoutes_ok r.lookupFaultsAsNoGrant hv gatewayNamespaceName rm rt authenFilters
      rateLimitFilters routes hauth hrate hlist,
      ← recordAll_lookupFaults r (routes.map r.grpcRefs)]
    rfl
  · intro authenFilters rateLimitFilters extensionRefFilters routes hv hauth hrate hext hlist
    refine ⟨_, processHTTPRoutes_ok r hv gatewayNamespaceName rm rt authenFilters
      rateLimitFilters extensionRefFilters routes hauth hrate hext hlist, ?_, rfl⟩
    rw [processHTTPRoutes_ok r.lookupFaultsAsNoGrant hv gatewayNamespaceName rm rt authenFilters
      rateLimitFilters extensionRefFilters routes hauth hrate hext hlist,
      ← recordAll_lookupFaults r (routes.map r.httpRefs)]
    rfl
  · intro routes hlist
    rw [processTCPRoutes_ok r gatewayNamespaceName rm rt routes hlist,
      processTCPRoutes_ok r.lookupFaultsAsNoGrant gatewayNamespaceName rm rt routes hlist]
    refine ⟨?_, rfl⟩
    rw [← recordAll_lookupFaults r (routes.map r.tcpRefs) rm]
    rfl
  · intro routes hlist
    rw [processUDPRoutes_ok r gatewayNamespaceName rm rt routes hlist,
      processUDPRoutes_ok r.lookupFaultsAsNoGrant gatewayNamespaceName rm rt routes hlist]
    refine ⟨?_, rfl⟩
    rw [← recordAll_lookupFaults r (routes.map r.udpRefs) rm]
    rfl

/-- C6 on the snapshot, whose resolver fails for every reference into `ns3`. -/
theorem C6_witness :
    (scenarioReconciler.processTLSRoutes "gw" emptyMappings emptyResources =
        scenarioReconciler.lookupFaultsAsNoGrant.processTLSRoutes "gw" emptyMappings
          emptyResources ∧
      (scenarioReconciler.processTLSRoutes "gw" emptyMappings emptyResources).err = none) ∧
    (∃ res, scenarioReconciler.processGRPCRoutes "gw" emptyMappings emptyResources = some res ∧
      scenarioReconciler.lookupFaultsAsNoGrant.processGRPCRoutes "gw" emptyMappings
        emptyResources = some res ∧ res.err = none) ∧
    (∃ res, scenarioReconciler.processHTTPRoutes "gw" emptyMappings emptyResources = some res ∧
      scenarioReconciler.lookupFaultsAsNoGrant.processHTTPRoutes "gw" emptyMappings
        emptyResources = some res ∧ res.err = none) ∧
    (scenarioReconciler.processTCPRoutes "gw" emptyMappings emptyResources).err = none ∧
    (scenarioReconciler.processUDPRoutes "gw" emptyMappings emptyResources).err = none :=
  have h := C6_lookup_fault_is_soft scenarioReconciler "gw" emptyMappings emptyResources
  ⟨h.1 [scenarioTLSRoute] rfl,
   h.2.1 _ _ [scenarioGRPCRoute] scenario_grpcChecked rfl rfl rfl,
   h.2.2.1 _ _ _ [scenarioHTTPRoute] scenario_httpChecked rfl rfl rfl rfl,
   (h.2.2.2.1 [scenarioTCPRoute] rfl).2,
   (h.2.2.2.2 [scenarioUDPRoute] rfl).2⟩

/-- C6 as stated fails: the first backend reference of the TLSRoute `ns1/tls`
points into `ns3`, for which `findReferenceGrant` returns an error; yet
`processTLSRoutes` returns nil and records the rule's next reference `svc0`.
The same holds for the HTTPRoute `ns1/web`, whose second reference points into
`ns3` and whose third is `svc0`. -/
theorem C6_counterexample :
    scenarioReconciler.findReferenceGrant
        { kind := "TLSRoute", namespace_ := "ns1", name := "tls" }
        { kind := "Service", namespace_ := "ns3", name := "svc3" } =
      .error "unable to list ReferenceGrants" ∧
    (scenarioReconciler.processTLSRoutes "gw" emptyMappings emptyResources).err = none ∧
    backendRefIdentity "ns1" (serviceRef none "svc0" (some 443)) ∈
      (scenarioReconciler.processTLSRoutes "gw" emptyMappings
        emptyResources).resourceMap.allAssociatedBackendRefs ∧
    scenarioReconciler.findReferenceGrant
        { kind := "HTTPRoute", namespace_ := "ns1", name := "web" }
        { kind := "Service", namespace_ := "ns3", name := "svc3" } =
      .error "unable to list ReferenceGrants" ∧
    (scenarioReconciler.processHTTPRoutes "gw" emptyMappings emptyResources).map (·.err) =
      some none ∧
    (scenarioReconciler.processHTTPRoutes "gw" emptyMappings emptyResources).map
      (fun res => decide (backendRefIdentity "ns1" (serviceRef none "svc0" (some 8080)) ∈
        res.resourceMap.allAssociatedBackendRefs)) = some true := by
  refine ⟨rfl, rfl, ?_, rfl, ?_, ?_⟩
  · decide
  · decide
  · decide

/-- C7 fails in `processGRPCRoutes`: the GRPCRoute `ns1/rpc` carries an
ExtensionRef filter of kind AuthenticationFilter named `missing`, the key
(`ns1`, `missing`) is in no catalog, and the run appends a nil entry to
`AuthenticationFilters`, whose length grows from 0 to 1. -/
theorem C7_grpc_appends_nil_entry :
    (emptyMappings.loadGRPC [{ Namespace := "ns1", Name := "jwt", Spec := "jwt-spec" }]
        [{ Namespace := "ns2", Name := "limit", Spec := "10rps" }]).authenFilters
      { Namespace := "ns1", Name := "missing" } = none ∧
    (scenarioReconciler.processGRPCRoutes "gw" emptyMappings emptyResources).map
      (fun res => (res.err, res.resourceTree.AuthenticationFilters)) = some (none, [none]) ∧
    (scenarioReconciler.processGRPCRoutes "gw" emptyMappings emptyResources).map
      (fun res => res.resourceTree.AuthenticationFilters.length) = some 1 := by
  refine ⟨?_, ?_, ?_⟩
  · decide
  · decide
  · decide

theorem filterMap_toEntry (l : List ResolvedFilter) :
    (l.map ResolvedFilter.toEntry).filterMap FilterEntry.authentication? =
        (l.filterMap ResolvedFilter.authentication?).map some ∧
      (l.map ResolvedFilter.toEntry).filterMap FilterEntry.rateLimit? =
        (l.filterMap ResolvedFilter.rateLimit?).map some ∧
      (l.map ResolvedFilter.toEntry).filterMap FilterEntry.extensionRef? =
        l.filterMap ResolvedFilter.externallyManaged? := by
  induction l with
  | nil => simp
  | cons x l ih =>
    obtain ⟨h1, h2, h3⟩ := ih
    cases x <;>
      simp [List.filterMap_cons, ResolvedFilter.toEntry, FilterEntry.authentication?,
        FilterEntry.rateLimit?, FilterEntry.extensionRef?, ResolvedFilter.authentication?,
        ResolvedFilter.rateLimit?, ResolvedFilter.externallyManaged?, h1, h2, h3]

/-- C8: in `processHTTPRoutes`, every ExtensionRef filter that passes
`ValidateHTTPRouteFilter` on a rule of a listed route in namespace `ns` is
resolved by the Filter Resolver - the catalog chosen by kind-string equality
("AuthenticationFilter", "RateLimitFilter", anything else the
externally-managed catalog), the key being (`ns`, ExtensionRef name) - against
the catalogs as loaded at the start of the run. A present key has exactly that
object appended to the matching tree list, an absent key appends nothing; the
filters are resolved in route, rule and filter order, and every listed route
is appended to `HTTPRoutes`. -/
theorem C8_http_filter_resolution (r : gatewayAPIReconciler) (gatewayNamespaceName : String)
    (rm : resourceMappings) (rt : gatewayapi.Resources)
    (authenFilters : List egv1a1.AuthenticationFilter)
    (rateLimitFilters : List egv1a1.RateLimitFilter)
    (extensionRefFilters : List unstructured.Unstructured) (routes : List gwapiv1b1.HTTPRoute)
    (hv : r.HTTPFiltersChecked)
    (hauth : r.getAuthenticationFilters = .ok authenFilters)
    (hrate : r.getRateLimitFilters = .ok rateLimitFilters)
    (hext : r.getExtensionRefFilters = .ok extensionRefFilters)
    (hlist : r.listHTTPRoutes gatewayNamespaceName = .ok routes) :
    ∃ res, r.processHTTPRoutes gatewayNamespaceName rm rt = some res ∧ res.err = none ∧
      res.resourceMap.authenFilters = loadAuthenFilters authenFilters rm.authenFilters ∧
      res.resourceMap.rateLimitFilters = loadRateLimitFilters rateLimitFilters rm.rateLimitFilters ∧
      res.resourceMap.extensionRefFilters =
        loadExtensionRefFilters extensionRefFilters rm.extensionRefFilters ∧
      res.resourceTree.AuthenticationFilters =
        rt.AuthenticationFilters ++
          ((r.httpResolved res.resourceMap routes).filterMap
            ResolvedFilter.authentication?).map some ∧
      res.resourceTree.RateLimitFilters =
        rt.RateLimitFilters ++
          ((r.httpResolved res.resourceMap routes).filterMap ResolvedFilter.rateLimit?).map some ∧
      res.resourceTree.ExtensionRefFilters =
        rt.ExtensionRefFilters ++
          (r.httpResolved res.resourceMap routes).filterMap ResolvedFilter.externallyManaged? ∧
      res.resourceTree.HTTPRoutes =
        rt.HTTPRoutes ++ routes.map fun route => { route with Status := {} } := by
  refine ⟨_, processHTTPRoutes_ok r hv gatewayNamespaceName rm rt authenFilters rateLimitFilters
    extensionRefFilters routes hauth hrate hext hlist, rfl, rfl, rfl, rfl, ?_, ?_, ?_, rfl⟩
  all_goals
    simp only [httpResolved_congr r (sameCatalogs_recordAll r (routes.map r.httpRefs)
      (rm.loadHTTP authenFilters rateLimitFilters extensionRefFilters)) routes,
      gatewayapi.Resources.appendEntries, filterMap_toEntry]

theorem scenario_http_resolved :
    scenarioReconciler.httpResolved
        (emptyMappings.loadHTTP [{ Namespace := "ns1", Name := "jwt", Spec := "jwt-spec" }]
          [{ Namespace := "ns2", Name := "limit", Spec := "10rps" }] [])
        [scenarioHTTPRoute] =
      [.authentication { Namespace := "ns1", Name := "jwt", Spec := "jwt-spec" }] := by
  decide

/-- C8 on the snapshot (Scenario C): the route of `ns1` names the
RateLimitFilter `limit`, which exists only in `ns2`, and then the
AuthenticationFilter `jwt` of `ns1`. Nothing is appended for the first, the
second is resolved, and the route is emitted. -/
theorem C8_witness :
    ∃ res, scenarioReconciler.processHTTPRoutes "gw" emptyMappings emptyResources = some res ∧
      res.err = none ∧
      res.resourceTree.RateLimitFilters = [] ∧
      res.resourceTree.AuthenticationFilters =
        [some { Namespace := "ns1", Name := "jwt", Spec := "jwt-spec" }] ∧
      res.resourceTree.ExtensionRefFilters = [] ∧
      res.resourceTree.HTTPRoutes = [{ scenarioHTTPRoute with Status := {} }] :=
  let ⟨res, h1, h2, h3, h4, h5, h6, h7, h8, h9⟩ :=
    C8_http_filter_resolution scenarioReconciler "gw" emptyMappings emptyResources _ _ _
      [scenarioHTTPRoute] scenario_httpChecked rfl rfl rfl rfl
  have hres : scenarioReconciler.httpResolved res.resourceMap [scenarioHTTPRoute] =
      [.authentication { Namespace := "ns1", Name := "jwt", Spec := "jwt-spec" }] :=
    (httpResolved_congr scenarioReconciler
      (show SameCatalogs res.resourceMap
        (emptyMappings.loadHTTP [{ Namespace := "ns1", Name := "jwt", Spec := "jwt-spec" }]
          [{ Namespace := "ns2", Name := "limit", Spec := "10rps" }] []) from ⟨h3, h4, h5⟩)
      [scenarioHTTPRoute]).trans scenario_http_resolved
  ⟨res, h1, h2, by rw [h7, hres]; rfl, by rw [h6, hres]; rfl, by rw [h8, hres]; rfl, h9⟩

theorem refs_mirrorRule_eq_backendRule (r : gatewayAPIReconciler)
    (T : gwapiv1b1.BackendObjectReference) (ext : Option gwapiv1b1.LocalObjectReference)
    (backendFilters : List gwapiv1b1.HTTPRouteFilter)
    (hvalid : r.ValidateHTTPRouteFilter
      { Type_ := gwapiv1b1.HTTPRouteFilterRequestMirror
        RequestMirror := some { BackendRef := T }, ExtensionRef := ext } = none) :
    r.validRefs ((mirrorRule T ext).BackendRefs.map (·.toBackendRef)) ++
        r.mirrorRefs (mirrorRule T ext).Filters =
      r.validRefs ((backendRule T backendFilters).BackendRefs.map (·.toBackendRef)) ++
        r.mirrorRefs (backendRule T backendFilters).Filters := by
  cases hb : r.validateBackendRef { toBackendObjectReference := T, Weight := some 1 } <;>
    simp [mirrorRule, backendRule, gatewayAPIReconciler.validRefs,
      gatewayAPIReconciler.mirrorRefs, List.filterMap_cons, List.filter_cons, hvalid, hb]

theorem httpRefs_mirror_eq_backend (r : gatewayAPIReconciler) (route : gwapiv1b1.HTTPRoute)
    (rpre rpost : List gwapiv1b1.HTTPRouteRule)
    (T : gwapiv1b1.BackendObjectReference) (ext : Option gwapiv1b1.LocalObjectReference)
    (backendFilters : List gwapiv1b1.HTTPRouteFilter)
    (hvalid : r.ValidateHTTPRouteFilter
      { Type_ := gwapiv1b1.HTTPRouteFilterRequestMirror
        RequestMirror := some { BackendRef := T }, ExtensionRef := ext } = none) :
    r.httpRefs (route.withRules (rpre ++ [mirrorRule T ext] ++ rpost)) =
      r.httpRefs (route.withRules (rpre ++ [backendRule T backendFilters] ++ rpost)) := by
  simp only [gatewayAPIReconciler.httpRefs, gwapiv1b1.HTTPRoute.withRules, List.flatMap_append,
    List.flatMap_cons, List.flatMap_nil, List.append_nil,
    refs_mirrorRule_eq_backendRule r T ext backendFilters hvalid]

/-- C9: in `processHTTPRoutes` the target `T` of a RequestMirror filter that
passes `ValidateHTTPRouteFilter` goes through the same validation and
authorization path as a rule-level backend reference: a rule carrying only
that filter and a rule carrying only `T` (weight 1) as backend reference give
the same loop step, and, put in the same place of the same listing, the same
working set (backend-reference set and consumed-grant map included). When `T`
is valid, lies in another namespace and no grant is found (Scenario D), its
identity is recorded, no grant is recorded and the route is still appended. -/
theorem C9_mirror_target_as_backend_ref (r : gatewayAPIReconciler)
    (gatewayNamespaceName : String) (rm : resourceMappings) (rt : gatewayapi.Resources)
    (authenFilters : List egv1a1.AuthenticationFilter)
    (rateLimitFilters : List egv1a1.RateLimitFilter)
    (extensionRefFilters : List unstructured.Unstructured)
    (route : gwapiv1b1.HTTPRoute) (T : gwapiv1b1.BackendObjectReference)
    (ext : Option gwapiv1b1.LocalObjectReference)
    (backendFilters : List gwapiv1b1.HTTPRouteFilter)
    (hv : r.HTTPFiltersChecked)
    (hauth : r.getAuthenticationFilters = .ok authenFilters)
    (hrate : r.getRateLimitFilters = .ok rateLimitFilters)
    (hext : r.getExtensionRefFilters = .ok extensionRefFilters)
    (hvalid : r.ValidateHTTPRouteFilter
      { Type_ := gwapiv1b1.HTTPRouteFilterRequestMirror
        RequestMirror := some { BackendRef := T }, ExtensionRef := ext } = none) :
    (∀ s, r.httpRuleStep route s (mirrorRule T ext) =
      r.httpRuleStep route s (backendRule T backendFilters)) ∧
    (∀ pre post rpre rpost, ∃ resM resB,
      gatewayAPIReconciler.processHTTPRoutes
        { r with
          listHTTPRoutes := fun _ =>
            .ok (pre ++ [route.withRules (rpre ++ [mirrorRule T ext] ++ rpost)] ++ post) }
        gatewayNamespaceName rm rt = some resM ∧
      gatewayAPIReconciler.processHTTPRoutes
        { r with
          listHTTPRoutes := fun _ =>
            .ok (pre ++ [route.withRules (rpre ++ [backendRule T backendFilters] ++ rpost)]
              ++ post) }
        gatewayNamespaceName rm rt = some resB ∧
      resM.err = none ∧ resB.err = none ∧
      resM.resourceMap = resB.resourceMap ∧
      resM.resourceMap.allAssociatedBackendRefs = resB.resourceMap.allAssociatedBackendRefs ∧
      resM.resourceMap.allAssociatedRefGrants = resB.resourceMap.allAssociatedRefGrants) ∧
    (r.validateBackendRef { toBackendObjectReference := T, Weight := some 1 } = none →
      gatewayapi.NamespaceDerefOr T.Namespace route.Namespace ≠ route.Namespace →
      r.findReferenceGrant
          { kind := gatewayapi.KindHTTPRoute, namespace_ := route.Namespace, name := route.Name }
          { kind := gatewayapi.KindDerefOr T.Kind gatewayapi.KindService
            namespace_ := gatewayapi.NamespaceDerefOr T.Namespace route.Namespace
            name := T.Name } = .ok none →
      ∃ res, gatewayAPIReconciler.processHTTPRoutes
          { r with listHTTPRoutes := fun _ => .ok [route.withRules [mirrorRule T ext]] }
          gatewayNamespaceName rm rt = some res ∧
        res.err = none ∧
        res.resourceMap.allAssociatedBackendRefs =
          insert (backendRefIdentity route.Namespace T) rm.allAssociatedBackendRefs ∧
        res.resourceMap.allAssociatedRefGrants = rm.allAssociatedRefGrants ∧
        res.resourceTree.HTTPRoutes =
          rt.HTTPRoutes ++ [{ (route.withRules [mirrorRule T ext]) with Status := {} }]) := by
  refine ⟨?_, ?_, ?_⟩
  · rintro ⟨rm0, rt0⟩
    have hne : ¬ gwapiv1b1.HTTPRouteFilterRequestMirror = gwapiv1b1.HTTPRouteFilterExtensionRef := by
      decide
    rw [httpRuleStep_eq r hv, httpRuleStep_eq r hv,
      refs_mirrorRule_eq_backendRule r T ext backendFilters hvalid]
    simp [mirrorRule, backendRule, gatewayAPIReconciler.httpResolvedOf,
      gatewayAPIReconciler.httpExtensionRef, List.filterMap_cons, hne]
  · intro pre post rpre rpost
    refine ⟨_, _,
      processHTTPRoutes_ok
        { r with
          listHTTPRoutes := fun _ =>
            .ok (pre ++ [route.withRules (rpre ++ [mirrorRule T ext] ++ rpost)] ++ post) }
        hv gatewayNamespaceName rm rt authenFilters rateLimitFilters extensionRefFilters
        (pre ++ [route.withRules (rpre ++ [mirrorRule T ext] ++ rpost)] ++ post)
        hauth hrate hext rfl,
      processHTTPRoutes_ok
        { r with
          listHTTPRoutes := fun _ =>
            .ok (pre ++ [route.withRules (rpre ++ [backendRule T backendFilters] ++ rpost)]
              ++ post) }
        hv gatewayNamespaceName rm rt authenFilters rateLimitFilters extensionRefFilters
        (pre ++ [route.withRules (rpre ++ [backendRule T backendFilters] ++ rpost)] ++ post)
        hauth hrate hext rfl, rfl, rfl, ?_⟩
    have hrefs := httpRefs_mirror_eq_backend r route rpre rpost T ext backendFilters hvalid
    have hmap : (pre ++ [route.withRules (rpre ++ [mirrorRule T ext] ++ rpost)] ++ post).map
          r.httpRefs =
        (pre ++ [route.withRules (rpre ++ [backendRule T backendFilters] ++ rpost)] ++ post).map
          r.httpRefs := by
      simp only [List.map_append, List.map_cons, List.map_nil, hrefs]
    have hmaps : r.recordAll ((pre ++ [route.withRules (rpre ++ [mirrorRule T ext] ++ rpost)]
          ++ post).map r.httpRefs)
          (rm.loadHTTP authenFilters rateLimitFilters extensionRefFilters) =
        r.recordAll ((pre ++ [route.withRules (rpre ++ [backendRule T backendFilters] ++ rpost)]
          ++ post).map r.httpRefs)
          (rm.loadHTTP authenFilters rateLimitFilters extensionRefFilters) := by
      rw [hmap]
    exact ⟨hmaps, congrArg (·.allAssociatedBackendRefs) hmaps,
      congrArg (·.allAssociatedRefGrants) hmaps⟩
  · intro hb hns hgrant
    refine ⟨_,
      processHTTPRoutes_ok
        { r with listHTTPRoutes := fun _ => .ok [route.withRules [mirrorRule T ext]] }
        hv gatewayNamespaceName rm rt authenFilters rateLimitFilters extensionRefFilters
        [route.withRules [mirrorRule T ext]] hauth hrate hext rfl, rfl, ?_, ?_, ?_⟩
    · show (r.recordAll _ _).allAssociatedBackendRefs = _
      simp [gatewayAPIReconciler.recordAll, recordedIdentities, gatewayAPIReconciler.httpRefs,
        gwapiv1b1.HTTPRoute.withRules, mirrorRule, gatewayAPIReconciler.validRefs,
        gatewayAPIReconciler.mirrorRefs, List.filterMap_cons, hvalid, hb,
        resourceMappings.loadHTTP, Finset.insert_eq, Finset.union_comm]
    · show (r.recordAll _ _).allAssociatedRefGrants = _
      have hgf : r.grantFor
          { kind := gatewayapi.KindHTTPRoute, namespace_ := route.Namespace, name := route.Name
            refs := [T] } T = none := by
        simp [gatewayAPIReconciler.grantFor, hns, hgrant]
      simp [gatewayAPIReconciler.recordAll, gatewayAPIReconciler.consumedGrants,
        gatewayAPIReconciler.httpRefs, gwapiv1b1.HTTPRoute.withRules, mirrorRule,
        gatewayAPIReconciler.validRefs, gatewayAPIReconciler.mirrorRefs, List.filterMap_cons,
        hvalid, hb, hgf, recordGrants, resourceMappings.loadHTTP]
    · rfl

/-- C9 on the snapshot (Scenario D): the HTTPRoute `ns1/web`, reduced to one
rule that mirrors to `svc4` of `ns4`, for which no grant exists. The mirror
target is recorded like the rule-level reference, no grant is recorded, and
the route is appended. -/
theorem C9_witness :
    (∃ resM resB,
      gatewayAPIReconciler.processHTTPRoutes
        { scenarioReconciler with
          listHTTPRoutes := fun _ =>
            .ok ([] ++ [scenarioHTTPRoute.withRules
              ([] ++ [mirrorRule (serviceRef (some "ns4") "svc4" (some 80)) none] ++ [])] ++ []) }
        "gw" emptyMappings emptyResources = some resM ∧
      gatewayAPIReconciler.processHTTPRoutes
        { scenarioReconciler with
          listHTTPRoutes := fun _ =>
            .ok ([] ++ [scenarioHTTPRoute.withRules
              ([] ++ [backendRule (serviceRef (some "ns4") "svc4" (some 80)) []] ++ [])] ++ []) }
        "gw" emptyMappings emptyResources = some resB ∧
      resM.err = none ∧ resB.err = none ∧
      resM.resourceMap = resB.resourceMap ∧
      resM.resourceMap.allAssociatedBackendRefs = resB.resourceMap.allAssociatedBackendRefs ∧
      resM.resourceMap.allAssociatedRefGrants = resB.resourceMap.allAssociatedRefGrants) ∧
    (∃ res, gatewayAPIReconciler.processHTTPRoutes
        { scenarioReconciler with
          listHTTPRoutes := fun _ =>
            .ok [scenarioHTTPRoute.withRules
              [mirrorRule (serviceRef (some "ns4") "svc4" (some 80)) none]] }
        "gw" emptyMappings emptyResources = some res ∧
      res.err = none ∧
      res.resourceMap.allAssociatedBackendRefs =
        insert (backendRefIdentity "ns1" (serviceRef (some "ns4") "svc4" (some 80)))
          emptyMappings.allAssociatedBackendRefs ∧
      res.resourceMap.allAssociatedRefGrants = emptyMappings.allAssociatedRefGrants ∧
      res.resourceTree.HTTPRoutes =
        emptyResources.HTTPRoutes ++
          [{ (scenarioHTTPRoute.withRules
              [mirrorRule (serviceRef (some "ns4") "svc4" (some 80)) none]) with
             Status := {} }]) :=
  have h := C9_mirror_target_as_backend_ref scenarioReconciler "gw" emptyMappings emptyResources
    _ _ _ scenarioHTTPRoute (serviceRef (some "ns4") "svc4" (some 80)) none []
    scenario_httpChecked rfl rfl rfl (by decide)
  ⟨h.2.1 [] [] [] [], h.2.2 (by decide) (by decide) rfl⟩

theorem backendRefIdentity_eq (ns : String) (x y : gwapiv1b1.BackendObjectReference)
    (hg : x.Group = y.Group) (hk : x.Kind = y.Kind) (hn : x.Name = y.Name)
    (hns : gatewayapi.NamespaceDerefOr x.Namespace ns = gatewayapi.NamespaceDerefOr y.Namespace ns) :
    backendRefIdentity ns x = backendRefIdentity ns y := by
  simp [backendRefIdentity, hg, hk, hn, hns]

/-! ## The by-content set and the Go map -/

theorem foldl_tlsBackendRefKeyStep (r : gatewayAPIReconciler) (route : gwapiv1a2.TLSRoute) :
    ∀ (bs : List gwapiv1a2.BackendRef) (m : KeyedBackendRefs),
      bs.foldl (r.tlsBackendRefKeyStep route) m =
        (r.validAlphaRefs bs).foldl
          (fun m b =>
            recordBackendRefKey b (gatewayapi.NamespaceDerefOr b.Namespace route.Namespace) m)
          m := by
  intro bs
  induction bs with
  | nil => intro m; rfl
  | cons b bs ih =>
    intro m
    rw [List.foldl_cons, ih]
    have hstep : r.tlsBackendRefKeyStep route m b =
        match r.validateBackendRef (r.UpgradeBackendRef b) with
        | some _ => m
        | none => recordBackendRefKey b.toBackendObjectReference
            (gatewayapi.NamespaceDerefOr b.Namespace route.Namespace) m := rfl
    rw [hstep]
    cases hb : r.validateBackendRef (r.UpgradeBackendRef b) <;>
      simp [gatewayAPIReconciler.validAlphaRefs, List.filter_cons, hb]

theorem foldl_tlsRuleKeys (r : gatewayAPIReconciler) (route : gwapiv1a2.TLSRoute) :
    ∀ (rules : List gwapiv1a2.TLSRouteRule) (m : KeyedBackendRefs),
      rules.foldl (fun m rule => rule.BackendRefs.foldl (r.tlsBackendRefKeyStep route) m) m =
        (rules.flatMap fun rule => r.validAlphaRefs rule.BackendRefs).foldl
          (fun m b =>
            recordBackendRefKey b (gatewayapi.NamespaceDerefOr b.Namespace route.Namespace) m)
          m := by
  intro rules
  induction rules with
  | nil => intro m; rfl
  | cons rule rules ih =>
    intro m
    rw [List.foldl_cons, ih, foldl_tlsBackendRefKeyStep]
    simp only [List.flatMap_cons, List.foldl_append]

/-- The key trace of `processTLSRoutes` stores one key per validated reference. -/
theorem processTLSRoutesKeys_ok (r : gatewayAPIReconciler) (gatewayNamespaceName : String)
    (m : KeyedBackendRefs) (routes : List gwapiv1a2.TLSRoute)
    (hlist : r.listTLSRoutes gatewayNamespaceName = .ok routes) :
    r.processTLSRoutesKeys gatewayNamespaceName m = recordAllKeys (routes.map r.tlsRefs) m := by
  simp only [gatewayAPIReconciler.processTLSRoutesKeys, hlist, recordAllKeys]
  clear hlist
  induction routes generalizing m with
  | nil => rfl
  | cons route routes ih =>
    rw [List.foldl_cons, ih, foldl_tlsRuleKeys]
    rfl

theorem recordBackendRefKey_spec (b : gwapiv1b1.BackendObjectReference) (ns : String)
    (m : KeyedBackendRefs) (h : m.Fresh) :
    (recordBackendRefKey b (gatewayapi.NamespaceDerefOr b.Namespace ns) m).Fresh ∧
      (recordBackendRefKey b (gatewayapi.NamespaceDerefOr b.Namespace ns) m).keys.card =
        m.keys.card + 1 ∧
      (recordBackendRefKey b (gatewayapi.NamespaceDerefOr b.Namespace ns) m).keys.image
          (·.contents) =
        insert (backendRefIdentity ns b) (m.keys.image (·.contents)) := by
  refine ⟨?_, ?_, ?_⟩
  · intro k hk
    simp only [recordBackendRefKey, Finset.mem_insert] at hk ⊢
    rcases hk with rfl | hk
    · exact Nat.lt_succ_self _
    · exact Nat.lt_succ_of_lt (h k hk)
  · simp only [recordBackendRefKey]
    rw [Finset.card_insert_of_not_mem]
    intro hk
    exact Nat.lt_irrefl _ (h _ hk)
  · simp [recordBackendRefKey, Finset.image_insert, backendRefIdentity,
      gatewayapi.NamespacePtrV1Alpha2]

theorem foldl_recordBackendRefKey (ns : String) :
    ∀ (bs : List gwapiv1b1.BackendObjectReference) (m : KeyedBackendRefs), m.Fresh →
      (bs.foldl (fun m b =>
          recordBackendRefKey b (gatewayapi.NamespaceDerefOr b.Namespace ns) m) m).Fresh ∧
        (bs.foldl (fun m b =>
          recordBackendRefKey b (gatewayapi.NamespaceDerefOr b.Namespace ns) m) m).keys.card =
          m.keys.card + bs.length ∧
        (bs.foldl (fun m b =>
          recordBackendRefKey b (gatewayapi.NamespaceDerefOr b.Namespace ns) m) m).keys.image
            (·.contents) =
          m.keys.image (·.contents) ∪ (bs.map (backendRefIdentity ns)).toFinset := by
  intro bs
  induction bs with
  | nil => intro m h; simp [h]
  | cons b bs ih =>
    intro m h
    obtain ⟨h1, h2, h3⟩ := recordBackendRefKey_spec b ns m h
    obtain ⟨g1, g2, g3⟩ := ih _ h1
    refine ⟨g1, ?_, ?_⟩
    · rw [List.foldl_cons, g2, h2, List.length_cons]
      omega
    · rw [List.foldl_cons, g3, h3, List.map_cons, List.toFinset_cons]
      ext k
      simp only [Finset.mem_union, Finset.mem_insert]
      tauto

/-- The Go map after a listing: every address allocated, one key more per
validated reference, and the contents of its keys are those on entry together
with the recorded identities. -/
theorem recordAllKeys_spec :
    ∀ (vs : List RouteRefs) (m : KeyedBackendRefs), m.Fresh →
      (recordAllKeys vs m).Fresh ∧
        (recordAllKeys vs m).keys.card = m.keys.card + (vs.map (·.refs.length)).sum ∧
        (recordAllKeys vs m).keys.image (·.contents) =
          m.keys.image (·.contents) ∪ (recordedIdentities vs).toFinset := by
  intro vs
  induction vs with
  | nil => intro m h; simp [recordAllKeys, recordedIdentities, h]
  | cons v vs ih =>
    intro m h
    obtain ⟨h1, h2, h3⟩ := foldl_recordBackendRefKey v.namespace_ v.refs m h
    obtain ⟨g1, g2, g3⟩ := ih _ h1
    have hcons : recordAllKeys (v :: vs) m =
        recordAllKeys vs (v.refs.foldl (fun m b =>
          recordBackendRefKey b (gatewayapi.NamespaceDerefOr b.Namespace v.namespace_) m) m) := rfl
    rw [hcons]
    refine ⟨g1, ?_, ?_⟩
    · rw [g2, h2, List.map_cons, List.sum_cons]
      omega
    · rw [g3, h3]
      simp only [recordedIdentities, List.flatMap_cons, List.toFinset_append, Finset.union_assoc]

/-- The by-content set of the working set is the set of the contents of the
keys of the Go map: if that holds on entry, it holds after `processTLSRoutes`,
and the Go map has gained one key per validated reference. -/
theorem processTLSRoutes_keys_contents (r : gatewayAPIReconciler)
    (gatewayNamespaceName : String) (rm : resourceMappings) (rt : gatewayapi.Resources)
    (m : KeyedBackendRefs) (routes : List gwapiv1a2.TLSRoute)
    (hlist : r.listTLSRoutes gatewayNamespaceName = .ok routes) (hfresh : m.Fresh)
    (hentry : m.keys.image (·.contents) = rm.allAssociatedBackendRefs) :
    (r.processTLSRoutesKeys gatewayNamespaceName m).keys.image (·.contents) =
        (r.processTLSRoutes gatewayNamespaceName rm rt).resourceMap.allAssociatedBackendRefs ∧
      (r.processTLSRoutesKeys gatewayNamespaceName m).keys.card =
        m.keys.card + ((routes.map r.tlsRefs).map (·.refs.length)).sum := by
  obtain ⟨_, h2, h3⟩ := recordAllKeys_spec (routes.map r.tlsRefs) m hfresh
  rw [processTLSRoutesKeys_ok r gatewayNamespaceName m routes hlist,
    processTLSRoutes_ok r gatewayNamespaceName rm rt routes hlist]
  exact ⟨by rw [h3, hentry]; rfl, h2⟩

/-- C10 fails in the code: the TLSRoute `ns1/twice` refers to `svc0` once
without namespace (port 443, weight 1) and once naming `ns1` (port 8443,
weight 2). Both references pass validation and their keys have the same
contents (group, kind, resolved namespace, name; no port), yet each key holds
its own namespace pointer, so the Go map holds two keys after both references
and one key after the first alone. -/
theorem C10_one_key_per_occurrence :
    scenarioReconciler.validateBackendRef (scenarioReconciler.UpgradeBackendRef sameServiceA)
      = none ∧
    scenarioReconciler.validateBackendRef (scenarioReconciler.UpgradeBackendRef sameServiceB)
      = none ∧
    sameServiceA.Port ≠ sameServiceB.Port ∧ sameServiceA.Weight ≠ sameServiceB.Weight ∧
    backendRefIdentity "ns1" sameServiceA.toBackendObjectReference =
      backendRefIdentity "ns1" sameServiceB.toBackendObjectReference ∧
    (duplicateReconciler.processTLSRoutesKeys "gw" emptyKeys).keys =
      {{ namespacePtr := 0
         contents := backendRefIdentity "ns1" sameServiceA.toBackendObjectReference },
       { namespacePtr := 1
         contents := backendRefIdentity "ns1" sameServiceB.toBackendObjectReference }} ∧
    (duplicateReconciler.processTLSRoutesKeys "gw" emptyKeys).keys.card = 2 ∧
    (singleReconciler.processTLSRoutesKeys "gw" emptyKeys).keys.card = 1 := by
  refine ⟨by decide, by decide, by decide, by decide, by decide, ?_, ?_, ?_⟩
  · decide
  · decide
  · decide

/-- C11 fails in `processGRPCRoutes`: on a fresh working set and tree, with the
externally-managed filter `ns1/wasm` in the snapshot and a GRPCRoute of `ns1`
whose ExtensionRef filter of kind `WasmFilter` names it, both orders return
nil, but gRPC-then-HTTP leaves `ExtensionRefFilters` empty while
HTTP-then-gRPC appends the filter: `processGRPCRoutes` never loads the
`extensionRefFilters` catalog and finds the object only if `processHTTPRoutes`
ran before it. -/
theorem C11_grpc_extension_filter_depends_on_order :
    extensionReconciler.getExtensionRefFilters = .ok [scenarioExtensionFilter] ∧
    (extensionReconciler.runProcessors "gw" [.GRPC, .HTTP] emptyMappings emptyResources).map
        (fun res => (res.err, res.resourceTree.ExtensionRefFilters)) = some (none, []) ∧
    (extensionReconciler.runProcessors "gw" [.HTTP, .GRPC] emptyMappings emptyResources).map
        (fun res => (res.err, res.resourceTree.ExtensionRefFilters)) =
      some (none, [scenarioExtensionFilter]) ∧
    (extensionReconciler.processGRPCRoutes "gw" emptyMappings emptyResources).map
        (fun res => (res.err, res.resourceTree.ExtensionRefFilters,
          res.resourceTree.GRPCRoutes.length)) = some (none, [], 1) := by
  refine ⟨rfl, ?_, ?_, ?_⟩
  · decide
  · decide
  · decide

/-- A processor reads of the reconciler only the snapshot of its Gateway. -/
theorem processCategory_congr (gatewayNamespaceName : String) (r r' : gatewayAPIReconciler)
    (h : SameSnapshot gatewayNamespaceName r r') (category : RouteCategory)
    (rm : resourceMappings) (rt : gatewayapi.Resources) :
    r.processCategory gatewayNamespaceName category rm rt =
      r'.processCategory gatewayNamespaceName category rm rt := by
  obtain ⟨h1, h2, h3, h4, h5, h6, h7, h8, h9, h10, h11, h12, h13⟩ := h
  cases r
  cases r'
  simp only at h1 h2 h3 h4 h5 h6 h7 h8 h9 h10 h11 h12 h13
  obtain rfl := h6
  obtain rfl := h7
  obtain rfl := h8
  obtain rfl := funext fun a => funext fun b => h9 a b
  obtain rfl := funext h10
  obtain rfl := funext h11
  obtain rfl := funext h12
  obtain rfl := funext h13
  cases category
  · simp only [gatewayAPIReconciler.processCategory, gatewayAPIReconciler.processTLSRoutes, h1]
    rfl
  · simp only [gatewayAPIReconciler.processCategory, gatewayAPIReconciler.processGRPCRoutes, h2]
    rfl
  · simp only [gatewayAPIReconciler.processCategory, gatewayAPIReconciler.processHTTPRoutes, h3]
    rfl
  · simp only [gatewayAPIReconciler.processCategory, gatewayAPIReconciler.processTCPRoutes, h4]
    rfl
  · simp only [gatewayAPIReconciler.processCategory, gatewayAPIReconciler.processUDPRoutes, h5]
    rfl

theorem runProcessors_congr (gatewayNamespaceName : String) (r r' : gatewayAPIReconciler)
    (h : SameSnapshot gatewayNamespaceName r r') :
    ∀ (order : List RouteCategory) (rm : resourceMappings) (rt : gatewayapi.Resources),
      r.runProcessors gatewayNamespaceName order rm rt =
        r'.runProcessors gatewayNamespaceName order rm rt := by
  intro order
  induction order with
  | nil => intro rm rt; rfl
  | cons category rest ih =>
    intro rm rt
    simp only [gatewayAPIReconciler.runProcessors,
      processCategory_congr gatewayNamespaceName r r' h category rm rt, ih]

theorem processGRPCRoutes_returns (r : gatewayAPIReconciler) (hv : r.GRPCFiltersChecked)
    (gatewayNamespaceName : String) (rm : resourceMappings) (rt : gatewayapi.Resources) :
    ∃ res, r.processGRPCRoutes gatewayNamespaceName rm rt = some res := by
  cases hauth : r.getAuthenticationFilters with
  | error e =>
    simp only [gatewayAPIReconciler.processGRPCRoutes, hauth]
    exact ⟨_, rfl⟩
  | ok authenFilters =>
    cases hrate : r.getRateLimitFilters with
    | error e =>
      simp only [gatewayAPIReconciler.processGRPCRoutes, hauth, hrate]
      exact ⟨_, rfl⟩
    | ok rateLimitFilters =>
      cases hlist : r.listGRPCRoutes gatewayNamespaceName with
      | error e =>
        simp only [gatewayAPIReconciler.processGRPCRoutes, hauth, hrate, hlist]
        exact ⟨_, rfl⟩
      | ok routes =>
        exact ⟨_, processGRPCRoutes_ok r hv gatewayNamespaceName rm rt authenFilters
          rateLimitFilters routes hauth hrate hlist⟩

theorem processHTTPRoutes_returns (r : gatewayAPIReconciler) (hv : r.HTTPFiltersChecked)
    (gatewayNamespaceName : String) (rm : resourceMappings) (rt : gatewayapi.Resources) :
    ∃ res, r.processHTTPRoutes gatewayNamespaceName rm rt = some res := by
  cases hauth : r.getAuthenticationFilters with
  | error e =>
    simp only [gatewayAPIReconciler.processHTTPRoutes, hauth]
    exact ⟨_, rfl⟩
  | ok authenFilters =>
    cases hrate : r.getRateLimitFilters with
    | error e =>
      simp only [gatewayAPIReconciler.processHTTPRoutes, hauth, hrate]
      exact ⟨_, rfl⟩
    | ok rateLimitFilters =>
      cases hext : r.getExtensionRefFilters with
      | error e =>
        simp only [gatewayAPIReconciler.processHTTPRoutes, hauth, hrate, hext]
        exact ⟨_, rfl⟩
      | ok extensionRefFilters =>
        cases hlist : r.listHTTPRoutes gatewayNamespaceName with
        | error e =>
          simp only [gatewayAPIReconciler.processHTTPRoutes, hauth, hrate, hext, hlist]
          exact ⟨_, rfl⟩
        | ok routes =>
          exact ⟨_, processHTTPRoutes_ok r hv gatewayNamespaceName rm rt authenFilters
            rateLimitFilters extensionRefFilters routes hauth hrate hext hlist⟩

theorem processCategory_returns (r : gatewayAPIReconciler) (hh : r.HTTPFiltersChecked)
    (hg : r.GRPCFiltersChecked) (gatewayNamespaceName : String) (category : RouteCategory)
    (rm : resourceMappings) (rt : gatewayapi.Resources) :
    ∃ res, r.processCategory gatewayNamespaceName category rm rt = some res := by
  cases category
  · exact ⟨_, rfl⟩
  · exact processGRPCRoutes_returns r hg gatewayNamespaceName rm rt
  · exact processHTTPRoutes_returns r hh gatewayNamespaceName rm rt
  · exact ⟨_, rfl⟩
  · exact ⟨_, rfl⟩

theorem runProcessors_returns (r : gatewayAPIReconciler) (hh : r.HTTPFiltersChecked)
    (hg : r.GRPCFiltersChecked) (gatewayNamespaceName : String) :
    ∀ (order : List RouteCategory) (rm : resourceMappings) (rt : gatewayapi.Resources),
      ∃ res, r.runProcessors gatewayNamespaceName order rm rt = some res := by
  intro order
  induction order with
  | nil => intro rm rt; exact ⟨_, rfl⟩
  | cons category rest ih =>
    intro rm rt
    obtain ⟨res, hres⟩ := processCategory_returns r hh hg gatewayNamespaceName category rm rt
    cases herr : res.err with
    | some e => exact ⟨res, by simp only [gatewayAPIReconciler.runProcessors, hres, herr]⟩
    | none =>
      obtain ⟨res', hres'⟩ := ih res.resourceMap res.resourceTree
      exact ⟨res', by simp only [gatewayAPIReconciler.runProcessors, hres, herr, hres']⟩

/-- C12: the pipeline is a function of the input snapshot. Two runs of the
processors in the same order (any order, the five categories in particular)
over the same snapshot - the same route listings for the Gateway, the same
filter listings, the same validator and grant-resolver results - each starting
from its own copy of the same working set and resource tree (the fresh empty
ones in particular), both return, with the same error value, equal resource
trees (every list in the same order) and equal working sets. -/
theorem C12_pipeline_is_a_function_of_the_snapshot (gatewayNamespaceName : String)
    (r r' : gatewayAPIReconciler) (order : List RouteCategory)
    (hsame : SameSnapshot gatewayNamespaceName r r')
    (hh : r.HTTPFiltersChecked) (hg : r.GRPCFiltersChecked) :
    (∃ res, r.runProcessors gatewayNamespaceName order emptyMappings emptyResources = some res ∧
      r'.runProcessors gatewayNamespaceName order emptyMappings emptyResources = some res) ∧
    (∀ rm rt, ∃ res, r.runProcessors gatewayNamespaceName order rm rt = some res ∧
      r'.runProcessors gatewayNamespaceName order rm rt = some res) := by
  have hall : ∀ rm rt, ∃ res, r.runProcessors gatewayNamespaceName order rm rt = some res ∧
      r'.runProcessors gatewayNamespaceName order rm rt = some res := by
    intro rm rt
    obtain ⟨res, hres⟩ := runProcessors_returns r hh hg gatewayNamespaceName order rm rt
    exact ⟨res, hres, by rw [← runProcessors_congr gatewayNamespaceName r r' hsame order rm rt, hres]⟩
  exact ⟨hall emptyMappings emptyResources, hall⟩

theorem scoped_sameSnapshot : SameSnapshot "gw" scenarioReconciler scopedReconciler :=
  ⟨rfl, rfl, rfl, rfl, rfl, rfl, rfl, rfl, fun _ _ => rfl, fun _ => rfl, fun _ => rfl,
    fun _ => rfl, fun _ => rfl⟩

/-- C12 on the snapshot: the five processors in the order TLS, HTTP, gRPC, TCP,
UDP, run once through the snapshot's own client and once through a client that
serves only the Gateway `gw`, give the same result from fresh aggregates. -/
theorem C12_witness :
    ∃ res,
      scenarioReconciler.runProcessors "gw" [.TLS, .HTTP, .GRPC, .TCP, .UDP] emptyMappings
        emptyResources = some res ∧
      scopedReconciler.runProcessors "gw" [.TLS, .HTTP, .GRPC, .TCP, .UDP] emptyMappings
        emptyResources = some res :=
  (C12_pipeline_is_a_function_of_the_snapshot "gw" scenarioReconciler scopedReconciler
    [.TLS, .HTTP, .GRPC, .TCP, .UDP] scoped_sameSnapshot scenario_httpChecked
    scenario_grpcChecked).1

end Kubernetes
